import Mathlib

/-!
# Karcher booking bot: the conversational state machine of `src/server.js`

A shallow embedding of the Telegram handlers of `server.js` (lines 53-727).

* The process-wide object `userStates` is a function from chat id to an optional
  `Session`; `delete userStates[chatId]` and assignment are point updates.
* A handler is a function of the session map, the incoming message and a `World`
  (everything the handler reads from outside the process: the answers of
  `pool.query`, `bcrypt.hash`, the clock, `Math.random`, the time zone, the locale
  formatting of the runtime). It returns an `Outcome`: the new session map, the
  trace of calls it made (`bot.sendMessage`, `pool.query`, `console.*`) in program
  order, and the error it raised, if any.
* JavaScript `undefined` and SQL `NULL` are `none`.
* Strings are lists of Unicode characters. Telegram delivers well-formed text, and
  on well-formed text a literal pattern matches on UTF-16 code units exactly where
  it matches on characters.
* A handler function (`confirmHandler`, `deleteIdInput`, ...) is the handler run on its
  own to its end. `processUpdate` is the dispatch of one message through all handlers:
  there a handler that waits on an answer resumes after the others have had the message.
  Messages are processed one after another (section 5 of the specification).
-/

namespace Karcher

/-! ## Data model -/

/-- A thrown JavaScript error: `message`, and for errors of the `pg` driver the SQLSTATE
`code` and the violated `constraint`. -/
structure JsError where
  message : String
  code : Option String := none
  constraint : Option String := none
deriving DecidableEq, Repr

/-- The values the code assigns to `userStates[chatId].step`. -/
inductive Step where
  | service
  | date
  | client_name
  | client_phone
  | client_address
  | confirm
  | delete_ask_id
  | confirm_delete
deriving DecidableEq, Repr

/-- The object `userStates[chatId].data`; a field that was never assigned is `none`. -/
structure Draft where
  service_name : Option String := none
  booking_date : Option String := none
  client_name : Option String := none
  client_phone : Option String := none
  client_address : Option String := none
deriving DecidableEq, Repr

/-- A row returned by `pool.query`, with the columns the bot's handlers read.
`booking_date` holds the timestamp in its ISO form. -/
structure Row where
  id : Int
  client_id : Option Int := none
  service_name : Option String := none
  booking_date : Option String := none
  address : Option String := none
  first_name : Option String := none
  last_name : Option String := none
  phone_number : Option String := none
  email : Option String := none
  booking_count : Option String := none
  count : Option String := none
deriving DecidableEq, Repr

/-- One entry of `userStates`. The delete flow creates `{ step: 'delete_ask_id' }`,
an entry without `data`. -/
structure Session where
  step : Step
  data : Option Draft := none
  deleteCandidate : Option Row := none
deriving DecidableEq, Repr

/-- The object `userStates`, keyed by `msg.chat.id`. -/
abbrev Sessions := Int → Option Session

/-- The statement `delete userStates[chatId]`. -/
def Sessions.del (userStates : Sessions) (chatId : Int) : Sessions :=
  fun c => if c = chatId then none else userStates c

/-- The statement `userStates[chatId] = s` (also the result of mutating the entry in place). -/
def Sessions.set (userStates : Sessions) (chatId : Int) (s : Session) : Sessions :=
  fun c => if c = chatId then some s else userStates c

/-- The numbers `parseInt` returns apart from `NaN`: an integer that is the value of a
double, or one of the two infinities. (`-0` is `finite 0`: the two print the same and
reach the repository as the same text.) -/
inductive JsNumber where
  | finite (value : Int)
  | infinity (negative : Bool)
deriving DecidableEq, Repr

/-- A numeral as a JavaScript number. -/
@[reducible, instance]
def JsNumber.ofNat (n : Nat) : OfNat JsNumber n := ⟨.finite n⟩

/-- The SQL statements the bot sends through `pool.query`, with their parameters. -/
inductive Query where
  /-- Statement `INSERT INTO clients (first_name, last_name, phone_number, email, password_hash)
  VALUES (...) RETURNING id, ...`. The bot writes the literal `''` for `last_name`
  (line 400), the route `POST /find-or-create-client` passes it as a parameter. -/
  | insertClient (first_name : Option String) (last_name : String) (phone_number : Option String)
      (email password_hash : String)
  /-- Statement `INSERT INTO bookings (client_id, service_name, booking_date, address)
  VALUES ($1, $2, $3, $4) RETURNING id, client_id, service_name, booking_date, address`. -/
  | insertBooking (client_id : Int) (service_name booking_date address : Option String)
  /-- Statement `SELECT first_name, last_name, phone_number FROM clients WHERE id = $1`. -/
  | selectClientById (id : Option Int)
  /-- Statement `SELECT b.*, c.first_name, c.last_name, c.phone_number FROM bookings b
  LEFT JOIN clients c ON b.client_id = c.id WHERE b.id = $1`. -/
  | selectBookingById (id : JsNumber)
  /-- Statement `DELETE FROM bookings WHERE id = $1 RETURNING id`. -/
  | deleteBooking (id : Int)
  /-- The listing of all bookings joined with their clients, ordered by service. -/
  | selectAllBookings
  /-- The listing of the bookings whose `DATE(booking_date)` is `$1`. -/
  | selectBookingsOn (today : String)
  /-- The ten most recent clients with their booking counts. -/
  | selectRecentClients
  /-- Statement `SELECT COUNT(*) FROM bookings WHERE DATE(booking_date) = $1`. -/
  | countBookingsOn (today : String)
  /-- The count of the bookings of the current month. -/
  | countBookingsThisMonth
  /-- The five most booked services. -/
  | popularServices
  /-- Statement `SELECT COUNT(*) FROM clients`. -/
  | countClients
deriving DecidableEq, Repr

/-- The reply keyboards declared at lines 74-120, `remove` for
`reply_markup: { remove_keyboard: true }` and `none` when no markup is passed. -/
inductive Keyboard where
  | main
  | services
  | confirm
  | yesNo
  | back
  | remove
  | none
deriving DecidableEq, Repr

/-- A call the handlers make, recorded in program order. `sendMessage` is the call of
`bot.sendMessage(chatId, text, options)`, whether or not Telegram delivers it;
`markdown` stands for `parse_mode: 'Markdown'`. -/
inductive Effect where
  | sendMessage (chatId : String) (text : String) (markdown : Bool) (keyboard : Keyboard)
  | query (q : Query)
  | consoleError (label detail : String)
  | consoleLog (text : String)
deriving DecidableEq, Repr

/-- What a handler reads from outside the process. -/
structure World where
  /-- Value of `process.env.TELEGRAM_ADMIN_CHAT_ID`. -/
  ADMIN_CHAT_ID : String
  /-- The answer of `await pool.query(q)`: the rows, or the error it rejects with. No
  handler sends the same statement with the same parameters twice, so a function of the
  call covers every course of one handler run. -/
  query : Query → Except JsError (List Row)
  /-- Value of `Date.now()`. -/
  now : Nat
  /-- Value of `Math.random().toString(36)` at the k-th call of a handler. -/
  random36 : Nat → String
  /-- The answer of `await bcrypt.hash(password, 10)`. -/
  bcryptHash : String → Except JsError String
  /-- The answer of an awaited `bot.sendMessage(chatId, text, ...)`. -/
  deliver : String → String → Except JsError Unit
  /-- The offset of local time from UTC, in milliseconds, at a local time value
  (`LocalTZA(t, false)` of ECMAScript). -/
  localTZA : Int → Int
  /-- The method `Date.prototype.toISOString` on a valid time value. -/
  toISOString : Int → String
  /-- The expression `new Date(v).toLocaleDateString('ru-RU')`. -/
  toLocaleDateString : Option String → String
  /-- The expression `new Date(v).toLocaleTimeString('ru-RU', { hour: '2-digit', minute: '2-digit' })`. -/
  toLocaleTimeString : Option String → String
  /-- The expression `new Date().toLocaleTimeString('ru-RU')`. -/
  clockString : String

/-- The result of running one handler. -/
structure Outcome where
  states : Sessions
  trace : List Effect
  raised : Option JsError := none

/-- The repository calls of a trace, in order. -/
def queriesOf : List Effect → List Query
  | [] => []
  | Effect.query q :: es => q :: queriesOf es
  | _ :: es => queriesOf es

/-- The messages a trace sends to one chat, in order. -/
def textsTo (chat : String) : List Effect → List String
  | [] => []
  | Effect.sendMessage c t _ _ :: es => if c = chat then t :: textsTo chat es else textsTo chat es
  | _ :: es => textsTo chat es

/-! ## JavaScript string primitives -/

/-- Template interpolation of a value that is a string or `undefined`. -/
def tplU : Option String → String
  | some s => s
  | none => "undefined"

/-- Template interpolation of a column value that is a string or `null`. -/
def tplN : Option String → String
  | some s => s
  | none => "null"

/-- JavaScript truthiness of a value that is a string, `undefined` or `null`. -/
def truthy : Option String → Bool
  | some s => s ≠ ""
  | none => false

/-- The expression `v || d` with a string default. -/
def orStr (v : Option String) (d : String) : String :=
  if truthy v then tplU v else d

/-- The expression `v || null`. -/
def orNull (v : Option String) : Option String :=
  if truthy v then v else none

/-- The method `String.prototype.slice(start, end)` on a list of characters. -/
def jsSlice (s : List Char) (start : Int) (stop : Option Int) : List Char :=
  let len : Int := s.length
  let clamp (i : Int) : Int := if i < 0 then max (len + i) 0 else min i len
  let a := clamp start
  let b := match stop with
    | some e => clamp e
    | none => len
  (s.drop a.toNat).take (b - a).toNat

/-- The method `String.prototype.includes(pat)`: `pat` occurs in `s`. -/
def includes (pat : List Char) : List Char → Bool
  | [] => pat.isEmpty
  | c :: cs => pat.isPrefixOf (c :: cs) || includes pat cs

/-- White space as `String.prototype.trim` and `parseInt` strip it (WhiteSpace and
LineTerminator of ECMAScript). -/
def isJsSpace (c : Char) : Bool :=
  let n := c.toNat
  n = 0x9 || n = 0xA || n = 0xB || n = 0xC || n = 0xD || n = 0x20 || n = 0xA0 || n = 0x1680 ||
  (0x2000 ≤ n && n ≤ 0x200A) || n = 0x2028 || n = 0x2029 || n = 0x202F || n = 0x205F ||
  n = 0x3000 || n = 0xFEFF

/-- The method `String.prototype.trim`. -/
def jsTrim (s : String) : String :=
  String.mk ((((s.data.dropWhile isJsSpace).reverse).dropWhile isJsSpace).reverse)

/-! ## The confirm handler (lines 385-444) and the notifier (lines 687-719) -/

/-- The text the notifier composes from the booking and the rows of its client lookup
(lines 693-710). -/
def notificationText (w : World) (bookingData : Row) (rows : List Row) : String :=
  let names : String × String :=
    match rows with
    | [] => ("Не указан", "Не указан")
    | client :: _ =>
      (orStr (some (jsTrim (orStr client.first_name "" ++ " " ++ orStr client.last_name "")))
          "Не указан",
       orStr client.phone_number "Не указан")
  let date := w.toLocaleDateString bookingData.booking_date
  let time := w.clockString
  "🆕 *Новое бронирование!*\n\n" ++
  "*Услуга:* " ++ tplN bookingData.service_name ++ "\n" ++
  "*Дата:* " ++ date ++ "\n" ++
  "*Клиент:* " ++ names.1 ++ "\n" ++
  "*Телефон:* " ++ names.2 ++ "\n" ++
  "*Адрес:* " ++ orStr bookingData.address "Не указан" ++ "\n" ++
  "*Время создания:* " ++ time ++ "\n" ++
  "*ID:* " ++ toString bookingData.id

/-- The function `sendBookingNotification(bookingData)`, lines 687-719: its whole body
is one `try` whose `catch` only logs, so it returns its trace and never raises. -/
def sendBookingNotification (w : World) (bookingData : Row) : List Effect :=
  match w.query (.selectClientById bookingData.client_id) with
  | .error e =>
    [.query (.selectClientById bookingData.client_id),
     .consoleError "❌ Error sending Telegram notification:" e.message]
  | .ok rows =>
    match w.deliver w.ADMIN_CHAT_ID (notificationText w bookingData rows) with
    | .error e =>
      [.query (.selectClientById bookingData.client_id),
       .sendMessage w.ADMIN_CHAT_ID (notificationText w bookingData rows) true .main,
       .consoleError "❌ Error sending Telegram notification:" e.message]
    | .ok _ =>
      [.query (.selectClientById bookingData.client_id),
       .sendMessage w.ADMIN_CHAT_ID (notificationText w bookingData rows) true .main,
       .consoleLog ("✅ Telegram notification sent for booking ID: " ++ toString bookingData.id)]

/-- The synthesized address `client_${uniqueSuffix}@karcher.by` (lines 393-394). -/
def synthEmail (w : World) : String :=
  let uniqueSuffix :=
    String.mk (jsSlice (toString w.now).data (-6) none) ++
    String.mk (jsSlice (w.random36 0).data 2 (some 5))
  "client_" ++ uniqueSuffix ++ "@karcher.by"

/-- The temporary password `'temp' + Math.random().toString(36).slice(-8)` (line 395). -/
def tempPassword (w : World) : String :=
  "temp" ++ String.mk (jsSlice (w.random36 1).data (-8) none)

/-- The text of the failure reply of the confirm handler (line 439). -/
def confirmFailureText (e : JsError) : String :=
  "❌ Ошибка при создании бронирования:\n" ++ e.message

/-- The text of the success reply of the confirm handler (lines 418-424). -/
def confirmSuccessText (w : World) (data : Draft) (booking : Row) : String :=
  "✅ *Бронирование успешно создано!*\n\n" ++
  "*Услуга:* " ++ tplU data.service_name ++ "\n" ++
  "*Дата:* " ++ w.toLocaleDateString data.booking_date ++ "\n" ++
  "*Клиент:* " ++ tplU data.client_name ++ "\n" ++
  "*Телефон:* " ++ tplU data.client_phone ++ "\n" ++
  "*Адрес:* " ++ orStr data.client_address "Не указан" ++ "\n" ++
  "*ID бронирования:* " ++ toString booking.id

/-- The `catch (error)` block of the confirm handler (lines 436-443), after the calls `pre`. -/
def confirmCatch (userStates : Sessions) (chatId : Int) (pre : List Effect) (error : JsError) :
    Outcome :=
  { states := userStates.del chatId
    trace := pre ++ [.consoleError "Error adding booking:" error.message,
                     .sendMessage (toString chatId) (confirmFailureText error) false .main] }

/-- The `TypeError` of reading a property of `undefined`. -/
def typeErrorUndefined (property : String) : JsError :=
  { message := "Cannot read properties of undefined (reading '" ++ property ++ "')" }

/-- The client insert the confirm handler builds from the draft (lines 398-403). -/
def clientInsert (w : World) (data : Draft) (hashedPassword : String) : Query :=
  .insertClient data.client_name "" data.client_phone (synthEmail w) hashedPassword

/-- The booking insert the confirm handler builds from the draft (lines 407-412). -/
def bookingInsert (data : Draft) (clientId : Int) : Query :=
  .insertBooking clientId data.service_name data.booking_date (orNull data.client_address)

/-- The handler `bot.onText(/✅ Подтвердить/, ...)`, lines 385-444. The notifier is
assigned (line 687) in the block that registers the handlers, before any message is
polled, so the test `if (sendBookingNotification)` holds. -/
def confirmHandler (w : World) (userStates : Sessions) (chatId : Int) : Outcome :=
  let expired : Outcome :=
    { states := userStates
      trace := [.sendMessage (toString chatId) "Сессия истекла" false .main] }
  match userStates chatId with
  | none => expired
  | some session =>
    if session.step ≠ .confirm then expired
    else
      match w.bcryptHash (tempPassword w) with
      | .error e => confirmCatch userStates chatId [] e
      | .ok hashedPassword =>
        match session.data with
        | none => confirmCatch userStates chatId [] (typeErrorUndefined "client_name")
        | some data =>
          let q1 := clientInsert w data hashedPassword
          match w.query q1 with
          | .error e => confirmCatch userStates chatId [.query q1] e
          | .ok [] => confirmCatch userStates chatId [.query q1] (typeErrorUndefined "id")
          | .ok (newClient :: _) =>
            let clientId := newClient.id
            let q2 := bookingInsert data clientId
            match w.query q2 with
            | .error e => confirmCatch userStates chatId [.query q1, .query q2] e
            | .ok [] =>
              confirmCatch userStates chatId [.query q1, .query q2] (typeErrorUndefined "id")
            | .ok (booking :: _) =>
              { states := userStates.del chatId
                trace :=
                  [.query q1, .query q2,
                   .sendMessage (toString chatId) (confirmSuccessText w data booking) true .main]
                  ++ sendBookingNotification w booking }

/-! ## Dates: `new Date(year, monthIndex, day)` as ECMAScript defines it -/

/-- ToNumber of a string of decimal digits. -/
def digitsToNat (ds : List Char) : Nat :=
  ds.foldl (fun n c => 10 * n + (c.toNat - 48)) 0

/-- The day number of the first day of year `y` (ECMAScript DayFromYear); `/` rounds down. -/
def DayFromYear (y : Int) : Int :=
  365 * (y - 1970) + (y - 1969) / 4 - (y - 1901) / 100 + (y - 1601) / 400

/-- Whether year `y` has 366 days (ECMAScript InLeapYear). -/
def InLeapYear (y : Int) : Bool :=
  (y % 4 = 0 && y % 100 ≠ 0) || y % 400 = 0

/-- The day within the year on which month `mn` (0 to 11) starts. -/
def monthStart (mn : Int) (leap : Bool) : Int :=
  let l : Int := if leap then 1 else 0
  match mn with
  | 0 => 0
  | 1 => 31
  | 2 => 59 + l
  | 3 => 90 + l
  | 4 => 120 + l
  | 5 => 151 + l
  | 6 => 181 + l
  | 7 => 212 + l
  | 8 => 243 + l
  | 9 => 273 + l
  | 10 => 304 + l
  | _ => 334 + l

/-- ECMAScript MakeDay on integers: months beyond 0..11 carry into the year, and the day
of the month is added as an offset, so a day past the end of the month rolls over. -/
def MakeDay (year month date : Int) : Int :=
  let ym := year + month / 12
  let mn := month % 12
  DayFromYear ym + monthStart mn (InLeapYear ym) + date - 1

/-- Milliseconds per day. -/
def msPerDay : Int := 86400000

/-- ECMAScript TimeClip: a time value beyond 8.64e15 ms is `NaN` (`none`). -/
def TimeClip (t : Int) : Option Int :=
  if 8640000000000000 < t.natAbs then none else some t

/-- The time value of `new Date(year, month, day)` on integer arguments, `none` for an
Invalid Date. Years 0 to 99 mean 1900 to 1999. -/
def newDate (w : World) (year month day : Int) : Option Int :=
  let yr := if 0 ≤ year ∧ year ≤ 99 then 1900 + year else year
  let finalDate := MakeDay yr month day * msPerDay
  TimeClip (finalDate - w.localTZA finalDate)

/-- The match of `/^(\d{1,2})\.(\d{1,2})\.(\d{4})$/`: the three captured groups. A greedy
run of digits followed by a literal dot matches only when the whole run has one or two
digits. -/
def dateMatch (text : List Char) : Option (List Char × List Char × List Char) :=
  let p1 := text.span Char.isDigit
  if p1.1.length < 1 ∨ 2 < p1.1.length then none
  else
    match p1.2 with
    | '.' :: r2 =>
      let p2 := r2.span Char.isDigit
      if p2.1.length < 1 ∨ 2 < p2.1.length then none
      else
        match p2.2 with
        | '.' :: year =>
          if year.length = 4 ∧ year.all Char.isDigit then some (p1.1, p2.1, year) else none
        | _ => none
    | _ => none

/-! ## The free-text handler of the creation flow (lines 318-382) -/

/-- The literals the creation-flow handler returns on at once (lines 321-322). -/
def creationLiterals : List String :=
  ["📋 Все бронирования", "📅 На сегодня", "➕ Добавить бронирование",
   "🗑️ Удалить брони", "👥 Клиенты", "📊 Статистика", "↩️ Назад"]

/-- The expression `literals.includes(text)`; `undefined` is in none of the lists. -/
def isLiteral (literals : List String) : Option String → Bool
  | some t => literals.contains t
  | none => false

/-- The re-prompt for a text that does not match the date pattern (lines 331-333). -/
def dateFormatText : String :=
  "❌ *Неверный формат даты!*\n\n" ++
  "Введите в формате: *ДД.ММ.ГГГГ*\n" ++
  "Пример: *25.12.2024*"

/-- The summary sent when the address is stored (lines 369-375). -/
def checkDataText (w : World) (data : Draft) : String :=
  "📋 *Проверьте данные:*\n\n" ++
  "*Услуга:* " ++ tplU data.service_name ++ "\n" ++
  "*Дата:* " ++ w.toLocaleDateString data.booking_date ++ "\n" ++
  "*Клиент:* " ++ tplU data.client_name ++ "\n" ++
  "*Телефон:* " ++ tplU data.client_phone ++ "\n" ++
  "*Адрес:* " ++ tplU data.client_address ++ "\n\n" ++
  "Все верно?"

/-- The `TypeError` of assigning a property of `undefined`. -/
def typeErrorSet (property : String) : JsError :=
  { message := "Cannot set properties of undefined (setting '" ++ property ++ "')" }

/-- The first `bot.on('message', ...)` handler, lines 318-382. `text` is `msg.text`,
absent for a message that carries no text. -/
def creationInput (w : World) (userStates : Sessions) (chatId : Int) (text : Option String) :
    Outcome :=
  let me := toString chatId
  if isLiteral creationLiterals text then { states := userStates, trace := [] }
  else
    match userStates chatId with
    | none => { states := userStates, trace := [] }
    | some session =>
      if session.step = .date then
        match text with
        | none =>
          { states := userStates, trace := [], raised := some (typeErrorUndefined "includes") }
        | some t =>
          if includes "↩️".data t.data then { states := userStates, trace := [] }
          else
            match dateMatch t.data with
            | none =>
              { states := userStates, trace := [.sendMessage me dateFormatText true .none] }
            | some (day, month, year) =>
              match newDate w (digitsToNat year) ((digitsToNat month : Int) - 1)
                  (digitsToNat day) with
              | none =>
                { states := userStates, trace := [.sendMessage me "❌ Неверная дата!" false .none] }
              | some tv =>
                match session.data with
                | none =>
                  { states := userStates, trace := [],
                    raised := some (typeErrorSet "booking_date") }
                | some data =>
                  { states := userStates.set chatId
                      { session with
                        data := some { data with booking_date := some (w.toISOString tv) }
                        step := .client_name }
                    trace := [.sendMessage me "👤 *Введите имя клиента:*" true .none] }
      else if session.step = .client_name then
        match session.data with
        | none =>
          { states := userStates, trace := [], raised := some (typeErrorSet "client_name") }
        | some data =>
          { states := userStates.set chatId
              { session with data := some { data with client_name := text }, step := .client_phone }
            trace := [.sendMessage me
              ("📞 *Введите телефон клиента:*\n\n" ++ "_Пример: +375291234567_") true .none] }
      else if session.step = .client_phone then
        match session.data with
        | none =>
          { states := userStates, trace := [], raised := some (typeErrorSet "client_phone") }
        | some data =>
          { states := userStates.set chatId
              { session with
                data := some { data with client_phone := text }, step := .client_address }
            trace := [.sendMessage me
              ("📍 *Введите адрес доставки:*\n\n" ++
               "_Пример: г. Минск, ул. Пушкина, д. 10, кв. 5_") true .none] }
      else if session.step = .client_address then
        match session.data with
        | none =>
          { states := userStates, trace := [], raised := some (typeErrorSet "client_address") }
        | some data =>
          let data1 : Draft := { data with client_address := text }
          { states := userStates.set chatId { session with data := some data1, step := .confirm }
            trace := [.sendMessage me (checkDataText w data1) true .confirm] }
      else { states := userStates, trace := [] }

/-! ## The free-text handler of the delete flow (lines 472-527) -/

/-- The literals the delete-flow handler returns on at once (lines 475-477). -/
def deleteLiterals : List String :=
  ["📋 Все бронирования", "📅 На сегодня", "➕ Добавить бронирование",
   "🗑️ Удалить брони", "👥 Клиенты", "📊 Статистика", "↩️ Назад",
   "✅ Да", "❌ Нет", "✅ Подтвердить", "❌ Отменить"]

/-- The value of a digit in radix 10 or 16, `none` for any other character. -/
def digitValue (radix : Nat) (c : Char) : Option Nat :=
  if c.isDigit then some (c.toNat - 48)
  else if radix = 16 ∧ 'a'.toNat ≤ c.toNat ∧ c.toNat ≤ 'f'.toNat then some (c.toNat - 87)
  else if radix = 16 ∧ 'A'.toNat ≤ c.toNat ∧ c.toNat ≤ 'F'.toNat then some (c.toNat - 55)
  else none

/-- The longest prefix of digits of the radix, read as a number; `none` when the prefix
is empty. `acc` is the value read so far, `seen` whether a digit was read. -/
def readDigits (radix : Nat) : List Char → Nat → Bool → Option Nat
  | [], acc, seen => if seen then some acc else none
  | c :: cs, acc, seen =>
    match digitValue radix c with
    | some d => readDigits radix cs (radix * acc + d) true
    | none => if seen then some acc else none

/-- Binary digits counted with fuel: `bitLength n n` is the number of binary digits of
`n`. -/
def bitLength : Nat → Nat → Nat
  | 0, _ => 0
  | fuel + 1, n => if n = 0 then 0 else bitLength fuel (n / 2) + 1

/-- The Number value of a natural number: the number itself below 2^53, else the nearest
number with a significand of 53 bits, a tie going to the even significand; `none`
where that is 2^1024 or more, which is `Infinity`. With `e` the number of bits dropped
and `q1` the rounded significand, the result is below 2^1024 when `e < 971`, or
`e = 971` and `q1 < 2^53`. -/
def roundToDouble (n : Nat) : Option Nat :=
  if n < 2 ^ 53 then some n
  else
    let e := bitLength n n - 53
    let q := n / 2 ^ e
    let r := n % 2 ^ e
    let q1 := if 2 ^ e < 2 * r ∨ (2 * r = 2 ^ e ∧ q % 2 = 1) then q + 1 else q
    if e < 971 ∨ (e = 971 ∧ q1 < 2 ^ 53) then some (q1 * 2 ^ e) else none

/-- The call `parseInt(string)` without a radix, as ECMAScript defines it: leading white
space is skipped, a sign is read, `0x` or `0X` selects radix 16, and the longest prefix
of digits is read as an integer; the rest of the text is ignored. The result is the
Number value of that integer with its sign: the integer rounded to a double, an
infinity when it is too large. (ECMAScript lets an implementation read the decimal
digits after the twentieth as zeros; V8, which runs the bot, rounds the integer
exactly.) `none` is `NaN`. -/
def parseInt (inputString : List Char) : Option JsNumber :=
  let s := inputString.dropWhile isJsSpace
  let sign : Int := match s with
    | '-' :: _ => -1
    | _ => 1
  let s1 := match s with
    | '-' :: r => r
    | '+' :: r => r
    | _ => s
  let z := match s1 with
    | '0' :: 'x' :: r => readDigits 16 r 0 false
    | '0' :: 'X' :: r => readDigits 16 r 0 false
    | _ => readDigits 10 s1 0 false
  z.map (fun n =>
    match roundToDouble n with
    | some v => .finite (sign * (v : Int))
    | none => .infinity (sign = -1))

/-- The decimal with `k` significant digits next to the double `v`, below it or above
it, that rounds to `v`; of two the nearer to `v`, and of two equally near the one whose
last digit is even. -/
def shortestCandidate (v : Nat) (k : Nat) : Option Nat :=
  let p := 10 ^ ((Nat.toDigits 10 v).length - k)
  let lo := v / p * p
  let hi := lo + p
  let okLo : Bool := roundToDouble lo = some v
  let okHi : Bool := roundToDouble hi = some v
  if okLo && okHi then
    some (if v - lo < hi - v then lo
          else if hi - v < v - lo then hi
          else if (lo / p) % 2 = 0 then lo else hi)
  else if okLo then some lo
  else if okHi then some hi
  else none

/-- The integer whose digits `Number::toString` prints for the integer double `v`: the
one with the fewest significant digits that rounds to `v` (seventeen always do). Below
2^53 that is `v` itself. -/
def shortestDecimal (v : Nat) : Nat :=
  if v < 2 ^ 53 then v
  else ((List.range 17).findSome? (fun i => shortestCandidate v (i + 1))).getD v

/-- The text of a non-negative integer double as `Number::toString` gives it: the digits
of `shortestDecimal`, in full below 10^21 and in exponent form from there on (the
significant digits with a point after the first, `e+` and the exponent). -/
def natToJsString (v : Nat) : String :=
  let x := shortestDecimal v
  if x < 10 ^ 21 then toString x
  else
    let ds := Nat.toDigits 10 x
    let s := (ds.reverse.dropWhile (fun c => c = '0')).reverse
    match s with
    | [] => "0"
    | d :: rest =>
      String.mk ([d] ++ (if rest = [] then [] else '.' :: rest) ++ ['e', '+']) ++
        toString (ds.length - 1)

/-- The text of a number in a template literal, `Number::toString`. The `pg` driver
sends a number parameter as the same text. -/
def numberToString : JsNumber → String
  | .finite v => if v < 0 then "-" ++ natToJsString v.natAbs else natToJsString v.natAbs
  | .infinity false => "Infinity"
  | .infinity true => "-Infinity"

/-- The text that asks to confirm a deletion (lines 507-514), also the layout of the
success summary. -/
def bookingSummary (w : World) (head tail : String) (booking : Row) : String :=
  head ++
  "*Услуга:* " ++ tplN booking.service_name ++ "\n" ++
  "*Дата:* " ++ w.toLocaleDateString booking.booking_date ++ "\n" ++
  "*Клиент:* " ++ orStr booking.first_name "-" ++ " " ++ orStr booking.last_name "" ++ "\n" ++
  "*Телефон:* " ++ orStr booking.phone_number "-" ++ "\n" ++
  (if truthy booking.address then "*Адрес:* " ++ tplN booking.address ++ "\n" else "") ++
  "*ID:* " ++ toString booking.id ++ "\n\n" ++
  tail

/-- The second `bot.on('message', ...)` handler, lines 472-527. -/
def deleteIdInput (w : World) (userStates : Sessions) (chatId : Int) (text : Option String) :
    Outcome :=
  let me := toString chatId
  if isLiteral deleteLiterals text then { states := userStates, trace := [] }
  else
    match userStates chatId with
    | none => { states := userStates, trace := [] }
    | some session =>
      if session.step = .delete_ask_id then
        match parseInt (tplU text).data with
        | none =>
          { states := userStates.del chatId
            trace := [.sendMessage me "❌ Введите число (ID бронирования)" false .main] }
        | some bookingId =>
          let q := Query.selectBookingById bookingId
          match w.query q with
          | .error e =>
            { states := userStates.del chatId
              trace := [.query q, .consoleError "Error checking booking:" e.message,
                        .sendMessage me "❌ Ошибка при проверке бронирования" false .main] }
          | .ok [] =>
            { states := userStates.del chatId
              trace := [.query q,
                        .sendMessage me
                          ("❌ Бронирование с ID *" ++ numberToString bookingId ++ "* не найдено")
                          true .main] }
          | .ok (booking :: _) =>
            { states := userStates.set chatId
                { session with deleteCandidate := some booking, step := .confirm_delete }
              trace := [.query q,
                        .sendMessage me
                          (bookingSummary w "⚠️ *Подтвердите удаление:*\n\n"
                            "Удалить это бронирование?" booking)
                          true .yesNo] }
      else { states := userStates, trace := [] }

/-! ## Navigation, cancellation and the delete confirmation -/

/-- The handler `bot.onText(/\/start/, ...)`, lines 123-143. -/
def startHandler (w : World) (userStates : Sessions) (chatId : Int) : Outcome :=
  let isAdmin : Bool := toString chatId = w.ADMIN_CHAT_ID
  { states := userStates.del chatId
    trace :=
      if isAdmin then
        [.sendMessage (toString chatId)
          ("👋 *Добро пожаловать в панель управления бронированиями!*\n\n" ++
           "Выберите действие на клавиатуре ниже") true .main]
      else
        [.sendMessage (toString chatId)
          ("👋 Привет! Я бот для управления бронированиями.\n\n" ++
           "Чтобы получить доступ, свяжитесь с администратором.") false .main] }

/-- The handler `bot.onText(/↩️ Назад/, ...)`, lines 146-150. -/
def backHandler (userStates : Sessions) (chatId : Int) : Outcome :=
  { states := userStates.del chatId
    trace := [.sendMessage (toString chatId) "Главное меню:" false .main] }

/-- The handler `bot.onText(/❌ Отменить/, ...)`, lines 447-451. -/
def cancelHandler (userStates : Sessions) (chatId : Int) : Outcome :=
  { states := userStates.del chatId
    trace := [.sendMessage (toString chatId) "❌ Действие отменено" false .main] }

/-- The handler `bot.onText(/✅ Да/, ...)`, lines 530-564. -/
def yesHandler (w : World) (userStates : Sessions) (chatId : Int) : Outcome :=
  let me := toString chatId
  match userStates chatId with
  | none => { states := userStates, trace := [] }
  | some session =>
    if session.step ≠ .confirm_delete then { states := userStates, trace := [] }
    else
      let failed (pre : List Effect) (error : JsError) : Outcome :=
        { states := userStates.del chatId
          trace := pre ++ [.consoleError "Error deleting booking:" error.message,
                           .sendMessage me "❌ Ошибка при удалении бронирования" false .main] }
      match session.deleteCandidate with
      | none => failed [] (typeErrorUndefined "id")
      | some booking =>
        let q := Query.deleteBooking booking.id
        match w.query q with
        | .error e => failed [.query q] e
        | .ok [] =>
          { states := userStates.del chatId
            trace := [.query q,
                      .sendMessage me "❌ Бронирование не найдено при удалении" false .main] }
        | .ok (_ :: _) =>
          { states := userStates.del chatId
            trace := [.query q,
                      .sendMessage me
                        (bookingSummary w "✅ *Бронирование удалено!*\n\n"
                          "Для обновления данных на сайте перезагрузите страницу" booking)
                        true .main,
                      .consoleLog ("✅ Бронирование ID " ++ toString booking.id ++
                        " удалено через Telegram")] }

/-- The handler `bot.onText(/❌ Нет/, ...)`, lines 567-573. -/
def noHandler (userStates : Sessions) (chatId : Int) : Outcome :=
  match userStates chatId with
  | none => { states := userStates, trace := [] }
  | some session =>
    if session.step = .confirm_delete then
      { states := userStates.del chatId
        trace := [.sendMessage (toString chatId) "❌ Удаление отменено" false .main] }
    else { states := userStates, trace := [] }

/-! ## The access guard and the six privileged commands -/

/-- The guard `chatId.toString() === ADMIN_CHAT_ID`. -/
def isAdmin (w : World) (chatId : Int) : Bool :=
  toString chatId = w.ADMIN_CHAT_ID

/-- The reply of every privileged command to another user:
`bot.sendMessage(chatId, '⛔ Нет доступа', { ...backKeyboard }); return;`. -/
def accessDenied (userStates : Sessions) (chatId : Int) : Outcome :=
  { states := userStates
    trace := [.sendMessage (toString chatId) "⛔ Нет доступа" false .back] }

/-- The three canonical service names, in the order of `serviceOrder` (lines 188-192). -/
def serviceOrder : List String :=
  ["Аренда пылесоса Karcher Puzzi 8/1 C",
   "Аренда пароочистителя Karcher SC 4 Deluxe",
   "Аренда мойки высокого давления Karcher K 5 Full Control"]

/-- The property names every object inherits from `Object.prototype`: reading one of
them from the fresh object `groupedBookings` gives a value that is not an array. -/
def objectPrototypeKeys : List String :=
  ["constructor", "__defineGetter__", "__defineSetter__", "hasOwnProperty",
   "__lookupGetter__", "__lookupSetter__", "isPrototypeOf", "propertyIsEnumerable",
   "toString", "valueOf", "__proto__", "toLocaleString"]

/-- Concatenation of `f (index + 1) row` over the rows, as the `forEach` loops build it. -/
def joinIdx (f : Nat → Row → String) : Nat → List Row → String
  | _, [] => ""
  | i, r :: rs => f (i + 1) r ++ joinIdx f (i + 1) rs

/-- One line of the listing of all bookings (lines 202-205). -/
def allBookingsLine (w : World) (n : Nat) (booking : Row) : String :=
  " " ++ toString n ++ ". 📅 " ++ w.toLocaleDateString booking.booking_date ++
  " | 👤 " ++ orStr booking.first_name "-" ++ " " ++ orStr booking.last_name "" ++
  " | 📞 " ++ orStr booking.phone_number "-" ++ " | 🆔 *" ++ toString booking.id ++ "*\n" ++
  (if truthy booking.address then "    📍 " ++ tplN booking.address ++ "\n" else "")

/-- The section of one service in the listing of all bookings (lines 194-209). -/
def serviceSection (w : World) (rows : List Row) (serviceName : String) : String :=
  let bookings := rows.filter (fun r => r.service_name = some serviceName)
  if bookings.length > 0 then
    let e1 := if includes "пароочистителя".data serviceName.data then "💨" else "🧹"
    let serviceEmoji := if includes "мойки".data serviceName.data then "💦" else e1
    serviceEmoji ++ " *" ++ serviceName ++ ":*\n" ++ joinIdx (allBookingsLine w) 0 bookings ++ "\n"
  else ""

/-- The handler `bot.onText(/📋 Все бронирования/, ...)`, lines 153-219. -/
def listAllHandler (w : World) (userStates : Sessions) (chatId : Int) : Outcome :=
  let me := toString chatId
  if toString chatId ≠ w.ADMIN_CHAT_ID then accessDenied userStates chatId
  else
    let q := Query.selectAllBookings
    let failed (detail : String) : Outcome :=
      { states := userStates
        trace := [.query q, .consoleError "Error:" detail,
                  .sendMessage me "❌ Ошибка при получении данных" false .back] }
    match w.query q with
    | .error e => failed e.message
    | .ok rows =>
      if rows.length = 0 then
        { states := userStates
          trace := [.query q, .sendMessage me "📭 Нет активных бронирований" false .back] }
      else if rows.any (fun r => objectPrototypeKeys.contains (tplN r.service_name)) then
        failed "groupedBookings[booking.service_name].push is not a function"
      else
        let message :=
          "📋 *Все бронирования по услугам:*\n\n" ++
          String.join (serviceOrder.map (serviceSection w rows))
        { states := userStates, trace := [.query q, .sendMessage me message true .back] }

/-- The value of `new Date().toISOString().split('T')[0]`. -/
def todayString (w : World) : String :=
  String.mk ((w.toISOString w.now).data.takeWhile (fun c => c ≠ 'T'))

/-- One entry of the listing of today (lines 248-260); the service name is a string. -/
def todayEntry (w : World) (n : Nat) (booking : Row) : String :=
  let name := tplN booking.service_name
  let serviceEmoji :=
    if includes "пылесоса".data name.data then "🧹"
    else if includes "пароочистителя".data name.data then "💨" else "💦"
  "*" ++ toString n ++ ". " ++ serviceEmoji ++ " " ++ name ++ "*\n" ++
  " " ++ w.toLocaleTimeString booking.booking_date ++ "\n" ++
  " 👤 " ++ orStr booking.first_name "-" ++ " " ++ orStr booking.last_name "" ++ "\n" ++
  " 📞 " ++ orStr booking.phone_number "-" ++ "\n" ++
  (if truthy booking.address then " 📍 " ++ tplN booking.address ++ "\n" else "") ++
  " 🆔 *ID: " ++ toString booking.id ++ "*\n\n"

/-- The handler `bot.onText(/📅 На сегодня/, ...)`, lines 222-270. A row whose
`service_name` is `null` makes `booking.service_name.includes` raise inside the `try`. -/
def todayHandler (w : World) (userStates : Sessions) (chatId : Int) : Outcome :=
  let me := toString chatId
  if toString chatId ≠ w.ADMIN_CHAT_ID then accessDenied userStates chatId
  else
    let today := todayString w
    let q := Query.selectBookingsOn today
    let failed : Outcome :=
      { states := userStates, trace := [.query q, .sendMessage me "❌ Ошибка" false .back] }
    match w.query q with
    | .error _ => failed
    | .ok rows =>
      if rows.length = 0 then
        { states := userStates
          trace := [.query q,
                    .sendMessage me ("📅 *Сегодня (" ++ today ++ ") нет бронирований*") true .back] }
      else if rows.any (fun r => r.service_name.isNone) then failed
      else
        let message :=
          "📅 *Бронирования на сегодня (" ++ today ++ "):*\n\n" ++ joinIdx (todayEntry w) 0 rows
        { states := userStates, trace := [.query q, .sendMessage me message true .back] }

/-- The handler `bot.onText(/➕ Добавить бронирование/, ...)`, lines 273-290. -/
def startCreateHandler (w : World) (userStates : Sessions) (chatId : Int) : Outcome :=
  if toString chatId ≠ w.ADMIN_CHAT_ID then accessDenied userStates chatId
  else
    { states := userStates.set chatId { step := .service, data := some {} }
      trace := [.sendMessage (toString chatId) "🎯 *Выберите услугу для бронирования:*"
                  true .services] }

/-- The handler `bot.onText(/🗑️ Удалить брони/, ...)`, lines 454-469. -/
def startDeleteHandler (w : World) (userStates : Sessions) (chatId : Int) : Outcome :=
  if toString chatId ≠ w.ADMIN_CHAT_ID then accessDenied userStates chatId
  else
    { states := userStates.set chatId { step := .delete_ask_id }
      trace := [.sendMessage (toString chatId)
                  ("🗑️ *Удаление бронирования*\n\n" ++ "Введите ID бронирования для удаления:")
                  true .remove] }

/-- One global replacement `.replace(/c/g, '\\c')`: a backslash before each `c`. -/
def replaceAll (c : Char) (s : List Char) : List Char :=
  s.flatMap (fun x => if x = c then ['\\', c] else [x])

/-- The characters `escapeMarkdown` replaces, in the order of its chain (lines 630-647). -/
def markdownSpecials : List Char :=
  ['_', '*', '[', ']', '(', ')', '~', '\x60', '>', '#', '+', '-', '=', '|', '\x7b', '\x7d', '.',
   '!']

/-- The function `escapeMarkdown(text)` on a string, lines 627-648: the empty string is
returned as it is, any other goes through the chain of replacements. -/
def escapeMarkdown (text : String) : String :=
  if text = "" then text
  else String.mk (markdownSpecials.foldl (fun s c => replaceAll c s) text.data)

/-- One entry of the listing of clients (lines 603-612). -/
def clientEntry (n : Nat) (client : Row) : String :=
  let firstName := escapeMarkdown (orStr client.first_name "")
  let lastName := escapeMarkdown (orStr client.last_name "")
  let phoneNumber := escapeMarkdown (orStr client.phone_number "-")
  let email := escapeMarkdown (orStr client.email "-")
  "*" ++ toString n ++ ". " ++ firstName ++ " " ++ lastName ++ "*\n" ++
  "   📞 " ++ phoneNumber ++ "\n" ++
  "   📧 " ++ email ++ "\n" ++
  "   📊 Бронирований: " ++ tplN client.booking_count ++ "\n" ++
  "   🆔 ID: " ++ toString client.id ++ "\n\n"

/-- The handler `bot.onText(/👥 Клиенты/, ...)`, lines 576-624. -/
def clientsHandler (w : World) (userStates : Sessions) (chatId : Int) : Outcome :=
  let me := toString chatId
  if toString chatId ≠ w.ADMIN_CHAT_ID then accessDenied userStates chatId
  else
    let q := Query.selectRecentClients
    match w.query q with
    | .error e =>
      { states := userStates
        trace := [.query q, .consoleError "❌ Error fetching clients:" e.message,
                  .sendMessage me "❌ Ошибка при получении данных клиентов" false .back] }
    | .ok rows =>
      if rows.length = 0 then
        { states := userStates
          trace := [.query q, .sendMessage me "👥 *Нет клиентов в базе*" true .back] }
      else
        let message := "👥 *Последние клиенты:*\n\n" ++ joinIdx clientEntry 0 rows
        { states := userStates, trace := [.query q, .sendMessage me message true .back] }

/-- The value of `result.rows[0].count`, or the `TypeError` of an empty result. -/
def firstCount : List Row → Except JsError String
  | [] => .error (typeErrorUndefined "count")
  | r :: _ => .ok (tplN r.count)

/-- The handler `bot.onText(/📊 Статистика/, ...)`, lines 651-684. The four queries are
issued together; `Promise.all` rejects when one of them does (the model reports the
first in the order of the array). -/
def statsHandler (w : World) (userStates : Sessions) (chatId : Int) : Outcome :=
  let me := toString chatId
  if toString chatId ≠ w.ADMIN_CHAT_ID then accessDenied userStates chatId
  else
    let today := todayString w
    let qs : List Effect :=
      [.query (.countBookingsOn today), .query .countBookingsThisMonth,
       .query .popularServices, .query .countClients]
    let result : Except JsError String := do
      let todayStats ← w.query (.countBookingsOn today)
      let monthStats ← w.query .countBookingsThisMonth
      let popularServices ← w.query .popularServices
      let totalClients ← w.query .countClients
      let c1 ← firstCount todayStats
      let c2 ← firstCount monthStats
      let c3 ← firstCount totalClients
      pure ("📊 *Статистика бронирований:*\n\n" ++
        "📅 *Сегодня:* " ++ c1 ++ "\n" ++
        "📈 *Этот месяц:* " ++ c2 ++ "\n" ++
        "👥 *Всего клиентов:* " ++ c3 ++ "\n\n" ++
        "*Популярные услуги:*\n" ++
        "\n".intercalate ((popularServices.enum).map (fun p =>
          toString (p.1 + 1) ++ ". " ++ tplN p.2.service_name ++ ": " ++ tplN p.2.count)))
    match result with
    | .error e =>
      { states := userStates
        trace := qs ++ [.consoleError "Error fetching stats:" e.message,
                        .sendMessage me "❌ Ошибка" false .back] }
    | .ok message =>
      { states := userStates, trace := qs ++ [.sendMessage me message true .back] }

/-! ## Service selection (lines 293-315) -/

/-- The three labels of the services keyboard, the keys of `serviceMap`. -/
def serviceLabels : List String :=
  ["🧹 Пылесос Puzzi 8/1 C", "💨 Пароочиститель SC 4", "💦 Мойка K 5"]

/-- The pattern `/🧹 Пылесос Puzzi 8\/1 C|💨 Пароочиститель SC 4|💦 Мойка K 5/` of
`bot.onText`: it is not anchored, so it matches a text that contains a label. -/
def servicePattern (text : String) : Bool :=
  serviceLabels.any (fun l => includes l.data text.data)

/-- The lookup `serviceMap[service]` (lines 300-305): the canonical name of a label,
`undefined` for any other text that reaches the handler. -/
def serviceMap (service : String) : Option String :=
  if service = "🧹 Пылесос Puzzi 8/1 C" then some "Аренда пылесоса Karcher Puzzi 8/1 C"
  else if service = "💨 Пароочиститель SC 4" then some "Аренда пароочистителя Karcher SC 4 Deluxe"
  else if service = "💦 Мойка K 5" then
    some "Аренда мойки высокого давления Karcher K 5 Full Control"
  else none

/-- The callback of the service-selection handler, lines 293-315, which `bot.onText`
calls on a text that `servicePattern` matches. -/
def serviceCallback (userStates : Sessions) (chatId : Int) (service : String) : Outcome :=
  let me := toString chatId
  let notStarted : Outcome :=
    { states := userStates
      trace := [.sendMessage me "Начните с команды \"➕ Добавить бронирование\"" false .back] }
  match userStates chatId with
  | none => notStarted
  | some session =>
    if session.step ≠ .service then notStarted
    else
      match session.data with
      | none =>
        { states := userStates, trace := [], raised := some (typeErrorSet "service_name") }
      | some data =>
        { states := userStates.set chatId
            { session with
              data := some { data with service_name := serviceMap service }, step := .date }
          trace := [.sendMessage me
            ("📅 *Введите дату бронирования:*\n\n" ++
             "_Формат: ДД.ММ.ГГГГ (например: 25.12.2024)_") true .remove] }

/-- The service-selection handler as `bot.onText` runs it: the callback on a matching
text, nothing on any other. -/
def serviceHandler (userStates : Sessions) (chatId : Int) (text : String) : Outcome :=
  if servicePattern text then serviceCallback userStates chatId text
  else { states := userStates, trace := [] }

/-! ## The sibling path: `POST /find-or-create-client` (lines 837-894) -/

/-- The answer of the route: the calls it made, the HTTP status, and the `client_id` and
`message` of a 200 body or the `details` of a 500 body. A rejection that no `catch`
handles is `raised`. -/
structure ApiOutcome where
  trace : List Effect
  status : Option Nat
  client_id : Option Int := none
  message : Option String := none
  details : Option String := none
  raised : Option JsError := none
deriving DecidableEq, Repr

/-- The `catch (err)` block of the route (lines 862-893): on a violation of the unique
index of `clients.email` it synthesizes a new email and inserts the client again. The
clock is read a second time there; the model takes the same reading, and the new email
differs from the first by its longer suffix. -/
def findOrCreateCatch (w : World) (first_name last_name phone_number : Option String)
    (pre : List Effect) (err : JsError) : ApiOutcome :=
  let logged := pre ++ [.consoleError "Ошибка при создании клиента:" err.message]
  if err.code = some "23505" ∧ err.constraint = some "clients_email_key" then
    let fallbackEmail :=
      "client_" ++ toString w.now ++ String.mk (jsSlice (w.random36 2).data 2 none) ++
      "@karcher.by"
    match w.bcryptHash ("temp" ++ String.mk (jsSlice (w.random36 3).data (-8) none)) with
    | .error e => { trace := logged, status := none, raised := some e }
    | .ok fallbackHashedPassword =>
      let q := Query.insertClient first_name (orStr last_name "") phone_number fallbackEmail
        fallbackHashedPassword
      let failed (fallbackErr : JsError) : ApiOutcome :=
        { trace := logged ++ [.query q,
            .consoleError "Ошибка при создании клиента (fallback):" fallbackErr.message]
          status := some 500, details := some fallbackErr.message }
      match w.query q with
      | .error fallbackErr => failed fallbackErr
      | .ok [] => failed (typeErrorUndefined "id")
      | .ok (fallbackClient :: _) =>
        { trace := logged ++ [.query q], status := some 200
          client_id := some fallbackClient.id
          message := some "Создан новый клиент (fallback)" }
  else { trace := logged, status := some 500, details := some err.message }

/-- The route `POST /find-or-create-client`, lines 837-894, on the three fields it reads
from the request body. It synthesizes the email as the confirm handler does. -/
def findOrCreateClient (w : World) (first_name last_name phone_number : Option String) :
    ApiOutcome :=
  if !truthy first_name || !truthy phone_number then { trace := [], status := some 400 }
  else
    match w.bcryptHash (tempPassword w) with
    | .error err => findOrCreateCatch w first_name last_name phone_number [] err
    | .ok hashedPassword =>
      let q := Query.insertClient first_name (orStr last_name "") phone_number (synthEmail w)
        hashedPassword
      match w.query q with
      | .error err => findOrCreateCatch w first_name last_name phone_number [.query q] err
      | .ok [] =>
        findOrCreateCatch w first_name last_name phone_number [.query q]
          (typeErrorUndefined "id")
      | .ok (newClient :: _) =>
        { trace := [.query q], status := some 200, client_id := some newClient.id
          message := some "Создан новый клиент" }

/-! ## Completeness of a draft, and an example world -/

/-- A draft is complete when each of its five fields holds a value JavaScript takes as
present (a non-empty string), the test the REST route `POST /bookings` applies to its
required fields. -/
def Draft.complete (d : Draft) : Bool :=
  truthy d.service_name && truthy d.booking_date && truthy d.client_name &&
  truthy d.client_phone && truthy d.client_address

/-- The decimal digits of `n`, padded with zeros to `width`. -/
def pad (width n : Nat) : String :=
  let ds := (toString n).data
  String.mk (List.replicate (width - ds.length) '0' ++ ds)

/-- The civil date (year, month 1 to 12, day) of a day number counted from 1970-01-01,
in the proleptic Gregorian calendar. -/
def civilFromDays (days : Int) : Int × Int × Int :=
  let z := days + 719468
  let era := z / 146097
  let doe := z % 146097
  let yoe := (doe - doe / 1460 + doe / 36524 - doe / 146096) / 365
  let doy := doe - (365 * yoe + yoe / 4 - yoe / 100)
  let mp := (5 * doy + 2) / 153
  let d := doy - (153 * mp + 2) / 5 + 1
  let m := if mp < 10 then mp + 3 else mp - 9
  let y := yoe + era * 400 + (if m ≤ 2 then 1 else 0)
  (y, m, d)

/-- The layout `YYYY-MM-DDTHH:mm:ss.sssZ` of `toISOString`, for the years 0 to 9999. -/
def isoString (t : Int) : String :=
  let c := civilFromDays (t / msPerDay)
  let ms := (t % msPerDay).toNat
  pad 4 c.1.toNat ++ "-" ++ pad 2 c.2.1.toNat ++ "-" ++ pad 2 c.2.2.toNat ++ "T" ++
  pad 2 (ms / 3600000) ++ ":" ++ pad 2 (ms / 60000 % 60) ++ ":" ++ pad 2 (ms / 1000 % 60) ++
  "." ++ pad 3 (ms % 1000) ++ "Z"

/-- The time value an `isoString` text denotes. -/
def isoTime (s : List Char) : Int :=
  let num (a b : Nat) : Int := digitsToNat ((s.drop a).take b)
  MakeDay (num 0 4) (num 5 2 - 1) (num 8 2) * msPerDay +
  num 11 2 * 3600000 + num 14 2 * 60000 + num 17 2 * 1000 + num 20 3

/-- The layout `DD.MM.YYYY` of `toLocaleDateString('ru-RU')` in a zone `offset` ms east
of UTC; a missing value gives an Invalid Date. -/
def ruDate (offset : Int) : Option String → String
  | none => "Invalid Date"
  | some s =>
    let c := civilFromDays ((isoTime s.data + offset) / msPerDay)
    pad 2 c.2.2.toNat ++ "." ++ pad 2 c.2.1.toNat ++ "." ++ pad 4 c.1.toNat

/-- The layout `HH:mm` of `toLocaleTimeString('ru-RU', ...)` in a zone `offset` ms east
of UTC. -/
def ruTime (offset : Int) : Option String → String
  | none => "Invalid Date"
  | some s =>
    let ms := ((isoTime s.data + offset) % msPerDay).toNat
    pad 2 (ms / 3600000) ++ ":" ++ pad 2 (ms / 60000 % 60)

/-- The duplicate-key error `pg` raises on the unique index of `clients.email`. -/
def duplicateEmail : JsError :=
  { message := "duplicate key value violates unique constraint \"clients_email_key\""
    code := some "23505"
    constraint := some "clients_email_key" }

/-- A repository that holds nothing and accepts every insert: the client gets id 7, the
booking id 12, and the inserted values come back in the returned row. -/
def emptyRepository : Query → Except JsError (List Row)
  | .insertClient fn ln ph _ _ =>
    .ok [{ id := 7, first_name := fn, last_name := some ln, phone_number := ph }]
  | .insertBooking cid sn bd ad =>
    .ok [{ id := 12, client_id := some cid, service_name := sn, booking_date := bd,
           address := ad }]
  | .selectClientById _ =>
    .ok [{ id := 7, first_name := some "Ivan", last_name := some "",
           phone_number := some "+375291112233" }]
  | _ => .ok []

/-- An example world: the admin is chat 1001, the zone is Minsk (UTC+3, no DST), the
clock reads 2025-03-01 09:00 UTC, and the repository is `emptyRepository`. -/
def exampleWorld : World where
  ADMIN_CHAT_ID := "1001"
  query := emptyRepository
  now := 1740819600000
  random36 := fun k => if k = 0 then "0.4fzyo82mvyr" else "0.ix49v8m2d1b"
  bcryptHash := fun p => .ok ("$2b$10$" ++ p)
  deliver := fun _ _ => .ok ()
  localTZA := fun _ => 10800000
  toISOString := isoString
  toLocaleDateString := ruDate 10800000
  toLocaleTimeString := ruTime 10800000
  clockString := "12:00:00"

/-- The draft of the scenario of the specification: vacuum cleaner, 5.3.2025, Ivan,
+375291112233, Minsk. The date is local midnight of 5 March 2025 in `exampleWorld`. -/
def scenarioDraft : Draft :=
  { service_name := some "Аренда пылесоса Karcher Puzzi 8/1 C"
    booking_date := some "2025-03-04T21:00:00.000Z"
    client_name := some "Ivan"
    client_phone := some "+375291112233"
    client_address := some "Minsk" }

/-- A session map in which only `chatId` has a session. -/
def oneSession (chatId : Int) (s : Session) : Sessions :=
  Sessions.set (fun _ => none) chatId s

/-- The world of `exampleWorld` in which a client with the email the confirm handler
synthesizes there already exists: the unique index on `clients.email` rejects an insert
with that email and accepts any other. -/
def collisionWorld : World :=
  { exampleWorld with
    query := fun q =>
      match q with
      | .insertClient fn ln ph email hash =>
        if email = "client_6000004fz@karcher.by" then .error duplicateEmail
        else emptyRepository (.insertClient fn ln ph email hash)
      | q => emptyRepository q }

/-- The world of `exampleWorld` in which the client insert succeeds and the booking
insert is rejected. -/
def bookingFailsWorld : World :=
  { exampleWorld with
    query := fun q =>
      match q with
      | .insertBooking _ _ _ _ => .error { message := "connection terminated unexpectedly" }
      | q => emptyRepository q }

/-- The world of `exampleWorld` in which both inserts succeed and the client lookup of
the notifier is rejected. -/
def notifierFailsWorld : World :=
  { exampleWorld with
    query := fun q =>
      match q with
      | .selectClientById _ => .error { message := "connection terminated unexpectedly" }
      | q => emptyRepository q }

/-- A session at step `confirm` that holds the draft of the scenario. -/
def scenarioSession : Session :=
  { step := .confirm, data := some scenarioDraft }

/-- The session of the scenario one step before `scenarioSession`: at step
`client_address`, the draft still without an address. -/
def addressSession : Session :=
  { step := .client_address, data := some { scenarioDraft with client_address := none } }

/-- The six privileged commands: list all, today, start creation, start deletion,
clients, statistics. -/
def privilegedHandlers : List (World → Sessions → Int → Outcome) :=
  [listAllHandler, todayHandler, startCreateHandler, startDeleteHandler, clientsHandler,
   statsHandler]

/-- Whether a repository call is a client insert. -/
def Query.isClientInsert : Query → Bool
  | .insertClient _ _ _ _ _ => true
  | _ => false

/-- Whether a repository call is a booking insert. -/
def Query.isBookingInsert : Query → Bool
  | .insertBooking _ _ _ _ => true
  | _ => false

/-- Whether a repository call removes a row. -/
def Query.isDelete : Query → Bool
  | .deleteBooking _ => true
  | _ => false

/-- The number of days of month `month` (1 to 12) of year `year`. -/
def daysInMonth (year month : Nat) : Nat :=
  if month = 2 then (if InLeapYear year then 29 else 28)
  else if month = 4 ∨ month = 6 ∨ month = 9 ∨ month = 11 then 30
  else 31

/-- Whether day, month and year denote a real calendar date, in the words of the
specification: the month is 1 to 12 and the day is 1 to the length of that month. -/
def isCalendarDate (day month year : Nat) : Bool :=
  1 ≤ month && month ≤ 12 && 1 ≤ day && day ≤ daysInMonth year month

/-- Whether the whole text is a base-10 integer, in the words of the specification: an
optional minus sign and then one or more decimal digits, nothing else. -/
def isBase10Integer (text : List Char) : Bool :=
  match text with
  | '-' :: ds => !ds.isEmpty && ds.all Char.isDigit
  | ds => !ds.isEmpty && ds.all Char.isDigit

/-! ## Dispatch of one update

`processUpdate` of node-telegram-bot-api, with the options the bot passes
(`{ polling: true }`, so `onlyFirstMatch` is off): the update is emitted to the
`'message'` listeners in the order of their registration, and then, when the message
has a text, every `onText` callback whose pattern matches the text is called, again in
the order of registration. A callback that is an `async` function runs up to its first
`await` and returns to the dispatcher; the rest of it runs when the awaited answer
arrives, after the dispatcher is through with the update. -/

/-- What a handler has done when it returns to the dispatcher: the session map and the
calls so far, the error it raised, and for a handler that waits on an answer the rest
of its body, as a function of the session map it finds when it resumes. -/
structure Started where
  states : Sessions
  trace : List Effect
  raised : Option JsError := none
  resume : Option (Sessions → Outcome) := none

/-- A handler that finished without waiting. -/
def Started.done (o : Outcome) : Started :=
  { states := o.states, trace := o.trace, raised := o.raised }

/-- The whole run of a handler that nothing interleaves with. -/
def Started.complete (s : Started) : Outcome :=
  match s.resume with
  | none => { states := s.states, trace := s.trace, raised := s.raised }
  | some k => { states := (k s.states).states, trace := s.trace ++ (k s.states).trace,
                raised := (k s.states).raised }

/-- The rest of the delete-id handler after `await pool.query(...)` (lines 495-525). The
assignment `userStates[chatId].deleteCandidate = booking` raises inside the `try` when
the session is gone by then. -/
def deleteIdResume (w : World) (chatId : Int) (bookingId : JsNumber) (userStates : Sessions) :
    Outcome :=
  let me := toString chatId
  let failed (detail : String) : Outcome :=
    { states := userStates.del chatId
      trace := [.consoleError "Error checking booking:" detail,
                .sendMessage me "❌ Ошибка при проверке бронирования" false .main] }
  match w.query (.selectBookingById bookingId) with
  | .error e => failed e.message
  | .ok [] =>
    { states := userStates.del chatId
      trace := [.sendMessage me
                  ("❌ Бронирование с ID *" ++ numberToString bookingId ++ "* не найдено") true .main] }
  | .ok (booking :: _) =>
    match userStates chatId with
    | none => failed (typeErrorSet "deleteCandidate").message
    | some session =>
      { states := userStates.set chatId
          { session with deleteCandidate := some booking, step := .confirm_delete }
        trace := [.sendMessage me
                    (bookingSummary w "⚠️ *Подтвердите удаление:*\n\n"
                      "Удалить это бронирование?" booking)
                    true .yesNo] }

/-- The delete-id handler (lines 472-527) up to its `await`. -/
def deleteIdStart (w : World) (userStates : Sessions) (chatId : Int) (text : Option String) :
    Started :=
  if isLiteral deleteLiterals text then { states := userStates, trace := [] }
  else
    match userStates chatId with
    | none => { states := userStates, trace := [] }
    | some session =>
      if session.step = .delete_ask_id then
        match parseInt (tplU text).data with
        | none =>
          { states := userStates.del chatId
            trace := [.sendMessage (toString chatId) "❌ Введите число (ID бронирования)"
                        false .main] }
        | some bookingId =>
          { states := userStates
            trace := [.query (.selectBookingById bookingId)]
            resume := some (deleteIdResume w chatId bookingId) }
      else { states := userStates, trace := [] }

/-- The confirm handler (lines 385-444) up to `await bcrypt.hash(...)`. The rest works on
the object `data` read before the `await` and touches the session map only in its last
statement, `delete userStates[chatId]`, on both the success and the `catch` path: it
makes the calls of `confirmHandler` and deletes the entry from the map it finds. -/
def confirmStart (w : World) (userStates : Sessions) (chatId : Int) : Started :=
  match userStates chatId with
  | none => .done (confirmHandler w userStates chatId)
  | some session =>
    if session.step ≠ .confirm then .done (confirmHandler w userStates chatId)
    else
      { states := userStates
        trace := []
        resume := some (fun later =>
          { states := later.del chatId, trace := (confirmHandler w userStates chatId).trace }) }

/-- The rest of the delete confirmation after `await pool.query('DELETE ...')` (lines
538-563). -/
def yesResume (w : World) (chatId : Int) (booking : Row) (userStates : Sessions) : Outcome :=
  let me := toString chatId
  match w.query (.deleteBooking booking.id) with
  | .error e =>
    { states := userStates.del chatId
      trace := [.consoleError "Error deleting booking:" e.message,
                .sendMessage me "❌ Ошибка при удалении бронирования" false .main] }
  | .ok [] =>
    { states := userStates.del chatId
      trace := [.sendMessage me "❌ Бронирование не найдено при удалении" false .main] }
  | .ok (_ :: _) =>
    { states := userStates.del chatId
      trace := [.sendMessage me
                  (bookingSummary w "✅ *Бронирование удалено!*\n\n"
                    "Для обновления данных на сайте перезагрузите страницу" booking)
                  true .main,
                .consoleLog ("✅ Бронирование ID " ++ toString booking.id ++
                  " удалено через Telegram")] }

/-- The delete confirmation (lines 530-564) up to its `await`. Without a stored candidate
`booking.id` raises before the query is sent, and the `catch` and the final `delete`
run at once. -/
def yesStart (w : World) (userStates : Sessions) (chatId : Int) : Started :=
  match userStates chatId with
  | none => { states := userStates, trace := [] }
  | some session =>
    if session.step ≠ .confirm_delete then { states := userStates, trace := [] }
    else
      match session.deleteCandidate with
      | none => .done (yesHandler w userStates chatId)
      | some booking =>
        { states := userStates
          trace := [.query (.deleteBooking booking.id)]
          resume := some (yesResume w chatId booking) }

/-- Whether a call is a repository call. -/
def Effect.isQuery : Effect → Bool
  | .query _ => true
  | _ => false

/-- One of the four listing commands (all bookings, today, clients, statistics) as the
dispatcher sees it: the access guard and its reply run at once; for the admin the
queries are sent at once and the reply follows when they are answered. These handlers
never touch the session map. -/
def listingStart (handler : World → Sessions → Int → Outcome) (w : World)
    (userStates : Sessions) (chatId : Int) : Started :=
  if toString chatId ≠ w.ADMIN_CHAT_ID then .done (handler w userStates chatId)
  else
    { states := userStates
      trace := (handler w userStates chatId).trace.takeWhile Effect.isQuery
      resume := some (fun later =>
        { states := later
          trace := (handler w userStates chatId).trace.dropWhile Effect.isQuery }) }

/-- An entry of the list of `onText` callbacks: whether the pattern matches a text,
whether the callback is a plain function (an error it raises leaves the dispatcher and
ends the loop over the callbacks) and what it does. -/
structure TextCallback where
  pattern : String → Bool
  plain : Bool
  run : World → Sessions → Int → String → Started

/-- The test of a pattern without special characters: the text contains the literal. -/
def literalPattern (literal : String) (text : String) : Bool :=
  includes literal.data text.data

/-- The `onText` callbacks in the order of their registration (lines 123-684). -/
def textCallbacks : List TextCallback :=
  [ { pattern := literalPattern "/start", plain := true
      run := fun w us c _ => .done (startHandler w us c) },
    { pattern := literalPattern "↩️ Назад", plain := true
      run := fun _ us c _ => .done (backHandler us c) },
    { pattern := literalPattern "📋 Все бронирования", plain := false
      run := fun w us c _ => listingStart listAllHandler w us c },
    { pattern := literalPattern "📅 На сегодня", plain := false
      run := fun w us c _ => listingStart todayHandler w us c },
    { pattern := literalPattern "➕ Добавить бронирование", plain := true
      run := fun w us c _ => .done (startCreateHandler w us c) },
    { pattern := servicePattern, plain := true
      run := fun _ us c t => .done (serviceCallback us c t) },
    { pattern := literalPattern "✅ Подтвердить", plain := false
      run := fun w us c _ => confirmStart w us c },
    { pattern := literalPattern "❌ Отменить", plain := true
      run := fun _ us c _ => .done (cancelHandler us c) },
    { pattern := literalPattern "🗑️ Удалить брони", plain := true
      run := fun w us c _ => .done (startDeleteHandler w us c) },
    { pattern := literalPattern "✅ Да", plain := false
      run := fun w us c _ => yesStart w us c },
    { pattern := literalPattern "❌ Нет", plain := true
      run := fun _ us c _ => .done (noHandler us c) },
    { pattern := literalPattern "👥 Клиенты", plain := false
      run := fun w us c _ => listingStart clientsHandler w us c },
    { pattern := literalPattern "📊 Статистика", plain := false
      run := fun w us c _ => listingStart statsHandler w us c } ]

/-- The dispatcher at work on one update: the session map and the calls so far, the
errors raised, and the handlers that wait for an answer. -/
structure Pending where
  states : Sessions
  trace : List Effect
  raised : List JsError := []
  resumes : List (Sessions → Outcome) := []

/-- The dispatcher takes note of what a handler did. -/
def Pending.note (p : Pending) (s : Started) : Pending :=
  { states := s.states
    trace := p.trace ++ s.trace
    raised := p.raised ++ s.raised.toList
    resumes := p.resumes ++ s.resume.toList }

/-- The loop over the `onText` callbacks on a text. -/
def runCallbacks (w : World) (chatId : Int) (text : String) :
    List TextCallback → Pending → Pending
  | [], p => p
  | cb :: rest, p =>
    if cb.pattern text then
      let s := cb.run w p.states chatId text
      if cb.plain && s.raised.isSome then p.note s
      else runCallbacks w chatId text rest (p.note s)
    else runCallbacks w chatId text rest p

/-- The handlers that wait resume, each on the session map the one before left. Which
answer arrives first is not fixed; at most one of the waiting handlers of an update
touches the session map, so the map at the end does not depend on the order taken
here, that of registration. -/
def runResumes : List (Sessions → Outcome) → Pending → Pending
  | [], p => p
  | k :: rest, p =>
    runResumes rest
      { states := (k p.states).states
        trace := p.trace ++ (k p.states).trace
        raised := p.raised ++ (k p.states).raised.toList
        resumes := [] }

/-- One update from chat `chatId` with the text `text` (absent for a photo, a sticker
and the like), through all handlers. The two `'message'` listeners come first; the
first has no `await` and runs to its end. -/
def processUpdate (w : World) (userStates : Sessions) (chatId : Int) (text : Option String) :
    Outcome :=
  let p0 : Pending := { states := userStates, trace := [] }
  let p1 := p0.note (.done (creationInput w userStates chatId text))
  let p2 := p1.note (deleteIdStart w p1.states chatId text)
  let p3 := match text with
    | some t => if t ≠ "" then runCallbacks w chatId t textCallbacks p2 else p2
    | none => p2
  let p4 := runResumes p3.resumes p3
  { states := p4.states, trace := p4.trace, raised := p4.raised.head? }

/-! ## The order of the steps, in the words of the specification -/

/-- The step that follows a step in `service → date → client_name → client_phone →
client_address → confirm` and in `delete_ask_id → confirm_delete`. -/
def Step.next : Step → Option Step
  | .service => some .date
  | .date => some .client_name
  | .client_name => some .client_phone
  | .client_phone => some .client_address
  | .client_address => some .confirm
  | .confirm => none
  | .delete_ask_id => some .confirm_delete
  | .confirm_delete => none

/-- Whether one message may take the step of a session from `before` to `after` (`none`
for no session): the step is unchanged, or the immediate successor of the step before,
or the first step of one of the two flows, or the session is removed. -/
def stepAllowed (before after : Option Step) : Bool :=
  after = before ||
  (match before with
   | some b => after.isSome && b.next = after
   | none => false) ||
  after = some .service || after = some .delete_ask_id || after = none

/-- The zero-padded form of a one-digit day or month. -/
def zeroPad (ds : List Char) : List Char :=
  if ds.length = 1 then '0' :: ds else ds

/-- The text `day.month.year` of three groups of characters. -/
def dateText (day month year : List Char) : String :=
  String.mk (day ++ '.' :: (month ++ '.' :: year))

/-- The local year, month (1 to 12) and day of a time value (`getFullYear`,
`getMonth() + 1`, `getDate`), with `offset` the offset of local time from UTC at that
time value (`LocalTZA(t, true)` of ECMAScript). -/
def localDate (offset : Int → Int) (tv : Int) : Int × Int × Int :=
  civilFromDays ((tv + offset tv) / msPerDay)

/-- Whether a text, read left to right with a backslash escaping the character after
it, holds an unescaped character of `markdownSpecials`. -/
def hasUnescapedSpecial : List Char → Bool
  | [] => false
  | '\\' :: [] => false
  | '\\' :: _ :: rest => hasUnescapedSpecial rest
  | c :: rest => markdownSpecials.contains c || hasUnescapedSpecial rest

/-- The world of `exampleWorld` with one booking in the repository: booking 12 of client
7, which a lookup finds and a delete removes. -/
def storedBookingWorld : World :=
  { exampleWorld with
    query := fun q =>
      match q with
      | .selectBookingById (.finite 12) =>
        .ok [{ id := 12, client_id := some 7
               service_name := some "Аренда пылесоса Karcher Puzzi 8/1 C"
               booking_date := some "2025-03-04T21:00:00.000Z", address := some "Minsk"
               first_name := some "Ivan", last_name := some ""
               phone_number := some "+375291112233" }]
      | .deleteBooking 12 => .ok [{ id := 12 }]
      | q => emptyRepository q }

/-- Booking 12 as the lookup of `storedBookingWorld` returns it. -/
def storedBooking : Row :=
  { id := 12, client_id := some 7
    service_name := some "Аренда пылесоса Karcher Puzzi 8/1 C"
    booking_date := some "2025-03-04T21:00:00.000Z", address := some "Minsk"
    first_name := some "Ivan", last_name := some ""
    phone_number := some "+375291112233" }

/-- The success summary of the delete confirmation (lines 545-552). -/
def deletedText (w : World) (booking : Row) : String :=
  bookingSummary w "✅ *Бронирование удалено!*\n\n"
    "Для обновления данных на сайте перезагрузите страницу" booking

/-! ## Invariants of the dispatcher -/

/-- The step of a user's session, `none` without a session. -/
def stepOf (userStates : Sessions) (chatId : Int) : Option Step :=
  (userStates chatId).map (fun s => s.step)

/-- What the rest of a waiting handler may do to the step of the user whose step was
`before` when the update came in: leave it, remove the session, or set `confirm_delete`
in a delete flow. -/
def ResumeKeeps (before : Option Step) (chatId : Int) (k : Sessions → Outcome) : Prop :=
  ∀ st, stepOf (k st).states chatId = stepOf st chatId ∨
    stepOf (k st).states chatId = none ∨
    (stepOf (k st).states chatId = some .confirm_delete ∧ before = some .delete_ask_id)

/-- The invariant of the dispatcher for the order of the steps. `create` and `service`
say that the text matches the start-create pattern and the service pattern. -/
def StepInv (before : Option Step) (create service : Prop) (chatId : Int) (p : Pending) :
    Prop :=
  (stepAllowed before (stepOf p.states chatId) = true ∨ (create ∧ service)) ∧
  (stepOf p.states chatId = some .service → before = some .service ∨ create) ∧
  ∀ k ∈ p.resumes, ResumeKeeps before chatId k


/-- The single left-to-right pass over a text, in the words of the specification: a
character of `markdownSpecials` becomes a backslash and the character, any other
character (the backslash included) stays. -/
def escapePass (s : List Char) : List Char :=
  s.flatMap (fun c => if markdownSpecials.contains c then ['\\', c] else [c])

/-- The chain of replacements of `escapeMarkdown` for a list of characters to replace. -/
def replaceChain (specials : List Char) (s : List Char) : List Char :=
  specials.foldl (fun t c => replaceAll c t) s

/-! ## Sequences of updates and the sessions they leave -/

/-- One message as the bot receives it: the world it is handled in (the clock, the
repository and the rest of the surroundings at that moment), the chat it comes from and
its text, absent for a photo and the like. -/
structure Update where
  world : World
  chatId : Int
  text : Option String

/-- The session map after a sequence of messages, each handled to its end before the
next. -/
def runUpdates (userStates : Sessions) : List Update → Sessions
  | [] => userStates
  | u :: rest => runUpdates (processUpdate u.world userStates u.chatId u.text).states rest

/-- Every session of the map belongs to the chat whose id, as `chatId.toString()` gives
it, is the admin id. -/
def AdminOnly (admin : String) (userStates : Sessions) : Prop :=
  ∀ c s, userStates c = some s → toString c = admin

/-- The invariant of the dispatcher for `AdminOnly`: it holds of the session map, and
every handler that waits keeps it when it resumes. -/
def AdminInv (admin : String) (p : Pending) : Prop :=
  AdminOnly admin p.states ∧
  ∀ k ∈ p.resumes, ∀ st, AdminOnly admin st → AdminOnly admin (k st).states

/-- The invariant of the dispatcher for a message of a user without a session who is not
the admin: still no session, no repository call so far, no handler waiting. -/
def OutsiderInv (chatId : Int) (p : Pending) : Prop :=
  p.states chatId = none ∧ queriesOf p.trace = [] ∧ p.resumes = []

/-- Every session at step `date` carries a draft (the object `data`). -/
def DraftAtDate (userStates : Sessions) : Prop :=
  ∀ c s, userStates c = some s → s.step = .date → s.data ≠ none

/-- The invariant of the dispatcher for `DraftAtDate`: it holds of the session map, and
every handler that waits keeps it when it resumes. -/
def DraftInv (p : Pending) : Prop :=
  DraftAtDate p.states ∧ ∀ k ∈ p.resumes, ∀ st, DraftAtDate st → DraftAtDate (k st).states

/-- A conversation in the example world: the admin starts a booking, another user tries
the same and sends a confirm, the admin picks a service. -/
def exampleUpdates : List Update :=
  [ { world := exampleWorld, chatId := 1001, text := some "➕ Добавить бронирование" },
    { world := exampleWorld, chatId := 2002, text := some "➕ Добавить бронирование" },
    { world := exampleWorld, chatId := 2002, text := some "✅ Подтвердить" },
    { world := exampleWorld, chatId := 1001, text := some "🧹 Пылесос Puzzi 8/1 C" } ]



/-! ## Helper lemmas -/

theorem includes_iff (pat s : List Char) : includes pat s = true ↔ pat <:+: s := by
  induction s with
  | nil =>
    cases pat <;> simp [includes]
  | cons c cs ih =>
    rw [includes, Bool.or_eq_true, ih, List.isPrefixOf_iff_prefix, List.infix_cons_iff]

theorem includes_suffix (pre pat : List Char) : includes pat (pre ++ pat) = true :=
  (includes_iff _ _).2 ⟨pre, [], by simp⟩

theorem del_self (userStates : Sessions) (chatId : Int) : (userStates.del chatId) chatId = none := by
  simp [Sessions.del]

theorem set_self (userStates : Sessions) (chatId : Int) (s : Session) :
    (userStates.set chatId s) chatId = some s := by
  simp [Sessions.set]

theorem confirmCatch_states (userStates : Sessions) (chatId : Int) (pre : List Effect)
    (e : JsError) : (confirmCatch userStates chatId pre e).states chatId = none := by
  simp [confirmCatch, Sessions.del]

theorem queriesOf_append (xs ys : List Effect) :
    queriesOf (xs ++ ys) = queriesOf xs ++ queriesOf ys := by
  induction xs with
  | nil => rfl
  | cons x xs ih => cases x <;> simp [queriesOf, ih]

theorem queriesOf_notification (w : World) (booking : Row) :
    queriesOf (sendBookingNotification w booking) = [.selectClientById booking.client_id] := by
  unfold sendBookingNotification
  cases w.query (.selectClientById booking.client_id) with
  | error e => rfl
  | ok rows =>
    dsimp only
    cases w.deliver w.ADMIN_CHAT_ID (notificationText w booking rows) <;> rfl

/-- The success path of the confirm handler. -/
theorem confirmHandler_success (w : World) (userStates : Sessions) (chatId : Int)
    (session : Session) (data : Draft) (hashed : String) (newClient booking : Row)
    (more1 more2 : List Row)
    (hsession : userStates chatId = some session) (hstep : session.step = .confirm)
    (hdata : session.data = some data)
    (hhash : w.bcryptHash (tempPassword w) = .ok hashed)
    (hclient : w.query (clientInsert w data hashed) = .ok (newClient :: more1))
    (hbooking : w.query (bookingInsert data newClient.id) = .ok (booking :: more2)) :
    confirmHandler w userStates chatId =
      { states := userStates.del chatId
        trace :=
          [.query (clientInsert w data hashed), .query (bookingInsert data newClient.id),
           .sendMessage (toString chatId) (confirmSuccessText w data booking) true .main]
          ++ sendBookingNotification w booking } := by
  unfold confirmHandler
  simp only [hsession, hstep, hdata, hhash, hclient, hbooking]
  simp

/-- The path of the confirm handler on which the client insert is rejected. -/
theorem confirmHandler_clientFails (w : World) (userStates : Sessions) (chatId : Int)
    (session : Session) (data : Draft) (hashed : String) (e : JsError)
    (hsession : userStates chatId = some session) (hstep : session.step = .confirm)
    (hdata : session.data = some data)
    (hhash : w.bcryptHash (tempPassword w) = .ok hashed)
    (hclient : w.query (clientInsert w data hashed) = .error e) :
    confirmHandler w userStates chatId =
      confirmCatch userStates chatId [.query (clientInsert w data hashed)] e := by
  unfold confirmHandler
  simp only [hsession, hstep, hdata, hhash, hclient]
  simp

/-- The path of the confirm handler on which the booking insert is rejected. -/
theorem confirmHandler_bookingFails (w : World) (userStates : Sessions) (chatId : Int)
    (session : Session) (data : Draft) (hashed : String) (newClient : Row) (more1 : List Row)
    (e : JsError)
    (hsession : userStates chatId = some session) (hstep : session.step = .confirm)
    (hdata : session.data = some data)
    (hhash : w.bcryptHash (tempPassword w) = .ok hashed)
    (hclient : w.query (clientInsert w data hashed) = .ok (newClient :: more1))
    (hbooking : w.query (bookingInsert data newClient.id) = .error e) :
    confirmHandler w userStates chatId =
      confirmCatch userStates chatId
        [.query (clientInsert w data hashed), .query (bookingInsert data newClient.id)] e := by
  unfold confirmHandler
  simp only [hsession, hstep, hdata, hhash, hclient, hbooking]
  simp

theorem textsTo_append (chat : String) (xs ys : List Effect) :
    textsTo chat (xs ++ ys) = textsTo chat xs ++ textsTo chat ys := by
  induction xs with
  | nil => rfl
  | cons x xs ih =>
    cases x with
    | sendMessage c t m k => by_cases h : c = chat <;> simp [textsTo, h, ih]
    | _ => simp [textsTo, ih]

/-- The failure reply starts with the cross mark. -/
theorem confirmFailureText_head (e : JsError) :
    (confirmFailureText e).data.head? = some '❌' := by
  simp [confirmFailureText, String.data_append]

/-- The success reply starts with the check mark. -/
theorem confirmSuccessText_head (w : World) (data : Draft) (booking : Row) :
    (confirmSuccessText w data booking).data.head? = some '✅' := by
  simp [confirmSuccessText, String.data_append]

/-- The notification starts with the NEW sign. -/
theorem notificationText_head (w : World) (booking : Row) (rows : List Row) :
    (notificationText w booking rows).data.head? = some '🆕' := by
  simp [notificationText, String.data_append]

/-- The notifier sends no failure reply. -/
theorem notification_no_failure (w : World) (booking : Row) (chat : String) (e : JsError)
    (md : Bool) (kb : Keyboard) :
    Effect.sendMessage chat (confirmFailureText e) md kb ∉ sendBookingNotification w booking := by
  have hne : ∀ rows, confirmFailureText e ≠ notificationText w booking rows := by
    intro rows h
    have h1 := confirmFailureText_head e
    rw [h, notificationText_head] at h1
    exact absurd h1 (by decide)
  unfold sendBookingNotification
  cases w.query (.selectClientById booking.client_id) with
  | error e1 => simp
  | ok rows =>
    dsimp only
    cases w.deliver w.ADMIN_CHAT_ID (notificationText w booking rows) <;>
      simp [hne rows]

/-! ### The date pattern and the Date constructor -/

/-- What a match of the date pattern says about the text and the three groups. -/
theorem dateMatch_shape {t d m y : List Char} (h : dateMatch t = some (d, m, y)) :
    t = d ++ '.' :: (m ++ '.' :: y) ∧
    d.all Char.isDigit = true ∧ m.all Char.isDigit = true ∧ y.all Char.isDigit = true ∧
    1 ≤ d.length ∧ d.length ≤ 2 ∧ 1 ≤ m.length ∧ m.length ≤ 2 ∧ y.length = 4 := by
  unfold dateMatch at h
  simp only [List.span_eq_take_drop] at h
  split at h
  · cases h
  · rename_i hd
    split at h
    · rename_i r2 hr2
      split at h
      · cases h
      · rename_i hm
        split at h
        · rename_i year hyear
          split at h
          · rename_i hy
            simp only [Option.some.injEq, Prod.mk.injEq] at h
            obtain ⟨h1, h2, h3⟩ := h
            subst h1 h2 h3
            refine ⟨?_, List.all_takeWhile, List.all_takeWhile, hy.2, by omega, by omega,
              by omega, by omega, hy.1⟩
            have e1 := List.takeWhile_append_dropWhile Char.isDigit t
            have e2 := List.takeWhile_append_dropWhile Char.isDigit r2
            rw [hr2] at e1
            rw [hyear] at e2
            rw [e2]
            exact e1.symm
          · cases h
        · cases h
    · cases h

/-- A text of the shape digits, dot, digits, dot, four digits matches the date pattern. -/
theorem dateMatch_of_shape {d m y : List Char}
    (hd : d.all Char.isDigit = true) (hm : m.all Char.isDigit = true)
    (hy : y.all Char.isDigit = true)
    (hd1 : 1 ≤ d.length) (hd2 : d.length ≤ 2) (hm1 : 1 ≤ m.length) (hm2 : m.length ≤ 2)
    (hy4 : y.length = 4) :
    dateMatch (d ++ '.' :: (m ++ '.' :: y)) = some (d, m, y) := by
  have hdot : ¬ (Char.isDigit '.' = true) := by decide
  have hd' : ∀ c ∈ d, Char.isDigit c = true := by simpa using hd
  have hm' : ∀ c ∈ m, Char.isDigit c = true := by simpa using hm
  unfold dateMatch
  simp only [List.span_eq_take_drop]
  rw [List.takeWhile_append_of_pos hd', List.dropWhile_append_of_pos hd',
    List.takeWhile_cons_of_neg hdot, List.dropWhile_cons_of_neg hdot, List.append_nil]
  have c1 : ¬ (d.length < 1 ∨ 2 < d.length) := by omega
  simp only [c1, ↓reduceIte]
  rw [List.takeWhile_append_of_pos hm', List.dropWhile_append_of_pos hm',
    List.takeWhile_cons_of_neg hdot, List.dropWhile_cons_of_neg hdot, List.append_nil]
  have c2 : ¬ (m.length < 1 ∨ 2 < m.length) := by omega
  simp only [c2, ↓reduceIte]
  simp [hy4, hy]

/-- A decimal digit has a value of at most nine. -/
theorem digit_value_le {c : Char} (h : c.isDigit = true) : c.toNat - 48 ≤ 9 := by
  simp only [Char.isDigit, Bool.and_eq_true, decide_eq_true_eq] at h
  have h2 : c.val.toNat ≤ 57 := h.2
  show c.val.toNat - 48 ≤ 9
  omega

/-- The bound of `digitsToNat` with an accumulator. -/
theorem digitsToNat_foldl_lt (ds : List Char) (acc : Nat)
    (h : ∀ c ∈ ds, Char.isDigit c = true) :
    ds.foldl (fun n c => 10 * n + (c.toNat - 48)) acc < (acc + 1) * 10 ^ ds.length := by
  induction ds generalizing acc with
  | nil => simp
  | cons c cs ih =>
    have hc := digit_value_le (h c (List.mem_cons_self _ _))
    have := ih (10 * acc + (c.toNat - 48)) (fun x hx => h x (List.mem_cons_of_mem _ hx))
    simp only [List.foldl_cons, List.length_cons]
    calc _ < (10 * acc + (c.toNat - 48) + 1) * 10 ^ cs.length := this
      _ ≤ (10 * (acc + 1)) * 10 ^ cs.length := Nat.mul_le_mul_right _ (by omega)
      _ = (acc + 1) * 10 ^ (cs.length + 1) := by ring

/-- A string of `n` decimal digits denotes a number below `10 ^ n`. -/
theorem digitsToNat_lt (ds : List Char) (h : ds.all Char.isDigit = true) :
    digitsToNat ds < 10 ^ ds.length := by
  have := digitsToNat_foldl_lt ds 0 (by simpa using h)
  simpa [digitsToNat] using this

/-- A month starts between day 0 and day 335 of its year. -/
theorem monthStart_bounds (mn : Int) (leap : Bool) :
    0 ≤ monthStart mn leap ∧ monthStart mn leap ≤ 335 := by
  unfold monthStart
  cases leap <;> (dsimp only; split <;> simp)

/-- On a year of at most four digits and a month and a day of at most two, in a zone
whose offset is at most a day, `new Date(year, month - 1, day)` is a valid date. -/
theorem newDate_isSome (w : World) (year month day : Int)
    (hy : 0 ≤ year ∧ year ≤ 9999) (hm : -1 ≤ month ∧ month ≤ 98) (hd : 0 ≤ day ∧ day ≤ 99)
    (htz : ∀ t, -86400000 ≤ w.localTZA t ∧ w.localTZA t ≤ 86400000) :
    ∃ tv, newDate w year month day = some tv := by
  unfold newDate TimeClip
  dsimp only
  generalize hyr : (if 0 ≤ year ∧ year ≤ 99 then 1900 + year else year) = yr
  have hyr2 : 100 ≤ yr ∧ yr ≤ 9999 := by
    subst hyr
    split <;> omega
  have hb := monthStart_bounds (month % 12) (InLeapYear (yr + month / 12))
  have hday : -800000 ≤ MakeDay yr month day ∧ MakeDay yr month day ≤ 3000000 := by
    unfold MakeDay DayFromYear
    dsimp only
    omega
  have ht := htz (MakeDay yr month day * msPerDay)
  unfold msPerDay at ht ⊢
  rw [if_neg (by omega)]
  exact ⟨_, rfl⟩

/-- A text that matches the date pattern consists of digits and dots. -/
theorem dateMatch_chars {t d m y : List Char} (h : dateMatch t = some (d, m, y)) :
    ∀ c ∈ t, c.isDigit = true ∨ c = '.' := by
  obtain ⟨ht, hd, hm, hy, -⟩ := dateMatch_shape h
  have hd' : ∀ c ∈ d, Char.isDigit c = true := by simpa using hd
  have hm' : ∀ c ∈ m, Char.isDigit c = true := by simpa using hm
  have hy' : ∀ c ∈ y, Char.isDigit c = true := by simpa using hy
  intro c hc
  rw [ht] at hc
  simp only [List.mem_append, List.mem_cons] at hc
  rcases hc with h1 | h1 | h1 | h1 | h1
  · exact Or.inl (hd' c h1)
  · exact Or.inr h1
  · exact Or.inl (hm' c h1)
  · exact Or.inr h1
  · exact Or.inl (hy' c h1)

/-- A text that matches the date pattern does not contain the back arrow. -/
theorem dateMatch_no_back {t d m y : List Char} (h : dateMatch t = some (d, m, y)) :
    includes "↩️".data t = false := by
  cases hinc : includes "↩️".data t with
  | false => rfl
  | true =>
    have hsub := ((includes_iff _ _).1 hinc).subset
    have hmem : '↩' ∈ t := hsub (by decide)
    rcases dateMatch_chars h '↩' hmem with h1 | h1
    · exact absurd h1 (by decide)
    · exact absurd h1 (by decide)

/-- A text that matches the date pattern is none of the menu literals. -/
theorem dateMatch_not_literal {text : String} {d m y : List Char}
    (h : dateMatch text.data = some (d, m, y)) :
    isLiteral creationLiterals (some text) = false := by
  cases hl : isLiteral creationLiterals (some text) with
  | false => rfl
  | true =>
    have hno : ∀ l ∈ creationLiterals, dateMatch l.data = none := by decide
    simp only [isLiteral, List.contains_iff_exists_mem_beq, beq_iff_eq] at hl
    obtain ⟨l, hl1, hl2⟩ := hl
    subst hl2
    rw [hno _ hl1] at h
    cases h

/-- The date step on a text that matches the pattern: in a zone whose offset is at most
a day, the Date is valid, the step becomes `client_name` and the ISO form of the date is
stored. -/
theorem creationInput_date_match (w : World) (userStates : Sessions) (chatId : Int)
    (session : Session) (data : Draft) (text : String) (d m y : List Char)
    (hsession : userStates chatId = some session) (hstep : session.step = .date)
    (hdata : session.data = some data)
    (hmatch : dateMatch text.data = some (d, m, y))
    (htz : ∀ t, -86400000 ≤ w.localTZA t ∧ w.localTZA t ≤ 86400000) :
    ∃ tv, newDate w (digitsToNat y) ((digitsToNat m : Int) - 1) (digitsToNat d) = some tv ∧
      creationInput w userStates chatId (some text) =
        { states := userStates.set chatId
            { session with
              data := some { data with booking_date := some (w.toISOString tv) }
              step := .client_name }
          trace := [.sendMessage (toString chatId) "👤 *Введите имя клиента:*" true .none] } := by
  obtain ⟨-, hd, hm, hy, hd1, hd2, hm1, hm2, hy4⟩ := dateMatch_shape hmatch
  have bd := digitsToNat_lt d hd
  have bm := digitsToNat_lt m hm
  have by4 := digitsToNat_lt y hy
  have bd' : digitsToNat d < 100 :=
    lt_of_lt_of_le bd (by
      calc 10 ^ d.length ≤ 10 ^ 2 := Nat.pow_le_pow_right (by norm_num) hd2
        _ = 100 := by norm_num)
  have bm' : digitsToNat m < 100 :=
    lt_of_lt_of_le bm (by
      calc 10 ^ m.length ≤ 10 ^ 2 := Nat.pow_le_pow_right (by norm_num) hm2
        _ = 100 := by norm_num)
  have by' : digitsToNat y < 10000 := by
    rw [hy4] at by4
    exact by4
  obtain ⟨tv, htv⟩ := newDate_isSome w (digitsToNat y) ((digitsToNat m : Int) - 1)
    (digitsToNat d) (by omega) (by omega) (by omega) htz
  refine ⟨tv, htv, ?_⟩
  unfold creationInput
  simp only [dateMatch_not_literal hmatch, hsession, hstep, dateMatch_no_back hmatch, hmatch,
    htv, hdata]
  simp

/-! ### The handlers that wait, run without interleaving -/

/-- Run on its own, the delete-id handler split at its `await` is `deleteIdInput`. -/
theorem deleteIdStart_complete (w : World) (userStates : Sessions) (chatId : Int)
    (text : Option String) :
    (deleteIdStart w userStates chatId text).complete = deleteIdInput w userStates chatId text := by
  unfold deleteIdStart deleteIdInput
  split
  · rfl
  · cases hs : userStates chatId with
    | none => rfl
    | some session =>
      dsimp only
      split
      · cases parseInt (tplU text).data with
        | none => rfl
        | some bookingId =>
          simp only [Started.complete, deleteIdResume, hs]
          cases w.query (Query.selectBookingById bookingId) with
          | error e => simp
          | ok rows => cases rows <;> simp
      · rfl

/-- Run on its own, the confirm handler split at its `await` is `confirmHandler`. -/
theorem confirmStart_complete (w : World) (userStates : Sessions) (chatId : Int) :
    (confirmStart w userStates chatId).complete = confirmHandler w userStates chatId := by
  unfold confirmStart
  cases hs : userStates chatId with
  | none => rfl
  | some session =>
    dsimp only
    split
    · rfl
    · rename_i hstep
      have hstep' : session.step = .confirm := by simpa using hstep
      simp only [Started.complete]
      unfold confirmHandler
      simp only [hs, hstep', ne_eq, not_true_eq_false, ↓reduceIte]
      repeat' split
      all_goals simp [confirmCatch]

/-- Run on its own, the delete confirmation split at its `await` is `yesHandler`. -/
theorem yesStart_complete (w : World) (userStates : Sessions) (chatId : Int) :
    (yesStart w userStates chatId).complete = yesHandler w userStates chatId := by
  unfold yesStart yesHandler
  cases userStates chatId with
  | none => rfl
  | some session =>
    dsimp only
    split
    · rfl
    · cases session.deleteCandidate with
      | none => rfl
      | some booking =>
        simp only [Started.complete, yesResume]
        cases w.query (Query.deleteBooking booking.id) with
        | error e => simp
        | ok rows => cases rows <;> simp

/-! ### Zero padding -/

/-- A leading zero does not change the number a string of digits denotes. -/
theorem digitsToNat_zeroPad (ds : List Char) : digitsToNat (zeroPad ds) = digitsToNat ds := by
  unfold zeroPad
  split
  · simp [digitsToNat]
  · rfl

/-- The zero-padded form of a group of one or two digits has two digits. -/
theorem zeroPad_shape {ds : List Char} (h : ds.all Char.isDigit = true) (h1 : 1 ≤ ds.length)
    (h2 : ds.length ≤ 2) :
    (zeroPad ds).all Char.isDigit = true ∧ (zeroPad ds).length = 2 := by
  unfold zeroPad
  split
  · rename_i hlen
    refine ⟨?_, by simp [hlen]⟩
    simp only [List.all_cons, h, Bool.and_true]
    decide
  · exact ⟨h, by omega⟩

/-! ### Literals and numbers -/

/-- None of the eleven literals of the delete-flow filter starts with a number. -/
theorem deleteLiterals_not_numbers : ∀ l ∈ deleteLiterals, parseInt l.data = none := by
  decide

/-- A text from which `parseInt` reads a number is none of the eleven literals. -/
theorem not_literal_of_parseInt {text : Option String} {n : JsNumber}
    (h : parseInt (tplU text).data = some n) : isLiteral deleteLiterals text = false := by
  cases text with
  | none => rfl
  | some t =>
    cases hl : isLiteral deleteLiterals (some t) with
    | false => rfl
    | true =>
      simp only [isLiteral, List.contains_iff_exists_mem_beq, beq_iff_eq] at hl
      obtain ⟨l, hl1, hl2⟩ := hl
      subst hl2
      rw [show tplU (some t) = t from rfl, deleteLiterals_not_numbers t hl1] at h
      cases h

/-- The seven literals of the creation-flow filter are among the eleven of the
delete-flow filter. -/
theorem creationLiterals_sub : ∀ l ∈ creationLiterals, l ∈ deleteLiterals := by
  decide

/-- A pattern in the middle of a text occurs in it. -/
theorem includes_mid (pre pat post : List Char) : includes pat (pre ++ pat ++ post) = true :=
  (includes_iff _ _).2 ⟨pre, post, rfl⟩

/-- A pattern that occurs in a text occurs in the text with more after it. -/
theorem includes_append_left {pat a : List Char} (b : List Char) (h : includes pat a = true) :
    includes pat (a ++ b) = true :=
  (includes_iff _ _).2 (((includes_iff _ _).1 h).trans (List.prefix_append a b).isInfix)

/-- A pattern that occurs in a text occurs in the text with more before it. -/
theorem includes_append_right (a : List Char) {pat b : List Char} (h : includes pat b = true) :
    includes pat (a ++ b) = true :=
  (includes_iff _ _).2 (((includes_iff _ _).1 h).trans (List.suffix_append a b).isInfix)

/-- A text occurs in itself. -/
theorem includes_self (pat : List Char) : includes pat pat = true :=
  (includes_iff _ _).2 List.infix_rfl

/-- The success summary of a deletion holds the service name, the date, the client's
first name and phone, the address when there is one, and the id of the booking. -/
theorem deletedText_echoes (w : World) (booking : Row) :
    includes (tplN booking.service_name).data (deletedText w booking).data = true ∧
    includes (w.toLocaleDateString booking.booking_date).data (deletedText w booking).data
      = true ∧
    includes (orStr booking.first_name "-").data (deletedText w booking).data = true ∧
    includes (orStr booking.phone_number "-").data (deletedText w booking).data = true ∧
    (truthy booking.address = true →
      includes (tplN booking.address).data (deletedText w booking).data = true) ∧
    includes (toString booking.id).data (deletedText w booking).data = true := by
  refine ⟨?_, ?_, ?_, ?_, ?_, ?_⟩
  all_goals
    try intro haddr
    simp only [deletedText, bookingSummary, String.data_append, List.append_assoc]
    try simp only [haddr, ↓reduceIte, String.data_append, List.append_assoc]
    repeat
      first
      | exact includes_append_left _ (includes_self _)
      | apply includes_append_right

/-! ### The dispatcher and the order of the steps -/

/-- An invariant that every matching callback keeps holds after the loop. -/
theorem runCallbacks_induct (w : World) (chatId : Int) (text : String)
    (Inv : Pending → Prop) :
    ∀ (cbs : List TextCallback) (p : Pending),
      (∀ cb ∈ cbs, ∀ q, Inv q → cb.pattern text = true →
        Inv (q.note (cb.run w q.states chatId text))) →
      Inv p → Inv (runCallbacks w chatId text cbs p) := by
  intro cbs
  induction cbs with
  | nil => intro p _ hp; exact hp
  | cons cb rest ih =>
    intro p hcb hp
    unfold runCallbacks
    split
    · rename_i hpat
      have hnote := hcb cb (List.mem_cons_self _ _) p hp hpat
      dsimp only
      split
      · exact hnote
      · exact ih _ (fun c hc => hcb c (List.mem_cons_of_mem _ hc)) hnote
    · exact ih _ (fun c hc => hcb c (List.mem_cons_of_mem _ hc)) hp

theorem stepOf_del (userStates : Sessions) (chatId : Int) :
    stepOf (userStates.del chatId) chatId = none := by
  simp [stepOf, Sessions.del]

theorem stepOf_set (userStates : Sessions) (chatId : Int) (s : Session) :
    stepOf (userStates.set chatId s) chatId = some s.step := by
  simp [stepOf, Sessions.set]

theorem stepAllowed_refl (a : Option Step) : stepAllowed a a = true := by
  simp [stepAllowed]

theorem stepAllowed_none (a : Option Step) : stepAllowed a none = true := by
  simp [stepAllowed]

theorem stepAllowed_service (a : Option Step) : stepAllowed a (some .service) = true := by
  simp [stepAllowed]

theorem stepAllowed_delete_ask_id (a : Option Step) :
    stepAllowed a (some .delete_ask_id) = true := by
  simp [stepAllowed]

/-- The creation-flow handler keeps the step or advances it by one, and sets neither
`service` nor `delete_ask_id`. -/
theorem creationInput_step (w : World) (userStates : Sessions) (chatId : Int)
    (text : Option String) :
    stepAllowed (stepOf userStates chatId)
      (stepOf (creationInput w userStates chatId text).states chatId) = true ∧
    (stepOf (creationInput w userStates chatId text).states chatId = some .service →
      stepOf userStates chatId = some .service) ∧
    (stepOf (creationInput w userStates chatId text).states chatId = some .delete_ask_id →
      stepOf userStates chatId = some .delete_ask_id) := by
  unfold creationInput
  dsimp only
  split
  · exact ⟨stepAllowed_refl _, id, id⟩
  · cases hs : userStates chatId with
    | none => exact ⟨by simp [stepOf, hs, stepAllowed], by simp [stepOf, hs], by simp [stepOf, hs]⟩
    | some session =>
      obtain ⟨step, data, cand⟩ := session
      cases step <;> dsimp only <;> simp only [reduceCtorEq, ↓reduceIte] <;>
        (repeat' split) <;>
        simp_all [stepOf, Sessions.set, stepAllowed, Step.next]

/-- The rest of the delete-id handler removes the session or sets `confirm_delete`. -/
theorem deleteIdResume_keeps (w : World) (chatId : Int) (bookingId : JsNumber) :
    ResumeKeeps (some .delete_ask_id) chatId (deleteIdResume w chatId bookingId) := by
  intro st
  unfold deleteIdResume
  dsimp only
  cases w.query (Query.selectBookingById bookingId) with
  | error e => exact Or.inr (Or.inl (stepOf_del _ _))
  | ok rows =>
    cases rows with
    | nil => exact Or.inr (Or.inl (stepOf_del _ _))
    | cons booking rest =>
      dsimp only
      cases hst : st chatId with
      | none => exact Or.inr (Or.inl (stepOf_del _ _))
      | some session => exact Or.inr (Or.inr ⟨by simp [stepOf_set], rfl⟩)

/-- The delete-id handler up to its `await` keeps the session or removes it, and waits
only in a delete flow. -/
theorem deleteIdStart_step (w : World) (userStates : Sessions) (chatId : Int)
    (text : Option String) :
    (stepOf (deleteIdStart w userStates chatId text).states chatId = stepOf userStates chatId ∨
     stepOf (deleteIdStart w userStates chatId text).states chatId = none) ∧
    ∀ k, (deleteIdStart w userStates chatId text).resume = some k →
      stepOf userStates chatId = some .delete_ask_id ∧
      ResumeKeeps (some .delete_ask_id) chatId k := by
  unfold deleteIdStart
  split
  · exact ⟨Or.inl rfl, by simp⟩
  · cases hs : userStates chatId with
    | none => exact ⟨Or.inl rfl, by simp⟩
    | some session =>
      dsimp only
      split
      · rename_i hstep
        cases parseInt (tplU text).data with
        | none => exact ⟨Or.inr (stepOf_del _ _), by simp⟩
        | some bookingId =>
          refine ⟨Or.inl rfl, ?_⟩
          intro k hk
          simp only [Option.some.injEq] at hk
          subst hk
          exact ⟨by simp [stepOf, hs, hstep], deleteIdResume_keeps w chatId bookingId⟩
      · exact ⟨Or.inl rfl, by simp⟩

/-- How a handler that keeps the invariant may change the step. -/
theorem StepInv_note {before : Option Step} {create service : Prop} {chatId : Int}
    {q : Pending} (hinv : StepInv before create service chatId q) (s : Started)
    (hstep : stepOf s.states chatId = stepOf q.states chatId ∨
      stepOf s.states chatId = none ∨
      stepOf s.states chatId = some .delete_ask_id ∨
      (stepOf s.states chatId = some .service ∧ create) ∨
      (stepOf s.states chatId = some .date ∧ stepOf q.states chatId = some .service ∧ service))
    (hres : ∀ k, s.resume = some k → ResumeKeeps before chatId k) :
    StepInv before create service chatId (q.note s) := by
  obtain ⟨hg, hh, hr⟩ := hinv
  refine ⟨?_, ?_, ?_⟩
  · show stepAllowed before (stepOf s.states chatId) = true ∨ _
    rcases hstep with h | h | h | h | h
    · rw [h]; exact hg
    · rw [h]; exact Or.inl (stepAllowed_none _)
    · rw [h]; exact Or.inl (stepAllowed_delete_ask_id _)
    · rw [h.1]; exact Or.inl (stepAllowed_service _)
    · rw [h.1]
      rcases hh h.2.1 with hb | hc
      · subst hb; exact Or.inl (by decide)
      · exact Or.inr ⟨hc, h.2.2⟩
  · show stepOf s.states chatId = some .service → _
    rcases hstep with h | h | h | h | h
    · rw [h]; exact hh
    · rw [h]; intro hx; cases hx
    · rw [h]; intro hx; cases hx
    · intro _; exact Or.inr h.2
    · rw [h.1]; intro hx; cases hx
  · intro k hk
    simp only [Pending.note, List.mem_append, Option.mem_toList, Option.mem_def] at hk
    rcases hk with hk | hk
    · exact hr k hk
    · exact hres k hk

/-- The four listing handlers return the session map they were given. -/
theorem listing_states (w : World) (userStates : Sessions) (chatId : Int) :
    (listAllHandler w userStates chatId).states = userStates ∧
    (todayHandler w userStates chatId).states = userStates ∧
    (clientsHandler w userStates chatId).states = userStates ∧
    (statsHandler w userStates chatId).states = userStates := by
  refine ⟨?_, ?_, ?_, ?_⟩
  · unfold listAllHandler
    dsimp only
    repeat' split
    all_goals rfl
  · unfold todayHandler
    dsimp only
    repeat' split
    all_goals rfl
  · unfold clientsHandler
    dsimp only
    repeat' split
    all_goals rfl
  · unfold statsHandler
    dsimp only
    repeat' split
    all_goals rfl

/-- A listing command as the dispatcher runs it keeps the invariant. -/
theorem StepInv_listing {before : Option Step} {create service : Prop} {chatId : Int}
    {q : Pending} (hinv : StepInv before create service chatId q) (w : World)
    (handler : World → Sessions → Int → Outcome)
    (hstates : ∀ us, (handler w us chatId).states = us) :
    StepInv before create service chatId (q.note (listingStart handler w q.states chatId)) := by
  apply StepInv_note hinv
  · left
    unfold listingStart
    split
    · simp [Started.done, hstates]
    · rfl
  · intro k hk
    unfold listingStart at hk
    split at hk
    · simp [Started.done] at hk
    · simp only [Option.some.injEq] at hk
      subst hk
      intro st
      exact Or.inl rfl

/-- The confirm handler up to its `await` returns the session map it was given. -/
theorem confirmStart_states (w : World) (userStates : Sessions) (chatId : Int) :
    (confirmStart w userStates chatId).states = userStates := by
  unfold confirmStart
  split
  · rename_i heq
    simp [Started.done, confirmHandler, heq]
  · rename_i session heq
    split
    · rename_i hstep
      simp [Started.done, confirmHandler, heq, hstep]
    · rfl

/-- The rest of the confirm handler removes the session. -/
theorem confirmStart_resume (w : World) (userStates : Sessions) (chatId : Int)
    (k : Sessions → Outcome) (hk : (confirmStart w userStates chatId).resume = some k)
    (st : Sessions) : stepOf (k st).states chatId = none := by
  unfold confirmStart at hk
  split at hk
  · simp [Started.done] at hk
  · split at hk
    · simp [Started.done] at hk
    · simp only [Option.some.injEq] at hk
      subst hk
      exact stepOf_del _ _

/-- The delete confirmation up to its `await` keeps the session or removes it. -/
theorem yesStart_step (w : World) (userStates : Sessions) (chatId : Int) :
    stepOf (yesStart w userStates chatId).states chatId = stepOf userStates chatId ∨
    stepOf (yesStart w userStates chatId).states chatId = none := by
  unfold yesStart
  split
  · exact Or.inl rfl
  · rename_i session heq
    split
    · exact Or.inl rfl
    · rename_i hstep
      have hstep' : session.step = .confirm_delete := by simpa using hstep
      split
      · rename_i hc
        right
        simp [Started.done, yesHandler, heq, hstep', hc, stepOf_del]
      · exact Or.inl rfl

/-- The rest of the delete confirmation removes the session. -/
theorem yesStart_resume (w : World) (userStates : Sessions) (chatId : Int)
    (k : Sessions → Outcome) (hk : (yesStart w userStates chatId).resume = some k)
    (st : Sessions) : stepOf (k st).states chatId = none := by
  unfold yesStart at hk
  split at hk
  · simp at hk
  · split at hk
    · simp at hk
    · split at hk
      · simp [Started.done] at hk
      · rename_i booking hc
        simp only [Option.some.injEq] at hk
        subst hk
        unfold yesResume
        dsimp only
        cases w.query (Query.deleteBooking booking.id) with
        | error e => exact stepOf_del _ _
        | ok rows => cases rows <;> exact stepOf_del _ _

/-- Every `onText` callback keeps the invariant of the order of the steps. -/
theorem textCallbacks_keep (w : World) (chatId : Int) (text : String) (before : Option Step) :
    ∀ cb ∈ textCallbacks, ∀ q,
      StepInv before (literalPattern "➕ Добавить бронирование" text = true)
        (servicePattern text = true) chatId q →
      cb.pattern text = true →
      StepInv before (literalPattern "➕ Добавить бронирование" text = true)
        (servicePattern text = true) chatId (q.note (cb.run w q.states chatId text)) := by
  intro cb hcb q hinv hpat
  simp only [textCallbacks, List.mem_cons, List.mem_singleton, List.not_mem_nil, or_false]
    at hcb
  rcases hcb with h | h | h | h | h | h | h | h | h | h | h | h | h <;> subst h
  · -- /start
    exact StepInv_note hinv _ (Or.inr (Or.inl (stepOf_del _ _))) (by simp [Started.done])
  · -- back
    exact StepInv_note hinv _ (Or.inr (Or.inl (stepOf_del _ _))) (by simp [Started.done])
  · exact StepInv_listing hinv w listAllHandler (fun us => (listing_states w us chatId).1)
  · exact StepInv_listing hinv w todayHandler (fun us => (listing_states w us chatId).2.1)
  · -- start-create
    apply StepInv_note hinv
    · dsimp only [Started.done]
      unfold startCreateHandler
      split
      · exact Or.inl rfl
      · exact Or.inr (Or.inr (Or.inr (Or.inl ⟨stepOf_set _ _ _, hpat⟩)))
    · simp [Started.done]
  · -- service selection
    apply StepInv_note hinv
    · dsimp only [Started.done]
      unfold serviceCallback
      dsimp only
      cases hs : q.states chatId with
      | none => exact Or.inl rfl
      | some session =>
        dsimp only
        split
        · exact Or.inl rfl
        · rename_i hstep
          have hstep' : session.step = .service := by simpa using hstep
          cases session.data with
          | none => exact Or.inl rfl
          | some data =>
            exact Or.inr (Or.inr (Or.inr (Or.inr
              ⟨stepOf_set _ _ _, by simp [stepOf, hs, hstep'], hpat⟩)))
    · simp [Started.done]
  · -- confirm
    exact StepInv_note hinv _ (Or.inl (by rw [confirmStart_states]))
      (fun k hk st => Or.inr (Or.inl (confirmStart_resume w q.states chatId k hk st)))
  · -- cancel
    exact StepInv_note hinv _ (Or.inr (Or.inl (stepOf_del _ _))) (by simp [Started.done])
  · -- start-delete
    apply StepInv_note hinv
    · dsimp only [Started.done]
      unfold startDeleteHandler
      split
      · exact Or.inl rfl
      · exact Or.inr (Or.inr (Or.inl (stepOf_set _ _ _)))
    · simp [Started.done]
  · -- yes
    apply StepInv_note hinv
    · rcases yesStart_step w q.states chatId with h | h
      · exact Or.inl h
      · exact Or.inr (Or.inl h)
    · exact fun k hk st => Or.inr (Or.inl (yesStart_resume w q.states chatId k hk st))
  · -- no
    apply StepInv_note hinv
    · dsimp only [Started.done]
      unfold noHandler
      cases hs : q.states chatId with
      | none => exact Or.inl rfl
      | some session =>
        dsimp only
        split
        · exact Or.inr (Or.inl (stepOf_del _ _))
        · exact Or.inl rfl
    · simp [Started.done]
  · exact StepInv_listing hinv w clientsHandler (fun us => (listing_states w us chatId).2.2.1)
  · exact StepInv_listing hinv w statsHandler (fun us => (listing_states w us chatId).2.2.2)

/-- The handlers that wait keep the step allowed when they resume. -/
theorem runResumes_step (before : Option Step) (bad : Prop) (chatId : Int) :
    ∀ (ks : List (Sessions → Outcome)) (p : Pending),
      (∀ k ∈ ks, ResumeKeeps before chatId k) →
      (stepAllowed before (stepOf p.states chatId) = true ∨ bad) →
      (stepAllowed before (stepOf (runResumes ks p).states chatId) = true ∨ bad) := by
  intro ks
  induction ks with
  | nil => intro p _ hp; exact hp
  | cons k rest ih =>
    intro p hks hp
    unfold runResumes
    apply ih _ (fun k' hk' => hks k' (List.mem_cons_of_mem _ hk'))
    dsimp only
    rcases hks k (List.mem_cons_self _ _) p.states with h | h | h
    · rw [h]; exact hp
    · rw [h]; exact Or.inl (stepAllowed_none _)
    · rw [h.1, h.2]; exact Or.inl (by decide)

/-- The order of the steps through the dispatcher. For every session map, user and
message, the step of the user after all handlers have run is one the order of the steps
allows, unless the text matches both the start-create pattern and the service
pattern. -/
theorem processUpdate_step (w : World) (userStates : Sessions) (chatId : Int)
    (text : Option String) :
    stepAllowed (stepOf userStates chatId)
        (stepOf (processUpdate w userStates chatId text).states chatId) = true ∨
    ∃ t, text = some t ∧ literalPattern "➕ Добавить бронирование" t = true ∧
      servicePattern t = true := by
  have h1 := creationInput_step w userStates chatId text
  have h2 := deleteIdStart_step w (creationInput w userStates chatId text).states chatId text
  -- the invariant after the two `'message'` listeners, for any two facts about the text
  have hinv2 : ∀ create service : Prop,
      StepInv (stepOf userStates chatId) create service chatId
        ((({ states := userStates, trace := [] } : Pending).note
            (.done (creationInput w userStates chatId text))).note
          (deleteIdStart w (creationInput w userStates chatId text).states chatId text)) := by
    intro create service
    have hinv1 : StepInv (stepOf userStates chatId) create service chatId
        (({ states := userStates, trace := [] } : Pending).note
          (.done (creationInput w userStates chatId text))) :=
      ⟨Or.inl h1.1, fun hs => Or.inl (h1.2.1 hs), by simp [Pending.note, Started.done]⟩
    apply StepInv_note hinv1
    · rcases h2.1 with h | h
      · exact Or.inl h
      · exact Or.inr (Or.inl h)
    · intro k hk
      obtain ⟨hstep, hkeep⟩ := h2.2 k hk
      rw [h1.2.2 hstep]
      exact hkeep
  unfold processUpdate
  dsimp only
  cases text with
  | none =>
    dsimp only
    have hinv := hinv2 False False
    rcases runResumes_step _ False chatId _ _ hinv.2.2 (hinv.1.imp id (fun h => h.1)) with h | h
    · exact Or.inl h
    · exact h.elim
  | some t =>
    dsimp only
    split
    · have hinv := runCallbacks_induct w chatId t _ textCallbacks _
        (textCallbacks_keep w chatId t (stepOf userStates chatId)) (hinv2 _ _)
      rcases runResumes_step _ _ chatId _ _ hinv.2.2 hinv.1 with h | h
      · exact Or.inl h
      · exact Or.inr ⟨t, rfl, h.1, h.2⟩
    · have hinv := hinv2 False False
      rcases runResumes_step _ False chatId _ _ hinv.2.2 (hinv.1.imp id (fun h => h.1))
        with h | h
      · exact Or.inl h
      · exact h.elim

/-! ### Back, /start and cancel through the dispatcher -/

/-- The loop over the callbacks calls the callbacks whose pattern matches. -/
theorem runCallbacks_filter (w : World) (chatId : Int) (text : String) :
    ∀ (cbs : List TextCallback) (p : Pending),
      runCallbacks w chatId text cbs p =
        runCallbacks w chatId text (cbs.filter (fun cb => cb.pattern text)) p := by
  intro cbs
  induction cbs with
  | nil => intro p; rfl
  | cons cb rest ih =>
    intro p
    by_cases hpat : cb.pattern text = true
    · rw [List.filter_cons_of_pos (p := fun cb => cb.pattern text) (a := cb) hpat]
      unfold runCallbacks
      simp only [hpat, ↓reduceIte]
      split
      · rfl
      · exact ih _
    · rw [List.filter_cons_of_neg (p := fun cb => cb.pattern text) (a := cb) hpat]
      rw [← ih]
      conv => lhs; unfold runCallbacks
      simp only [hpat]
      rfl

/-- The creation-flow handler makes no repository call. -/
theorem creationInput_no_query (w : World) (userStates : Sessions) (chatId : Int)
    (text : Option String) : queriesOf (creationInput w userStates chatId text).trace = [] := by
  unfold creationInput
  dsimp only
  repeat' split
  all_goals rfl

/-- On a text from which no integer can be parsed the delete-id handler does not wait
and makes no repository call. -/
theorem deleteIdStart_no_number (w : World) (userStates : Sessions) (chatId : Int)
    (text : Option String) (hparse : parseInt (tplU text).data = none) :
    (deleteIdStart w userStates chatId text).resume = none ∧
    queriesOf (deleteIdStart w userStates chatId text).trace = [] := by
  unfold deleteIdStart
  split
  · exact ⟨rfl, rfl⟩
  · split
    · exact ⟨rfl, rfl⟩
    · split
      · rw [hparse]
        exact ⟨rfl, rfl⟩
      · exact ⟨rfl, rfl⟩

/-- One update whose text calls exactly one `onText` callback, a plain one that removes
the session and makes no repository call, and from whose text no integer can be
parsed: the user has no session afterwards and no repository call is made. -/
theorem processUpdate_single_exit (w : World) (userStates : Sessions) (chatId : Int)
    (text : String) (cb : TextCallback)
    (hne : text ≠ "") (hparse : parseInt text.data = none)
    (hfilter : textCallbacks.filter (fun c => c.pattern text) = [cb])
    (hexit : ∀ us, (cb.run w us chatId text).states chatId = none ∧
      (cb.run w us chatId text).resume = none ∧
      queriesOf (cb.run w us chatId text).trace = []) :
    (processUpdate w userStates chatId (some text)).states chatId = none ∧
    queriesOf (processUpdate w userStates chatId (some text)).trace = [] := by
  have h2 := deleteIdStart_no_number w (creationInput w userStates chatId (some text)).states
    chatId (some text) hparse
  have h1 := creationInput_no_query w userStates chatId (some text)
  unfold processUpdate
  dsimp only
  rw [if_pos hne, runCallbacks_filter, hfilter]
  have h3 := hexit (deleteIdStart w (creationInput w userStates chatId (some text)).states
    chatId (some text)).states
  have hpat : cb.pattern text = true := by
    have hmem : cb ∈ textCallbacks.filter (fun c => c.pattern text) := by
      rw [hfilter]
      exact List.mem_singleton_self cb
    exact (List.mem_filter.1 hmem).2
  simp only [runCallbacks, Pending.note, Started.done, hpat, ↓reduceIte] at h3 ⊢
  split <;>
    simp [h2.1, h3.1, h3.2.1, h3.2.2, h2.2, h1, runResumes, queriesOf_append]

/-- Back, /start and cancel through the dispatcher: on the text of each of the three
commands, whatever the session map holds, the user has no session after all handlers
have run and no repository call is made. -/
theorem processUpdate_exit_commands (w : World) (userStates : Sessions) (chatId : Int) :
    ((processUpdate w userStates chatId (some "↩️ Назад")).states chatId = none ∧
     queriesOf (processUpdate w userStates chatId (some "↩️ Назад")).trace = []) ∧
    ((processUpdate w userStates chatId (some "/start")).states chatId = none ∧
     queriesOf (processUpdate w userStates chatId (some "/start")).trace = []) ∧
    ((processUpdate w userStates chatId (some "❌ Отменить")).states chatId = none ∧
     queriesOf (processUpdate w userStates chatId (some "❌ Отменить")).trace = []) := by
  refine ⟨?_, ?_, ?_⟩
  · exact processUpdate_single_exit w userStates chatId "↩️ Назад"
      { pattern := literalPattern "↩️ Назад", plain := true
        run := fun _ us c _ => .done (backHandler us c) }
      (by decide) (by decide) rfl
      (fun us => ⟨by simp [Started.done, backHandler, Sessions.del], rfl, rfl⟩)
  · exact processUpdate_single_exit w userStates chatId "/start"
      { pattern := literalPattern "/start", plain := true
        run := fun w us c _ => .done (startHandler w us c) }
      (by decide) (by decide) rfl
      (fun us => ⟨by simp [Started.done, startHandler, Sessions.del], rfl, by
        simp only [Started.done, startHandler]
        split <;> rfl⟩)
  · exact processUpdate_single_exit w userStates chatId "❌ Отменить"
      { pattern := literalPattern "❌ Отменить", plain := true
        run := fun _ us c _ => .done (cancelHandler us c) }
      (by decide) (by decide) rfl
      (fun us => ⟨by simp [Started.done, cancelHandler, Sessions.del], rfl, rfl⟩)

/-! ### The chain of replacements as one pass -/

/-- A replacement works on each part of a text. -/
theorem replaceAll_append (c : Char) (a b : List Char) :
    replaceAll c (a ++ b) = replaceAll c a ++ replaceAll c b := by
  simp [replaceAll, List.flatMap_append]

/-- The chain works on each part of a text. -/
theorem replaceChain_append (specials : List Char) :
    ∀ a b : List Char,
      replaceChain specials (a ++ b) = replaceChain specials a ++ replaceChain specials b := by
  induction specials with
  | nil => intro a b; rfl
  | cons c rest ih =>
    intro a b
    simp only [replaceChain, List.foldl_cons] at ih ⊢
    rw [replaceAll_append]
    exact ih _ _

/-- A replacement leaves a text without its character as it is. -/
theorem replaceAll_of_not_mem (c : Char) (s : List Char) (h : c ∉ s) : replaceAll c s = s := by
  induction s with
  | nil => rfl
  | cons x xs ih =>
    have hx : x ≠ c := fun e => h (e ▸ List.mem_cons_self _ _)
    have hxs : c ∉ xs := fun e => h (List.mem_cons_of_mem _ e)
    have := ih hxs
    simp only [replaceAll, List.flatMap_cons, hx, ↓reduceIte, List.singleton_append,
      List.cons.injEq, true_and] at this ⊢
    exact this

/-- The chain leaves a text that holds none of its characters as it is. -/
theorem replaceChain_of_disjoint (specials : List Char) :
    ∀ s : List Char, (∀ c ∈ specials, c ∉ s) → replaceChain specials s = s := by
  induction specials with
  | nil => intro s _; rfl
  | cons c rest ih =>
    intro s h
    simp only [replaceChain, List.foldl_cons] at ih ⊢
    rw [replaceAll_of_not_mem c s (h c (List.mem_cons_self _ _))]
    exact ih s (fun x hx => h x (List.mem_cons_of_mem _ hx))

/-- The chain on one character: a character of the chain gets one backslash, any other
stays, when the chain lists no character twice and not the backslash. -/
theorem replaceChain_single (specials : List Char) (hnodup : specials.Nodup)
    (hback : '\\' ∉ specials) (x : Char) :
    replaceChain specials [x] = if specials.contains x then ['\\', x] else [x] := by
  induction specials with
  | nil => rfl
  | cons c rest ih =>
    have hnodup' := List.nodup_cons.1 hnodup
    have hback' : '\\' ∉ rest := fun e => hback (List.mem_cons_of_mem _ e)
    have hc : c ≠ '\\' := fun e => hback (e ▸ List.mem_cons_self _ _)
    show replaceChain rest (replaceAll c [x]) = _
    by_cases hx : x = c
    · subst hx
      have h1 : replaceAll x [x] = ['\\', x] := by simp [replaceAll]
      rw [h1, replaceChain_of_disjoint rest ['\\', x]]
      · simp
      · intro y hy hmem
        simp only [List.mem_cons, List.mem_singleton, List.not_mem_nil, or_false] at hmem
        rcases hmem with e | e
        · exact hback' (e ▸ hy)
        · exact hnodup'.1 (e ▸ hy)
    · have h1 : replaceAll c [x] = [x] := by simp [replaceAll, hx]
      rw [h1, ih hnodup'.2 hback']
      simp [hx]

/-- The chain of eighteen replacements is the single pass. -/
theorem replaceChain_eq_escapePass (s : List Char) :
    replaceChain markdownSpecials s = escapePass s := by
  induction s with
  | nil => exact replaceChain_of_disjoint _ [] (fun _ _ h => by cases h)
  | cons x xs ih =>
    have hn : markdownSpecials.Nodup := by decide
    have hb : '\\' ∉ markdownSpecials := by decide
    show replaceChain markdownSpecials ([x] ++ xs) = escapePass (x :: xs)
    rw [replaceChain_append, ih, replaceChain_single markdownSpecials hn hb x]
    rfl

/-- The result of `escapeMarkdown` is the single pass over the text. -/
theorem escapeMarkdown_data (text : String) :
    (escapeMarkdown text).data = escapePass text.data := by
  unfold escapeMarkdown
  split
  · rename_i h
    subst h
    rfl
  · have h := replaceChain_eq_escapePass text.data
    simp only [replaceChain] at h
    simpa using h

/-- The single pass over a text without backslashes leaves no listed character
unescaped. -/
theorem escapePass_no_unescaped (s : List Char) (h : '\\' ∉ s) :
    hasUnescapedSpecial (escapePass s) = false := by
  induction s with
  | nil => rfl
  | cons x xs ih =>
    have hx : x ≠ '\\' := fun e => h (e ▸ List.mem_cons_self _ _)
    have hxs := ih (fun e => h (List.mem_cons_of_mem _ e))
    unfold escapePass at hxs ⊢
    rw [List.flatMap_cons]
    by_cases hsp : markdownSpecials.contains x = true
    · simp only [hsp, ↓reduceIte, List.cons_append, List.nil_append]
      simpa [hasUnescapedSpecial] using hxs
    · simp only [hsp, Bool.false_eq_true, ↓reduceIte, List.cons_append, List.nil_append]
      have hsp' : markdownSpecials.contains x = false := by simpa using hsp
      unfold hasUnescapedSpecial
      split
      · rfl
      · rename_i heq
        simp only [List.cons.injEq] at heq
        exact absurd heq.1 hx
      · rename_i heq
        simp only [List.cons.injEq] at heq
        exact absurd heq.1 hx
      · rename_i c rest _ _ heq
        simp only [List.cons.injEq] at heq
        obtain ⟨e1, e2⟩ := heq
        subst e1 e2
        rw [hsp', hxs]
        rfl

/-! ### Sessions only of the admin -/

theorem AdminOnly_del {admin : String} {userStates : Sessions}
    (h : AdminOnly admin userStates) (chatId : Int) :
    AdminOnly admin (userStates.del chatId) := by
  intro c s hs
  unfold Sessions.del at hs
  split at hs
  · cases hs
  · exact h c s hs

theorem AdminOnly_set {admin : String} {userStates : Sessions}
    (h : AdminOnly admin userStates) (chatId : Int) (s : Session)
    (hc : toString chatId = admin) : AdminOnly admin (userStates.set chatId s) := by
  intro c s1 hs
  unfold Sessions.set at hs
  split at hs
  · rename_i heq
    rw [heq]; exact hc
  · exact h c s1 hs

theorem AdminOnly_set_of_some {admin : String} {userStates : Sessions}
    (h : AdminOnly admin userStates) (chatId : Int) (s old : Session)
    (hold : userStates chatId = some old) : AdminOnly admin (userStates.set chatId s) :=
  AdminOnly_set h chatId s (h chatId old hold)

/-- The creation-flow handler writes only to a session that exists. -/
theorem creationInput_adminOnly (w : World) (userStates : Sessions) (chatId : Int)
    (text : Option String) (admin : String) (h : AdminOnly admin userStates) :
    AdminOnly admin (creationInput w userStates chatId text).states := by
  unfold creationInput
  dsimp only
  repeat' split
  all_goals first
    | exact h
    | exact AdminOnly_set_of_some h _ _ _ (by assumption)

theorem deleteIdResume_adminOnly (w : World) (chatId : Int) (bookingId : JsNumber)
    (admin : String)
    (st : Sessions) (h : AdminOnly admin st) :
    AdminOnly admin (deleteIdResume w chatId bookingId st).states := by
  unfold deleteIdResume
  dsimp only
  repeat' split
  all_goals first
    | exact AdminOnly_del h _
    | exact AdminOnly_set_of_some h _ _ _ (by assumption)

theorem yesResume_adminOnly (w : World) (chatId : Int) (booking : Row) (admin : String)
    (st : Sessions) (h : AdminOnly admin st) :
    AdminOnly admin (yesResume w chatId booking st).states := by
  unfold yesResume
  dsimp only
  repeat' split
  all_goals exact AdminOnly_del h _

theorem confirmStart_resume_adminOnly (w : World) (userStates : Sessions) (chatId : Int)
    (k : Sessions → Outcome) (hk : (confirmStart w userStates chatId).resume = some k)
    (admin : String) (st : Sessions) (hst : AdminOnly admin st) :
    AdminOnly admin (k st).states := by
  unfold confirmStart at hk
  split at hk
  · simp [Started.done] at hk
  · split at hk
    · simp [Started.done] at hk
    · simp only [Option.some.injEq] at hk
      subst hk
      exact AdminOnly_del hst _

theorem yesStart_resume_adminOnly (w : World) (userStates : Sessions) (chatId : Int)
    (k : Sessions → Outcome) (hk : (yesStart w userStates chatId).resume = some k)
    (admin : String) (st : Sessions) (hst : AdminOnly admin st) :
    AdminOnly admin (k st).states := by
  unfold yesStart at hk
  split at hk
  · simp at hk
  · split at hk
    · simp at hk
    · split at hk
      · simp [Started.done] at hk
      · simp only [Option.some.injEq] at hk
        subst hk
        exact yesResume_adminOnly w chatId _ admin st hst

theorem yesHandler_adminOnly (w : World) (userStates : Sessions) (chatId : Int)
    (admin : String) (h : AdminOnly admin userStates) :
    AdminOnly admin (yesHandler w userStates chatId).states := by
  unfold yesHandler
  dsimp only
  repeat' split
  all_goals first
    | exact h
    | exact AdminOnly_del h _

theorem yesStart_adminOnly (w : World) (userStates : Sessions) (chatId : Int)
    (admin : String) (h : AdminOnly admin userStates) :
    AdminOnly admin (yesStart w userStates chatId).states := by
  unfold yesStart
  repeat' split
  all_goals first
    | exact h
    | exact yesHandler_adminOnly w userStates chatId admin h

/-- What a handler must do for the dispatcher to keep `AdminInv`. -/
theorem AdminInv_note {admin : String} {q : Pending} (hinv : AdminInv admin q) (s : Started)
    (hs : AdminOnly admin s.states)
    (hres : ∀ k, s.resume = some k → ∀ st, AdminOnly admin st → AdminOnly admin (k st).states) :
    AdminInv admin (q.note s) := by
  refine ⟨hs, ?_⟩
  intro k hk
  simp only [Pending.note, List.mem_append, Option.mem_toList, Option.mem_def] at hk
  rcases hk with hk | hk
  · exact hinv.2 k hk
  · exact hres k hk

theorem deleteIdStart_adminInv {admin : String} {q : Pending} (hinv : AdminInv admin q)
    (w : World) (chatId : Int) (text : Option String) :
    AdminInv admin (q.note (deleteIdStart w q.states chatId text)) := by
  apply AdminInv_note hinv
  · unfold deleteIdStart
    repeat' split
    all_goals first
      | exact hinv.1
      | exact AdminOnly_del hinv.1 _
  · intro k hk st hst
    unfold deleteIdStart at hk
    repeat' split at hk
    all_goals first
      | (simp only [Option.some.injEq] at hk
         subst hk
         exact deleteIdResume_adminOnly w chatId _ admin st hst)
      | cases hk

theorem listingStart_adminInv {admin : String} {q : Pending} (hinv : AdminInv admin q)
    (w : World) (chatId : Int) (handler : World → Sessions → Int → Outcome)
    (hstates : ∀ us, (handler w us chatId).states = us) :
    AdminInv admin (q.note (listingStart handler w q.states chatId)) := by
  apply AdminInv_note hinv
  · unfold listingStart
    split
    · simp only [Started.done, hstates]
      exact hinv.1
    · exact hinv.1
  · intro k hk st hst
    unfold listingStart at hk
    split at hk
    · simp [Started.done] at hk
    · simp only [Option.some.injEq] at hk
      subst hk
      exact hst

/-- Every `onText` callback keeps `AdminInv`: a session is created only behind the
access guard, and written to only where one exists. -/
theorem textCallbacks_adminInv (w : World) (chatId : Int) (text : String) :
    ∀ cb ∈ textCallbacks, ∀ q, AdminInv w.ADMIN_CHAT_ID q → cb.pattern text = true →
      AdminInv w.ADMIN_CHAT_ID (q.note (cb.run w q.states chatId text)) := by
  intro cb hcb q hinv _
  simp only [textCallbacks, List.mem_cons, List.mem_singleton, List.not_mem_nil, or_false]
    at hcb
  rcases hcb with h | h | h | h | h | h | h | h | h | h | h | h | h <;> subst h
  · exact AdminInv_note hinv _ (AdminOnly_del hinv.1 _) (by simp [Started.done])
  · exact AdminInv_note hinv _ (AdminOnly_del hinv.1 _) (by simp [Started.done])
  · exact listingStart_adminInv hinv w chatId listAllHandler
      (fun us => (listing_states w us chatId).1)
  · exact listingStart_adminInv hinv w chatId todayHandler
      (fun us => (listing_states w us chatId).2.1)
  · -- start-create
    apply AdminInv_note hinv
    · dsimp only [Started.done]
      unfold startCreateHandler
      split
      · exact hinv.1
      · rename_i hadmin
        exact AdminOnly_set hinv.1 _ _ (by simpa using hadmin)
    · simp [Started.done]
  · -- service selection
    apply AdminInv_note hinv
    · dsimp only [Started.done]
      unfold serviceCallback
      dsimp only
      repeat' split
      all_goals first
        | exact hinv.1
        | exact AdminOnly_set_of_some hinv.1 _ _ _ (by assumption)
    · simp [Started.done]
  · -- confirm
    apply AdminInv_note hinv
    · rw [confirmStart_states]; exact hinv.1
    · exact fun k hk st hst => confirmStart_resume_adminOnly w q.states chatId k hk _ st hst
  · exact AdminInv_note hinv _ (AdminOnly_del hinv.1 _) (by simp [Started.done])
  · -- start-delete
    apply AdminInv_note hinv
    · dsimp only [Started.done]
      unfold startDeleteHandler
      split
      · exact hinv.1
      · rename_i hadmin
        exact AdminOnly_set hinv.1 _ _ (by simpa using hadmin)
    · simp [Started.done]
  · -- yes
    apply AdminInv_note hinv
    · exact yesStart_adminOnly w q.states chatId _ hinv.1
    · exact fun k hk st hst => yesStart_resume_adminOnly w q.states chatId k hk _ st hst
  · -- no
    apply AdminInv_note hinv
    · dsimp only [Started.done]
      unfold noHandler
      repeat' split
      all_goals first
        | exact hinv.1
        | exact AdminOnly_del hinv.1 _
    · simp [Started.done]
  · exact listingStart_adminInv hinv w chatId clientsHandler
      (fun us => (listing_states w us chatId).2.2.1)
  · exact listingStart_adminInv hinv w chatId statsHandler
      (fun us => (listing_states w us chatId).2.2.2)

theorem runResumes_adminOnly (admin : String) :
    ∀ (ks : List (Sessions → Outcome)) (p : Pending),
      (∀ k ∈ ks, ∀ st, AdminOnly admin st → AdminOnly admin (k st).states) →
      AdminOnly admin p.states → AdminOnly admin (runResumes ks p).states := by
  intro ks
  induction ks with
  | nil => intro p _ hp; exact hp
  | cons k rest ih =>
    intro p hks hp
    unfold runResumes
    exact ih _ (fun k1 hk1 => hks k1 (List.mem_cons_of_mem _ hk1))
      (hks k (List.mem_cons_self _ _) _ hp)

/-- One update keeps the sessions with the admin. -/
theorem processUpdate_adminOnly (w : World) (userStates : Sessions) (chatId : Int)
    (text : Option String) (h : AdminOnly w.ADMIN_CHAT_ID userStates) :
    AdminOnly w.ADMIN_CHAT_ID (processUpdate w userStates chatId text).states := by
  have hinv1 : AdminInv w.ADMIN_CHAT_ID
      (({ states := userStates, trace := [] } : Pending).note
        (.done (creationInput w userStates chatId text))) :=
    AdminInv_note ⟨h, by simp⟩ _
      (creationInput_adminOnly w userStates chatId text _ h) (by simp [Started.done])
  have hinv2 := deleteIdStart_adminInv hinv1 w chatId text
  unfold processUpdate
  dsimp only
  cases text with
  | none => exact runResumes_adminOnly _ _ _ hinv2.2 hinv2.1
  | some t =>
    dsimp only
    split
    · have hinv := runCallbacks_induct w chatId t _ textCallbacks _
        (textCallbacks_adminInv w chatId t) hinv2
      exact runResumes_adminOnly _ _ _ hinv.2 hinv.1
    · exact runResumes_adminOnly _ _ _ hinv2.2 hinv2.1

/-- A sequence of updates keeps the sessions with the admin. -/
theorem runUpdates_adminOnly (admin : String) :
    ∀ (updates : List Update) (userStates : Sessions),
      (∀ u ∈ updates, u.world.ADMIN_CHAT_ID = admin) →
      AdminOnly admin userStates → AdminOnly admin (runUpdates userStates updates) := by
  intro updates
  induction updates with
  | nil => intro us _ h; exact h
  | cons u rest ih =>
    intro us hadmin h
    unfold runUpdates
    apply ih _ (fun v hv => hadmin v (List.mem_cons_of_mem _ hv))
    have hu := hadmin u (List.mem_cons_self _ _)
    subst hu
    exact processUpdate_adminOnly u.world us u.chatId u.text h

/-! ### A message of a user who is not the admin -/

/-- What a handler must do for the dispatcher to keep `OutsiderInv`. -/
theorem OutsiderInv_note {chatId : Int} {q : Pending} (hinv : OutsiderInv chatId q)
    (s : Started) (hs : s.states chatId = none) (hq : queriesOf s.trace = [])
    (hres : s.resume = none) : OutsiderInv chatId (q.note s) := by
  refine ⟨hs, ?_, ?_⟩
  · simp [Pending.note, queriesOf_append, hinv.2.1, hq]
  · simp [Pending.note, hinv.2.2, hres]

/-- A listing command from another user than the admin: the guard replies and returns. -/
theorem listingStart_outsider {chatId : Int} {q : Pending} (hinv : OutsiderInv chatId q)
    (w : World) (hna : toString chatId ≠ w.ADMIN_CHAT_ID)
    (handler : World → Sessions → Int → Outcome)
    (hdenied : handler w q.states chatId = accessDenied q.states chatId) :
    OutsiderInv chatId (q.note (listingStart handler w q.states chatId)) := by
  apply OutsiderInv_note hinv
  · simp [listingStart, hna, Started.done, hdenied, accessDenied, hinv.1]
  · simp [listingStart, hna, Started.done, hdenied, accessDenied, queriesOf]
  · simp [listingStart, hna, Started.done]

/-- Every `onText` callback, called for a user without a session who is not the admin,
leaves them without a session, makes no repository call and does not wait. -/
theorem textCallbacks_outsider (w : World) (chatId : Int) (text : String)
    (hna : toString chatId ≠ w.ADMIN_CHAT_ID) :
    ∀ cb ∈ textCallbacks, ∀ q, OutsiderInv chatId q → cb.pattern text = true →
      OutsiderInv chatId (q.note (cb.run w q.states chatId text)) := by
  intro cb hcb q hinv _
  have hs := hinv.1
  simp only [textCallbacks, List.mem_cons, List.mem_singleton, List.not_mem_nil, or_false]
    at hcb
  rcases hcb with h | h | h | h | h | h | h | h | h | h | h | h | h <;> subst h
  · apply OutsiderInv_note hinv
    · simp [Started.done, startHandler, Sessions.del]
    · simp only [Started.done, startHandler]
      split <;> rfl
    · rfl
  · exact OutsiderInv_note hinv _ (by simp [Started.done, backHandler, Sessions.del]) rfl rfl
  · exact listingStart_outsider hinv w hna listAllHandler (by simp [listAllHandler, hna])
  · exact listingStart_outsider hinv w hna todayHandler (by simp [todayHandler, hna])
  · apply OutsiderInv_note hinv
    · simp [Started.done, startCreateHandler, hna, accessDenied, hs]
    · simp [Started.done, startCreateHandler, hna, accessDenied, queriesOf]
    · rfl
  · apply OutsiderInv_note hinv
    · simp [Started.done, serviceCallback, hs]
    · simp [Started.done, serviceCallback, hs, queriesOf]
    · rfl
  · apply OutsiderInv_note hinv
    · simp [confirmStart, Started.done, confirmHandler, hs]
    · simp [confirmStart, Started.done, confirmHandler, hs, queriesOf]
    · simp [confirmStart, Started.done, hs]
  · exact OutsiderInv_note hinv _ (by simp [Started.done, cancelHandler, Sessions.del]) rfl rfl
  · apply OutsiderInv_note hinv
    · simp [Started.done, startDeleteHandler, hna, accessDenied, hs]
    · simp [Started.done, startDeleteHandler, hna, accessDenied, queriesOf]
    · rfl
  · apply OutsiderInv_note hinv
    · simp [yesStart, hs]
    · simp [yesStart, hs, queriesOf]
    · simp [yesStart, hs]
  · apply OutsiderInv_note hinv
    · simp [Started.done, noHandler, hs]
    · simp [Started.done, noHandler, hs, queriesOf]
    · rfl
  · exact listingStart_outsider hinv w hna clientsHandler (by simp [clientsHandler, hna])
  · exact listingStart_outsider hinv w hna statsHandler (by simp [statsHandler, hna])

/-- With no handler waiting the dispatcher is through. -/
theorem outsider_finish (chatId : Int) (p : Pending) (h : OutsiderInv chatId p) :
    queriesOf (runResumes p.resumes p).trace = [] ∧
    (runResumes p.resumes p).states chatId = none := by
  rw [h.2.2]
  exact ⟨h.2.1, h.1⟩

/-- One update from a user without a session who is not the admin: through all handlers
no repository call is made and the user still has no session. -/
theorem processUpdate_outsider (w : World) (userStates : Sessions) (chatId : Int)
    (text : Option String) (hna : toString chatId ≠ w.ADMIN_CHAT_ID)
    (hs : userStates chatId = none) :
    queriesOf (processUpdate w userStates chatId text).trace = [] ∧
    (processUpdate w userStates chatId text).states chatId = none := by
  have h1 : creationInput w userStates chatId text = { states := userStates, trace := [] } := by
    unfold creationInput
    simp [hs]
  have h2 : deleteIdStart w userStates chatId text = { states := userStates, trace := [] } := by
    unfold deleteIdStart
    simp [hs]
  have hinv2 : OutsiderInv chatId
      ((({ states := userStates, trace := [] } : Pending).note
          (.done (creationInput w userStates chatId text))).note
        (deleteIdStart w (creationInput w userStates chatId text).states chatId text)) := by
    rw [h1]
    dsimp only [Pending.note, Started.done]
    rw [h2]
    exact ⟨hs, rfl, rfl⟩
  unfold processUpdate
  dsimp only
  cases text with
  | none => exact outsider_finish chatId _ hinv2
  | some t =>
    dsimp only
    split
    · have hinv := runCallbacks_induct w chatId t _ textCallbacks _
        (textCallbacks_outsider w chatId t hna) hinv2
      exact outsider_finish chatId _ hinv
    · exact outsider_finish chatId _ hinv2

/-! ### Confirm without a session at step `confirm` -/

/-- Without a session at step `confirm` the confirm handler only replies that the
session has expired. -/
theorem confirmHandler_expired (w : World) (userStates : Sessions) (chatId : Int)
    (h : ∀ s, userStates chatId = some s → s.step ≠ .confirm) :
    confirmHandler w userStates chatId =
      { states := userStates
        trace := [.sendMessage (toString chatId) "Сессия истекла" false .main] } := by
  unfold confirmHandler
  dsimp only
  cases hs : userStates chatId with
  | none => rfl
  | some s => simp [h s hs]

/-- After the confirm handler the user has no session at step `confirm`. -/
theorem confirmHandler_leaves (w : World) (userStates : Sessions) (chatId : Int) :
    ∀ s, (confirmHandler w userStates chatId).states chatId = some s → s.step ≠ .confirm := by
  intro s hs
  by_cases h : ∀ s0, userStates chatId = some s0 → s0.step ≠ .confirm
  · rw [confirmHandler_expired w userStates chatId h] at hs
    exact h s hs
  · exfalso
    simp only [ne_eq, not_forall, not_not] at h
    obtain ⟨s0, hs0, hstep⟩ := h
    have hnone : (confirmHandler w userStates chatId).states chatId = none := by
      unfold confirmHandler
      simp only [hs0, hstep, ne_eq, not_true_eq_false, ↓reduceIte]
      repeat' split
      all_goals simp [confirmCatch, Sessions.del]
    rw [hnone] at hs
    cases hs

/-- One run of the confirm handler inserts at most one client and one booking. -/
theorem confirmHandler_inserts (w : World) (userStates : Sessions) (chatId : Int) :
    ((queriesOf (confirmHandler w userStates chatId).trace).filter
        Query.isClientInsert).length ≤ 1 ∧
    ((queriesOf (confirmHandler w userStates chatId).trace).filter
        Query.isBookingInsert).length ≤ 1 := by
  unfold confirmHandler
  dsimp only
  repeat' split
  all_goals
    simp [confirmCatch, queriesOf, queriesOf_append, queriesOf_notification, clientInsert,
      bookingInsert, Query.isClientInsert, Query.isBookingInsert]

/-- The text of the confirm button through the dispatcher, from a user without a
session: the one thing done is the reply of the confirm handler. -/
theorem processUpdate_confirm_no_session (w : World) (userStates : Sessions) (chatId : Int)
    (hs : userStates chatId = none) :
    processUpdate w userStates chatId (some "✅ Подтвердить") =
      { states := userStates
        trace := [.sendMessage (toString chatId) "Сессия истекла" false .main] } := by
  have hfilter : textCallbacks.filter (fun c => c.pattern "✅ Подтвердить") =
      [{ pattern := literalPattern "✅ Подтвердить", plain := false
         run := fun w us c _ => confirmStart w us c }] := rfl
  have hpat : literalPattern "✅ Подтвердить" "✅ Подтвердить" = true := by decide
  have hne : ("✅ Подтвердить" : String) ≠ "" := by decide
  unfold processUpdate
  dsimp only
  rw [if_pos hne, runCallbacks_filter, hfilter]
  simp [runCallbacks, Pending.note, Started.done, creationInput, deleteIdStart, hs, hpat,
    confirmStart, confirmHandler, runResumes]

/-- The text of the confirm button through the dispatcher, from a user whose session is
at step `confirm`: both free-text handlers pass, the confirm handler makes its calls,
and the session is removed. -/
theorem processUpdate_confirm_at_confirm (w : World) (userStates : Sessions) (chatId : Int)
    (session : Session) (hs : userStates chatId = some session)
    (hstep : session.step = .confirm) :
    processUpdate w userStates chatId (some "✅ Подтвердить") =
      { states := userStates.del chatId
        trace := (confirmHandler w userStates chatId).trace } := by
  have hfilter : textCallbacks.filter (fun c => c.pattern "✅ Подтвердить") =
      [{ pattern := literalPattern "✅ Подтвердить", plain := false
         run := fun w us c _ => confirmStart w us c }] := rfl
  have hpat : literalPattern "✅ Подтвердить" "✅ Подтвердить" = true := by decide
  have hne : ("✅ Подтвердить" : String) ≠ "" := by decide
  have hl1 : isLiteral creationLiterals (some "✅ Подтвердить") = false := by decide
  have hl2 : isLiteral deleteLiterals (some "✅ Подтвердить") = true := by decide
  unfold processUpdate
  dsimp only
  rw [if_pos hne, runCallbacks_filter, hfilter]
  simp [runCallbacks, Pending.note, Started.done, creationInput, deleteIdStart, hs, hstep, hpat,
    hl1, hl2, confirmStart, runResumes]

/-! ### A session at step `date` carries a draft -/

theorem DraftAtDate_del {userStates : Sessions} (h : DraftAtDate userStates) (chatId : Int) :
    DraftAtDate (userStates.del chatId) := by
  intro c s hs
  unfold Sessions.del at hs
  split at hs
  · cases hs
  · exact h c s hs

theorem DraftAtDate_set {userStates : Sessions} (h : DraftAtDate userStates) (chatId : Int)
    (s : Session) (hs : s.step = .date → s.data ≠ none) :
    DraftAtDate (userStates.set chatId s) := by
  intro c s1 hs1
  unfold Sessions.set at hs1
  split at hs1
  · simp only [Option.some.injEq] at hs1
    subst hs1
    exact hs
  · exact h c s1 hs1

/-- The creation-flow handler stores a draft with every step it sets. -/
theorem creationInput_draftAtDate (w : World) (userStates : Sessions) (chatId : Int)
    (text : Option String) (h : DraftAtDate userStates) :
    DraftAtDate (creationInput w userStates chatId text).states := by
  unfold creationInput
  dsimp only
  repeat' split
  all_goals first
    | exact h
    | exact DraftAtDate_set h _ _ (by simp)

theorem deleteIdResume_draftAtDate (w : World) (chatId : Int) (bookingId : JsNumber)
    (st : Sessions)
    (h : DraftAtDate st) : DraftAtDate (deleteIdResume w chatId bookingId st).states := by
  unfold deleteIdResume
  dsimp only
  repeat' split
  all_goals first
    | exact DraftAtDate_del h _
    | exact DraftAtDate_set h _ _ (by simp)

theorem yesResume_draftAtDate (w : World) (chatId : Int) (booking : Row) (st : Sessions)
    (h : DraftAtDate st) : DraftAtDate (yesResume w chatId booking st).states := by
  unfold yesResume
  dsimp only
  repeat' split
  all_goals exact DraftAtDate_del h _

theorem confirmStart_resume_draftAtDate (w : World) (userStates : Sessions) (chatId : Int)
    (k : Sessions → Outcome) (hk : (confirmStart w userStates chatId).resume = some k)
    (st : Sessions) (hst : DraftAtDate st) : DraftAtDate (k st).states := by
  unfold confirmStart at hk
  split at hk
  · simp [Started.done] at hk
  · split at hk
    · simp [Started.done] at hk
    · simp only [Option.some.injEq] at hk
      subst hk
      exact DraftAtDate_del hst _

theorem yesStart_resume_draftAtDate (w : World) (userStates : Sessions) (chatId : Int)
    (k : Sessions → Outcome) (hk : (yesStart w userStates chatId).resume = some k)
    (st : Sessions) (hst : DraftAtDate st) : DraftAtDate (k st).states := by
  unfold yesStart at hk
  split at hk
  · simp at hk
  · split at hk
    · simp at hk
    · split at hk
      · simp [Started.done] at hk
      · simp only [Option.some.injEq] at hk
        subst hk
        exact yesResume_draftAtDate w chatId _ st hst

theorem yesHandler_draftAtDate (w : World) (userStates : Sessions) (chatId : Int)
    (h : DraftAtDate userStates) : DraftAtDate (yesHandler w userStates chatId).states := by
  unfold yesHandler
  dsimp only
  repeat' split
  all_goals first
    | exact h
    | exact DraftAtDate_del h _

theorem yesStart_draftAtDate (w : World) (userStates : Sessions) (chatId : Int)
    (h : DraftAtDate userStates) : DraftAtDate (yesStart w userStates chatId).states := by
  unfold yesStart
  repeat' split
  all_goals first
    | exact h
    | exact yesHandler_draftAtDate w userStates chatId h

/-- What a handler must do for the dispatcher to keep `DraftInv`. -/
theorem DraftInv_note {q : Pending} (hinv : DraftInv q) (s : Started)
    (hs : DraftAtDate s.states)
    (hres : ∀ k, s.resume = some k → ∀ st, DraftAtDate st → DraftAtDate (k st).states) :
    DraftInv (q.note s) := by
  refine ⟨hs, ?_⟩
  intro k hk
  simp only [Pending.note, List.mem_append, Option.mem_toList, Option.mem_def] at hk
  rcases hk with hk | hk
  · exact hinv.2 k hk
  · exact hres k hk

theorem deleteIdStart_draftInv {q : Pending} (hinv : DraftInv q) (w : World) (chatId : Int)
    (text : Option String) : DraftInv (q.note (deleteIdStart w q.states chatId text)) := by
  apply DraftInv_note hinv
  · unfold deleteIdStart
    repeat' split
    all_goals first
      | exact hinv.1
      | exact DraftAtDate_del hinv.1 _
  · intro k hk st hst
    unfold deleteIdStart at hk
    repeat' split at hk
    all_goals first
      | (simp only [Option.some.injEq] at hk
         subst hk
         exact deleteIdResume_draftAtDate w chatId _ st hst)
      | cases hk

theorem listingStart_draftInv {q : Pending} (hinv : DraftInv q) (w : World) (chatId : Int)
    (handler : World → Sessions → Int → Outcome)
    (hstates : ∀ us, (handler w us chatId).states = us) :
    DraftInv (q.note (listingStart handler w q.states chatId)) := by
  apply DraftInv_note hinv
  · unfold listingStart
    split
    · simp only [Started.done, hstates]
      exact hinv.1
    · exact hinv.1
  · intro k hk st hst
    unfold listingStart at hk
    split at hk
    · simp [Started.done] at hk
    · simp only [Option.some.injEq] at hk
      subst hk
      exact hst

theorem serviceCallback_draftAtDate (userStates : Sessions) (chatId : Int) (service : String)
    (h : DraftAtDate userStates) :
    DraftAtDate (serviceCallback userStates chatId service).states := by
  unfold serviceCallback
  dsimp only
  repeat' split
  all_goals first
    | exact h
    | exact DraftAtDate_set h _ _ (by simp)

theorem noHandler_draftAtDate (userStates : Sessions) (chatId : Int)
    (h : DraftAtDate userStates) : DraftAtDate (noHandler userStates chatId).states := by
  unfold noHandler
  repeat' split
  all_goals first
    | exact h
    | exact DraftAtDate_del h _

/-- Every `onText` callback keeps `DraftInv`: step `date` is set only by the service
selection, on a session with a draft. -/
theorem textCallbacks_draftInv (w : World) (chatId : Int) (text : String) :
    ∀ cb ∈ textCallbacks, ∀ q, DraftInv q → cb.pattern text = true →
      DraftInv (q.note (cb.run w q.states chatId text)) := by
  intro cb hcb q hinv _
  simp only [textCallbacks, List.mem_cons, List.mem_singleton, List.not_mem_nil, or_false]
    at hcb
  rcases hcb with h | h | h | h | h | h | h | h | h | h | h | h | h <;> subst h
  · exact DraftInv_note hinv _ (DraftAtDate_del hinv.1 _) (by simp [Started.done])
  · exact DraftInv_note hinv _ (DraftAtDate_del hinv.1 _) (by simp [Started.done])
  · exact listingStart_draftInv hinv w chatId listAllHandler
      (fun us => (listing_states w us chatId).1)
  · exact listingStart_draftInv hinv w chatId todayHandler
      (fun us => (listing_states w us chatId).2.1)
  · -- start-create
    apply DraftInv_note hinv
    · dsimp only [Started.done]
      unfold startCreateHandler
      split
      · exact hinv.1
      · exact DraftAtDate_set hinv.1 _ _ (by simp)
    · simp [Started.done]
  · exact DraftInv_note hinv _ (serviceCallback_draftAtDate q.states chatId text hinv.1)
      (by simp [Started.done])
  · -- confirm
    apply DraftInv_note hinv
    · rw [confirmStart_states]; exact hinv.1
    · exact fun k hk st hst => confirmStart_resume_draftAtDate w q.states chatId k hk st hst
  · exact DraftInv_note hinv _ (DraftAtDate_del hinv.1 _) (by simp [Started.done])
  · -- start-delete
    apply DraftInv_note hinv
    · dsimp only [Started.done]
      unfold startDeleteHandler
      split
      · exact hinv.1
      · exact DraftAtDate_set hinv.1 _ _ (by simp)
    · simp [Started.done]
  · -- yes
    apply DraftInv_note hinv
    · exact yesStart_draftAtDate w q.states chatId hinv.1
    · exact fun k hk st hst => yesStart_resume_draftAtDate w q.states chatId k hk st hst
  · exact DraftInv_note hinv _ (noHandler_draftAtDate q.states chatId hinv.1)
      (by simp [Started.done])
  · exact listingStart_draftInv hinv w chatId clientsHandler
      (fun us => (listing_states w us chatId).2.2.1)
  · exact listingStart_draftInv hinv w chatId statsHandler
      (fun us => (listing_states w us chatId).2.2.2)

theorem runResumes_draftAtDate :
    ∀ (ks : List (Sessions → Outcome)) (p : Pending),
      (∀ k ∈ ks, ∀ st, DraftAtDate st → DraftAtDate (k st).states) →
      DraftAtDate p.states → DraftAtDate (runResumes ks p).states := by
  intro ks
  induction ks with
  | nil => intro p _ hp; exact hp
  | cons k rest ih =>
    intro p hks hp
    unfold runResumes
    exact ih _ (fun k1 hk1 => hks k1 (List.mem_cons_of_mem _ hk1))
      (hks k (List.mem_cons_self _ _) _ hp)

/-- One update keeps a draft in every session at step `date`. -/
theorem processUpdate_draftAtDate (w : World) (userStates : Sessions) (chatId : Int)
    (text : Option String) (h : DraftAtDate userStates) :
    DraftAtDate (processUpdate w userStates chatId text).states := by
  have hinv1 : DraftInv
      (({ states := userStates, trace := [] } : Pending).note
        (.done (creationInput w userStates chatId text))) :=
    DraftInv_note ⟨h, by simp⟩ _
      (creationInput_draftAtDate w userStates chatId text h) (by simp [Started.done])
  have hinv2 := deleteIdStart_draftInv hinv1 w chatId text
  unfold processUpdate
  dsimp only
  cases text with
  | none => exact runResumes_draftAtDate _ _ hinv2.2 hinv2.1
  | some t =>
    dsimp only
    split
    · have hinv := runCallbacks_induct w chatId t _ textCallbacks _
        (textCallbacks_draftInv w chatId t) hinv2
      exact runResumes_draftAtDate _ _ hinv.2 hinv.1
    · exact runResumes_draftAtDate _ _ hinv2.2 hinv2.1

/-- After any sequence of updates from the empty map, every session at step `date`
carries a draft. -/
theorem runUpdates_draftAtDate :
    ∀ (updates : List Update) (userStates : Sessions),
      DraftAtDate userStates → DraftAtDate (runUpdates userStates updates) := by
  intro updates
  induction updates with
  | nil => intro us h; exact h
  | cons u rest ih =>
    intro us h
    unfold runUpdates
    exact ih _ (processUpdate_draftAtDate u.world us u.chatId u.text h)

/-- The text of the confirm button through the dispatcher, from a user whose session is
at a step at which neither free-text handler takes the text as input: the one other
thing that happens is the re-prompt of the date step. -/
theorem processUpdate_confirm_elsewhere (w : World) (userStates : Sessions) (chatId : Int)
    (s : Session) (hs : userStates chatId = some s)
    (hstep : s.step = .service ∨ s.step = .date ∨ s.step = .delete_ask_id ∨
      s.step = .confirm_delete) :
    processUpdate w userStates chatId (some "✅ Подтвердить") =
      { states := userStates
        trace :=
          (if s.step = .date then [.sendMessage (toString chatId) dateFormatText true .none]
           else []) ++
          [.sendMessage (toString chatId) "Сессия истекла" false .main] } := by
  have hfilter : textCallbacks.filter (fun c => c.pattern "✅ Подтвердить") =
      [{ pattern := literalPattern "✅ Подтвердить", plain := false
         run := fun w us c _ => confirmStart w us c }] := rfl
  have hpat : literalPattern "✅ Подтвердить" "✅ Подтвердить" = true := by decide
  have hne : ("✅ Подтвердить" : String) ≠ "" := by decide
  have hl1 : isLiteral creationLiterals (some "✅ Подтвердить") = false := by decide
  have hl2 : isLiteral deleteLiterals (some "✅ Подтвердить") = true := by decide
  have hback : includes "↩️".data "✅ Подтвердить".data = false := by decide
  have hdate : dateMatch "✅ Подтвердить".data = none := by decide
  unfold processUpdate
  dsimp only
  rw [if_pos hne, runCallbacks_filter, hfilter]
  rcases hstep with h | h | h | h <;>
    simp [runCallbacks, Pending.note, Started.done, creationInput, deleteIdStart, hs, h, hpat,
      hl1, hl2, hback, hdate, confirmStart, confirmHandler, runResumes]

/-! ## Claims -/

/-- C1. For a session at step `confirm` whose draft is complete, when the hash and both
inserts succeed, the repository calls of the confirm handler are, in order: one client
insert (first_name the draft's client_name, last_name empty, phone_number the draft's
client_phone), one booking insert whose client_id is the id the client insert returned
and whose service_name, booking_date and address are the draft's, and the lookup of the
notifier; the success message is sent to the user and contains the id of the created
booking. -/
theorem C1_confirm_creates_linked_records (w : World) (userStates : Sessions) (chatId : Int)
    (session : Session) (data : Draft) (hashed : String) (newClient booking : Row)
    (more1 more2 : List Row)
    (hsession : userStates chatId = some session) (hstep : session.step = .confirm)
    (hdata : session.data = some data) (hcomplete : data.complete = true)
    (hhash : w.bcryptHash (tempPassword w) = .ok hashed)
    (hclient : w.query (clientInsert w data hashed) = .ok (newClient :: more1))
    (hbooking : w.query (bookingInsert data newClient.id) = .ok (booking :: more2)) :
    queriesOf (confirmHandler w userStates chatId).trace =
      [.insertClient data.client_name "" data.client_phone (synthEmail w) hashed,
       .insertBooking newClient.id data.service_name data.booking_date data.client_address,
       .selectClientById booking.client_id] ∧
    Effect.sendMessage (toString chatId) (confirmSuccessText w data booking) true .main ∈
      (confirmHandler w userStates chatId).trace ∧
    includes (toString booking.id).data (confirmSuccessText w data booking).data = true := by
  have haddr : orNull data.client_address = data.client_address := by
    simp only [Draft.complete, Bool.and_eq_true] at hcomplete
    simp [orNull, hcomplete.2]
  rw [confirmHandler_success w userStates chatId session data hashed newClient booking more1
    more2 hsession hstep hdata hhash hclient hbooking]
  refine ⟨?_, ?_, ?_⟩
  · simp [queriesOf_append, queriesOf, queriesOf_notification, clientInsert, bookingInsert, haddr]
  · simp
  · exact includes_suffix _ _

/-- C1 at the scenario of the specification: vacuum cleaner, 5.3.2025, Ivan,
+375291112233, Minsk, in `exampleWorld`; the client gets id 7 and the booking id 12. -/
theorem C1_confirm_creates_linked_records_witness :
    scenarioDraft.complete = true ∧
    (queriesOf (confirmHandler exampleWorld (oneSession 1001 scenarioSession) 1001).trace =
      [.insertClient (some "Ivan") "" (some "+375291112233") (synthEmail exampleWorld)
          ("$2b$10$" ++ tempPassword exampleWorld),
       .insertBooking 7 (some "Аренда пылесоса Karcher Puzzi 8/1 C")
          (some "2025-03-04T21:00:00.000Z") (some "Minsk"),
       .selectClientById (some 7)] ∧
     Effect.sendMessage (toString (1001 : Int))
        (confirmSuccessText exampleWorld scenarioDraft
          { id := 12, client_id := some 7,
            service_name := some "Аренда пылесоса Karcher Puzzi 8/1 C",
            booking_date := some "2025-03-04T21:00:00.000Z", address := some "Minsk" })
        true .main ∈
      (confirmHandler exampleWorld (oneSession 1001 scenarioSession) 1001).trace ∧
     includes (toString (12 : Int)).data
      (confirmSuccessText exampleWorld scenarioDraft
        { id := 12, client_id := some 7,
          service_name := some "Аренда пылесоса Karcher Puzzi 8/1 C",
          booking_date := some "2025-03-04T21:00:00.000Z", address := some "Minsk" }).data
      = true) :=
  ⟨by decide,
   C1_confirm_creates_linked_records exampleWorld (oneSession 1001 scenarioSession) 1001
    scenarioSession scenarioDraft ("$2b$10$" ++ tempPassword exampleWorld)
    { id := 7, first_name := some "Ivan", last_name := some "",
      phone_number := some "+375291112233" }
    { id := 12, client_id := some 7,
      service_name := some "Аренда пылесоса Karcher Puzzi 8/1 C",
      booking_date := some "2025-03-04T21:00:00.000Z", address := some "Minsk" }
    [] [] (by decide) rfl rfl (by decide) rfl rfl rfl⟩

/-- C2. For every user whose session is at step `confirm`, the confirm handler runs to
its end without raising and leaves the user without a session, whatever the hash and
the two inserts answer. -/
theorem C2_confirm_always_removes_session (w : World) (userStates : Sessions) (chatId : Int)
    (session : Session)
    (hsession : userStates chatId = some session) (hstep : session.step = .confirm) :
    (confirmHandler w userStates chatId).states chatId = none ∧
    (confirmHandler w userStates chatId).raised = none := by
  unfold confirmHandler
  simp only [hsession, hstep]
  constructor <;>
  · simp only [ne_eq, not_true_eq_false, ↓reduceIte]
    repeat' split
    all_goals simp [confirmCatch, Sessions.del]

/-- C2 at the scenario session in `collisionWorld`, `bookingFailsWorld` and
`exampleWorld`: the client insert fails, the booking insert fails, both succeed. -/
theorem C2_confirm_always_removes_session_witness :
    ((confirmHandler collisionWorld (oneSession 1001 scenarioSession) 1001).states 1001 = none ∧
     (confirmHandler collisionWorld (oneSession 1001 scenarioSession) 1001).raised = none) ∧
    ((confirmHandler bookingFailsWorld (oneSession 1001 scenarioSession) 1001).states 1001 =
       none ∧
     (confirmHandler bookingFailsWorld (oneSession 1001 scenarioSession) 1001).raised = none) ∧
    ((confirmHandler exampleWorld (oneSession 1001 scenarioSession) 1001).states 1001 = none ∧
     (confirmHandler exampleWorld (oneSession 1001 scenarioSession) 1001).raised = none) :=
  ⟨C2_confirm_always_removes_session collisionWorld (oneSession 1001 scenarioSession) 1001
     scenarioSession (by decide) rfl,
   C2_confirm_always_removes_session bookingFailsWorld (oneSession 1001 scenarioSession) 1001
     scenarioSession (by decide) rfl,
   C2_confirm_always_removes_session exampleWorld (oneSession 1001 scenarioSession) 1001
     scenarioSession (by decide) rfl⟩

/-- C3, the code at the failing inputs. None of 31.4.2025, 30.2.2025, 1.13.2025 and
0.0.2025 is a calendar date. In `exampleWorld`, at step `date`, each of these texts
matches the pattern and the date step accepts it: the step becomes `client_name` and a
booking date is stored (local midnight of 1 May 2025, 2 March 2025, 1 January 2026 and
30 November 2024). -/
theorem C3_date_step_accepts_rolled_over_dates :
    (isCalendarDate 31 4 2025 = false ∧ isCalendarDate 30 2 2025 = false ∧
     isCalendarDate 1 13 2025 = false ∧ isCalendarDate 0 0 2025 = false) ∧
    (creationInput exampleWorld (oneSession 1001 { step := .date, data := some {} }) 1001
        (some "31.4.2025")).states 1001 =
      some { step := .client_name
             data := some { booking_date := some "2025-04-30T21:00:00.000Z" } } ∧
    (creationInput exampleWorld (oneSession 1001 { step := .date, data := some {} }) 1001
        (some "30.2.2025")).states 1001 =
      some { step := .client_name
             data := some { booking_date := some "2025-03-01T21:00:00.000Z" } } ∧
    (creationInput exampleWorld (oneSession 1001 { step := .date, data := some {} }) 1001
        (some "1.13.2025")).states 1001 =
      some { step := .client_name
             data := some { booking_date := some "2025-12-31T21:00:00.000Z" } } ∧
    (creationInput exampleWorld (oneSession 1001 { step := .date, data := some {} }) 1001
        (some "0.0.2025")).states 1001 =
      some { step := .client_name
             data := some { booking_date := some "2024-11-29T21:00:00.000Z" } } := by
  refine ⟨by decide, ?_, ?_, ?_, ?_⟩ <;> decide

/-- C4, the code at the failing inputs. None of "3.7", "12abc" and "0x1A" is a base-10
integer; `parseInt` reads 3, 12 and 26 from them, and at step `delete_ask_id` the
handler looks the booking up for each of them (here the repository has no such
booking, so the reply is not-found). The empty text is rejected. -/
theorem C4_delete_id_accepts_partial_numbers :
    (isBase10Integer "3.7".data = false ∧ isBase10Integer "12abc".data = false ∧
     isBase10Integer "0x1A".data = false) ∧
    (parseInt "3.7".data = some 3 ∧ parseInt "12abc".data = some 12 ∧
     parseInt "0x1A".data = some 26 ∧ parseInt "".data = none) ∧
    queriesOf (deleteIdInput exampleWorld (oneSession 1001 { step := .delete_ask_id }) 1001
        (some "3.7")).trace = [.selectBookingById 3] ∧
    queriesOf (deleteIdInput exampleWorld (oneSession 1001 { step := .delete_ask_id }) 1001
        (some "12abc")).trace = [.selectBookingById 12] ∧
    queriesOf (deleteIdInput exampleWorld (oneSession 1001 { step := .delete_ask_id }) 1001
        (some "0x1A")).trace = [.selectBookingById 26] := by
  refine ⟨by decide, by decide, ?_, ?_, ?_⟩ <;> decide

/-- C5. For every user whose chat id is not the admin chat id, each of the six
privileged commands replies with the access-denied message and nothing else, makes no
repository call, raises nothing and returns the session map it was given. -/
theorem C5_privileged_commands_denied (w : World) (userStates : Sessions) (chatId : Int)
    (hother : toString chatId ≠ w.ADMIN_CHAT_ID) :
    ∀ handler ∈ privilegedHandlers,
      (handler w userStates chatId).trace =
        [.sendMessage (toString chatId) "⛔ Нет доступа" false .back] ∧
      queriesOf (handler w userStates chatId).trace = [] ∧
      (handler w userStates chatId).states = userStates ∧
      (handler w userStates chatId).raised = none := by
  intro handler hmem
  simp only [privilegedHandlers, List.mem_cons, List.mem_singleton, List.not_mem_nil,
    or_false] at hmem
  rcases hmem with h | h | h | h | h | h <;> subst h
  · simp [listAllHandler, hother, accessDenied, queriesOf]
  · simp [todayHandler, hother, accessDenied, queriesOf]
  · simp [startCreateHandler, hother, accessDenied, queriesOf]
  · simp [startDeleteHandler, hother, accessDenied, queriesOf]
  · simp [clientsHandler, hother, accessDenied, queriesOf]
  · simp [statsHandler, hother, accessDenied, queriesOf]

/-- C5 for chat 2002 in `exampleWorld`, whose admin is chat 1001, with the admin in the
middle of a creation flow. -/
theorem C5_privileged_commands_denied_witness :
    toString (2002 : Int) ≠ exampleWorld.ADMIN_CHAT_ID ∧
    ∀ handler ∈ privilegedHandlers,
      (handler exampleWorld (oneSession 1001 scenarioSession) 2002).trace =
        [.sendMessage (toString (2002 : Int)) "⛔ Нет доступа" false .back] ∧
      queriesOf (handler exampleWorld (oneSession 1001 scenarioSession) 2002).trace = [] ∧
      (handler exampleWorld (oneSession 1001 scenarioSession) 2002).states =
        oneSession 1001 scenarioSession ∧
      (handler exampleWorld (oneSession 1001 scenarioSession) 2002).raised = none :=
  ⟨by decide,
   C5_privileged_commands_denied exampleWorld (oneSession 1001 scenarioSession) 2002
    (by decide)⟩

/-- C6. For every confirmation in which the client insert fails with an error `e`, the
only repository call of the confirm handler is that one client insert (no booking insert
and no second client insert), the user is sent exactly one message, the failure text,
which contains the message of `e`, and the user's session is removed. -/
theorem C6_client_insert_failure (w : World) (userStates : Sessions) (chatId : Int)
    (session : Session) (data : Draft) (hashed : String) (e : JsError)
    (hsession : userStates chatId = some session) (hstep : session.step = .confirm)
    (hdata : session.data = some data)
    (hhash : w.bcryptHash (tempPassword w) = .ok hashed)
    (hclient : w.query (clientInsert w data hashed) = .error e) :
    queriesOf (confirmHandler w userStates chatId).trace = [clientInsert w data hashed] ∧
    textsTo (toString chatId) (confirmHandler w userStates chatId).trace =
      [confirmFailureText e] ∧
    includes e.message.data (confirmFailureText e).data = true ∧
    (confirmHandler w userStates chatId).states chatId = none := by
  rw [confirmHandler_clientFails w userStates chatId session data hashed e hsession hstep hdata
    hhash hclient]
  refine ⟨?_, ?_, ?_, ?_⟩
  · simp [confirmCatch, queriesOf]
  · simp [confirmCatch, textsTo]
  · exact includes_suffix _ _
  · exact confirmCatch_states _ _ _ _

/-- C6 in `collisionWorld`, where the client insert is rejected as a duplicate email. -/
theorem C6_client_insert_failure_witness :
    queriesOf (confirmHandler collisionWorld (oneSession 1001 scenarioSession) 1001).trace =
      [clientInsert collisionWorld scenarioDraft ("$2b$10$" ++ tempPassword collisionWorld)] ∧
    textsTo (toString (1001 : Int))
        (confirmHandler collisionWorld (oneSession 1001 scenarioSession) 1001).trace =
      [confirmFailureText duplicateEmail] ∧
    includes duplicateEmail.message.data (confirmFailureText duplicateEmail).data = true ∧
    (confirmHandler collisionWorld (oneSession 1001 scenarioSession) 1001).states 1001 = none :=
  C6_client_insert_failure collisionWorld (oneSession 1001 scenarioSession) 1001
    scenarioSession scenarioDraft ("$2b$10$" ++ tempPassword collisionWorld) duplicateEmail
    (by decide) rfl rfl rfl rfl

/-- C7, the code at the failing input. In `collisionWorld` the client insert of the
confirm handler fails with SQLSTATE 23505 on the constraint `clients_email_key`; the
handler makes exactly one client insert, with the first synthesized email, and reports
the failure. On the same name and phone the route `POST /find-or-create-client` makes a
second client insert with a new email and answers 200. -/
theorem C7_no_retry_on_duplicate_email :
    collisionWorld.query
        (clientInsert collisionWorld scenarioDraft ("$2b$10$" ++ tempPassword collisionWorld)) =
      .error { message := "duplicate key value violates unique constraint \"clients_email_key\""
               code := some "23505", constraint := some "clients_email_key" } ∧
    (queriesOf (confirmHandler collisionWorld (oneSession 1001 scenarioSession) 1001).trace).filter
        Query.isClientInsert =
      [.insertClient (some "Ivan") "" (some "+375291112233") "client_6000004fz@karcher.by"
        "$2b$10$temp9v8m2d1b"] ∧
    textsTo "1001" (confirmHandler collisionWorld (oneSession 1001 scenarioSession) 1001).trace =
      ["❌ Ошибка при создании бронирования:\n" ++
       "duplicate key value violates unique constraint \"clients_email_key\""] ∧
    (queriesOf (findOrCreateClient collisionWorld (some "Ivan") none
        (some "+375291112233")).trace).filter Query.isClientInsert =
      [.insertClient (some "Ivan") "" (some "+375291112233") "client_6000004fz@karcher.by"
        "$2b$10$temp9v8m2d1b",
       .insertClient (some "Ivan") "" (some "+375291112233")
        "client_1740819600000ix49v8m2d1b@karcher.by" "$2b$10$temp9v8m2d1b"] ∧
    (findOrCreateClient collisionWorld (some "Ivan") none (some "+375291112233")).status =
      some 200 := by
  refine ⟨rfl, ?_, ?_, ?_, ?_⟩ <;> decide

/-- C8. For every confirmation in which the client insert succeeds and the booking
insert then fails with an error `e`, the repository calls of the confirm handler are
the client insert and the booking insert and nothing else (no delete, no rollback of
the client), the user is sent exactly one message, the failure text with the message of
`e`, and the user's session is removed. -/
theorem C8_booking_failure_leaves_client (w : World) (userStates : Sessions) (chatId : Int)
    (session : Session) (data : Draft) (hashed : String) (newClient : Row) (more1 : List Row)
    (e : JsError)
    (hsession : userStates chatId = some session) (hstep : session.step = .confirm)
    (hdata : session.data = some data)
    (hhash : w.bcryptHash (tempPassword w) = .ok hashed)
    (hclient : w.query (clientInsert w data hashed) = .ok (newClient :: more1))
    (hbooking : w.query (bookingInsert data newClient.id) = .error e) :
    queriesOf (confirmHandler w userStates chatId).trace =
      [clientInsert w data hashed, bookingInsert data newClient.id] ∧
    (queriesOf (confirmHandler w userStates chatId).trace).filter Query.isDelete = [] ∧
    textsTo (toString chatId) (confirmHandler w userStates chatId).trace =
      [confirmFailureText e] ∧
    (confirmHandler w userStates chatId).states chatId = none := by
  rw [confirmHandler_bookingFails w userStates chatId session data hashed newClient more1 e
    hsession hstep hdata hhash hclient hbooking]
  refine ⟨?_, ?_, ?_, ?_⟩
  · simp [confirmCatch, queriesOf]
  · simp [confirmCatch, queriesOf, clientInsert, bookingInsert, Query.isDelete]
  · simp [confirmCatch, textsTo]
  · exact confirmCatch_states _ _ _ _

/-- C8 in `bookingFailsWorld`: client 7 is inserted, the booking insert is rejected. -/
theorem C8_booking_failure_leaves_client_witness :
    bookingFailsWorld.query
        (clientInsert bookingFailsWorld scenarioDraft
          ("$2b$10$" ++ tempPassword bookingFailsWorld)) =
      .ok [{ id := 7, first_name := some "Ivan", last_name := some "",
             phone_number := some "+375291112233" }] ∧
    (queriesOf (confirmHandler bookingFailsWorld (oneSession 1001 scenarioSession) 1001).trace =
      [clientInsert bookingFailsWorld scenarioDraft
         ("$2b$10$" ++ tempPassword bookingFailsWorld),
       bookingInsert scenarioDraft 7] ∧
     (queriesOf (confirmHandler bookingFailsWorld (oneSession 1001 scenarioSession)
        1001).trace).filter Query.isDelete = [] ∧
     textsTo (toString (1001 : Int))
        (confirmHandler bookingFailsWorld (oneSession 1001 scenarioSession) 1001).trace =
      [confirmFailureText { message := "connection terminated unexpectedly" }] ∧
     (confirmHandler bookingFailsWorld (oneSession 1001 scenarioSession) 1001).states 1001 =
      none) :=
  ⟨rfl,
   C8_booking_failure_leaves_client bookingFailsWorld (oneSession 1001 scenarioSession) 1001
    scenarioSession scenarioDraft ("$2b$10$" ++ tempPassword bookingFailsWorld)
    { id := 7, first_name := some "Ivan", last_name := some "",
      phone_number := some "+375291112233" } []
    { message := "connection terminated unexpectedly" }
    (by decide) rfl rfl rfl rfl rfl⟩

/-- C9. For every confirmation in which both inserts succeed, whatever the notifier's
client lookup and message send answer (in particular when either raises): the handler
raises nothing, the success message is sent to the user, no failure message is sent to
anyone, the repository calls are the two inserts and the notifier's lookup (nothing is
deleted), and the user's session is removed. -/
theorem C9_notifier_failure_swallowed (w : World) (userStates : Sessions) (chatId : Int)
    (session : Session) (data : Draft) (hashed : String) (newClient booking : Row)
    (more1 more2 : List Row)
    (hsession : userStates chatId = some session) (hstep : session.step = .confirm)
    (hdata : session.data = some data)
    (hhash : w.bcryptHash (tempPassword w) = .ok hashed)
    (hclient : w.query (clientInsert w data hashed) = .ok (newClient :: more1))
    (hbooking : w.query (bookingInsert data newClient.id) = .ok (booking :: more2)) :
    (confirmHandler w userStates chatId).raised = none ∧
    Effect.sendMessage (toString chatId) (confirmSuccessText w data booking) true .main ∈
      (confirmHandler w userStates chatId).trace ∧
    (∀ chat e md kb, Effect.sendMessage chat (confirmFailureText e) md kb ∉
      (confirmHandler w userStates chatId).trace) ∧
    queriesOf (confirmHandler w userStates chatId).trace =
      [clientInsert w data hashed, bookingInsert data newClient.id,
       .selectClientById booking.client_id] ∧
    (confirmHandler w userStates chatId).states chatId = none := by
  rw [confirmHandler_success w userStates chatId session data hashed newClient booking more1
    more2 hsession hstep hdata hhash hclient hbooking]
  refine ⟨rfl, ?_, ?_, ?_, ?_⟩
  · simp
  · intro chat e md kb hmem
    have hne : confirmFailureText e ≠ confirmSuccessText w data booking := by
      intro h
      have h1 := confirmFailureText_head e
      rw [h, confirmSuccessText_head] at h1
      exact absurd h1 (by decide)
    simp only [List.cons_append, List.nil_append, List.mem_cons, reduceCtorEq, false_or,
      Effect.sendMessage.injEq] at hmem
    rcases hmem with h | h
    · exact hne h.2.1
    · exact notification_no_failure w booking chat e md kb h
  · simp [queriesOf_append, queriesOf, queriesOf_notification]
  · simp [Sessions.del]

/-- C9 in `notifierFailsWorld`, where the client lookup of the notifier raises. -/
theorem C9_notifier_failure_swallowed_witness :
    notifierFailsWorld.query (.selectClientById (some 7)) =
      .error { message := "connection terminated unexpectedly" } ∧
    ((confirmHandler notifierFailsWorld (oneSession 1001 scenarioSession) 1001).raised = none ∧
     Effect.sendMessage (toString (1001 : Int))
        (confirmSuccessText notifierFailsWorld scenarioDraft
          { id := 12, client_id := some 7,
            service_name := some "Аренда пылесоса Karcher Puzzi 8/1 C",
            booking_date := some "2025-03-04T21:00:00.000Z", address := some "Minsk" })
        true .main ∈
      (confirmHandler notifierFailsWorld (oneSession 1001 scenarioSession) 1001).trace ∧
     (∀ chat e md kb, Effect.sendMessage chat (confirmFailureText e) md kb ∉
      (confirmHandler notifierFailsWorld (oneSession 1001 scenarioSession) 1001).trace) ∧
     queriesOf (confirmHandler notifierFailsWorld (oneSession 1001 scenarioSession) 1001).trace =
      [clientInsert notifierFailsWorld scenarioDraft
         ("$2b$10$" ++ tempPassword notifierFailsWorld),
       bookingInsert scenarioDraft 7, .selectClientById (some 7)] ∧
     (confirmHandler notifierFailsWorld (oneSession 1001 scenarioSession) 1001).states 1001 =
      none) :=
  ⟨rfl,
   C9_notifier_failure_swallowed notifierFailsWorld (oneSession 1001 scenarioSession) 1001
    scenarioSession scenarioDraft ("$2b$10$" ++ tempPassword notifierFailsWorld)
    { id := 7, first_name := some "Ivan", last_name := some "",
      phone_number := some "+375291112233" }
    { id := 12, client_id := some 7,
      service_name := some "Аренда пылесоса Karcher Puzzi 8/1 C",
      booking_date := some "2025-03-04T21:00:00.000Z", address := some "Minsk" }
    [] [] (by decide) rfl rfl rfl rfl rfl⟩

/-- C10, the code at the failing input. The text "🧹 Пылесос Puzzi 8/1 C!" is none of
the three labels, the pattern of the service handler matches it, and at step `service`
the handler advances the step to `date` and stores no service name (`undefined`). -/
theorem C10_service_label_with_extra_text :
    "🧹 Пылесос Puzzi 8/1 C!" ∉ serviceLabels ∧
    servicePattern "🧹 Пылесос Puzzi 8/1 C!" = true ∧
    (serviceHandler (oneSession 1001 { step := .service, data := some {} }) 1001
        "🧹 Пылесос Puzzi 8/1 C!").states 1001 =
      some { step := .date, data := some { service_name := none } } := by
  refine ⟨?_, ?_, ?_⟩ <;> decide

/-- C11, the code at the failing input. The text "➕ Добавить бронирование 🧹 Пылесос
Puzzi 8/1 C" matches the pattern of the start-create command and the pattern of the
service selection. Sent by the admin with no session, it goes through both handlers:
the first creates the session at step `service`, the second advances it to `date`
(with no service name), so one message leaves the session one step past the first step
of the flow. Sent at step `confirm`, it moves the step back to `date`. Neither change
is one the order of the steps allows. -/
theorem C11_one_message_reaches_date :
    literalPattern "➕ Добавить бронирование"
        "➕ Добавить бронирование 🧹 Пылесос Puzzi 8/1 C" = true ∧
    servicePattern "➕ Добавить бронирование 🧹 Пылесос Puzzi 8/1 C" = true ∧
    (processUpdate exampleWorld (fun _ => none) 1001
        (some "➕ Добавить бронирование 🧹 Пылесос Puzzi 8/1 C")).states 1001 =
      some { step := .date, data := some { service_name := none } } ∧
    stepAllowed none (some .date) = false ∧
    (processUpdate exampleWorld (oneSession 1001 scenarioSession) 1001
        (some "➕ Добавить бронирование 🧹 Пылесос Puzzi 8/1 C")).states 1001 =
      some { step := .date, data := some { service_name := none } } ∧
    stepAllowed (some .confirm) (some .date) = false := by
  refine ⟨?_, ?_, ?_, ?_, ?_, ?_⟩ <;> decide

/-- C12 as stated fails: at step `date` the text "↩️ Назад" does not match the date
pattern, and the free-text handler sends no re-prompt for it (it sends nothing). The
same holds for "📊 Статистика" and for "назад ↩️". -/
theorem C12_no_reprompt_for_menu_text :
    dateMatch "↩️ Назад".data = none ∧
    (creationInput exampleWorld (oneSession 1001 { step := .date, data := some {} }) 1001
        (some "↩️ Назад")).trace = [] ∧
    dateMatch "📊 Статистика".data = none ∧
    (creationInput exampleWorld (oneSession 1001 { step := .date, data := some {} }) 1001
        (some "📊 Статистика")).trace = [] ∧
    dateMatch "назад ↩️".data = none ∧
    (creationInput exampleWorld (oneSession 1001 { step := .date, data := some {} }) 1001
        (some "назад ↩️")).trace = [] := by
  refine ⟨?_, ?_, ?_, ?_, ?_, ?_⟩ <;> decide

/-- C12, amended. For every session at step `date` and every text that does not match
the date pattern, the free-text handler of the creation flow returns the session map
as it was (the step is not set to `client_name`, no booking date is stored), makes no
repository call and raises nothing; it sends the format re-prompt, and nothing else,
unless the text is one of the seven menu literals or contains the back arrow, and then
it sends nothing. -/
theorem C12_malformed_date_does_not_advance (w : World) (userStates : Sessions) (chatId : Int)
    (session : Session) (text : String)
    (hsession : userStates chatId = some session) (hstep : session.step = .date)
    (hmatch : dateMatch text.data = none) :
    (creationInput w userStates chatId (some text)).states = userStates ∧
    queriesOf (creationInput w userStates chatId (some text)).trace = [] ∧
    (creationInput w userStates chatId (some text)).raised = none ∧
    (creationInput w userStates chatId (some text)).trace =
      (if isLiteral creationLiterals (some text) = true ∨ includes "↩️".data text.data = true
       then []
       else [.sendMessage (toString chatId) dateFormatText true .none]) := by
  unfold creationInput
  by_cases hl : isLiteral creationLiterals (some text) = true
  · simp [hl, queriesOf]
  · by_cases hb : includes "↩️".data text.data = true
    · simp [hl, hsession, hstep, hb, queriesOf]
    · simp [hl, hsession, hstep, hb, hmatch, queriesOf]

/-- C12 amended, at the text "5/3/2025" (wrong separator) at step `date` in
`exampleWorld`: the text is no menu literal and has no back arrow, the re-prompt is
sent and the session stays as it was. -/
theorem C12_malformed_date_does_not_advance_witness :
    (isLiteral creationLiterals (some "5/3/2025") = false ∧
     includes "↩️".data "5/3/2025".data = false) ∧
    ((creationInput exampleWorld (oneSession 1001 { step := .date, data := some {} }) 1001
        (some "5/3/2025")).states = oneSession 1001 { step := .date, data := some {} } ∧
     queriesOf (creationInput exampleWorld (oneSession 1001 { step := .date, data := some {} })
        1001 (some "5/3/2025")).trace = [] ∧
     (creationInput exampleWorld (oneSession 1001 { step := .date, data := some {} }) 1001
        (some "5/3/2025")).raised = none ∧
     (creationInput exampleWorld (oneSession 1001 { step := .date, data := some {} }) 1001
        (some "5/3/2025")).trace =
      (if isLiteral creationLiterals (some "5/3/2025") = true ∨
          includes "↩️".data "5/3/2025".data = true
       then []
       else [.sendMessage (toString (1001 : Int)) dateFormatText true .none])) :=
  ⟨by decide,
   C12_malformed_date_does_not_advance exampleWorld
    (oneSession 1001 { step := .date, data := some {} }) 1001 { step := .date, data := some {} }
    "5/3/2025" (by decide) rfl (by decide)⟩

/-- C13. For every session at step `date` with a draft, in a zone whose offset is at
most a day, and every text `d.m.yyyy` whose day and month have one or two digits and
whose year has four: the date step accepts the text (the step becomes `client_name` and
the ISO form of the date built from the three numbers is stored), and on the text with
day and month padded to two digits the handler does exactly the same. -/
theorem C13_one_digit_as_zero_padded (w : World) (userStates : Sessions) (chatId : Int)
    (session : Session) (data : Draft) (d m y : List Char)
    (hsession : userStates chatId = some session) (hstep : session.step = .date)
    (hdata : session.data = some data)
    (htz : ∀ t, -86400000 ≤ w.localTZA t ∧ w.localTZA t ≤ 86400000)
    (hd : d.all Char.isDigit = true) (hm : m.all Char.isDigit = true)
    (hy : y.all Char.isDigit = true)
    (hd1 : 1 ≤ d.length) (hd2 : d.length ≤ 2) (hm1 : 1 ≤ m.length) (hm2 : m.length ≤ 2)
    (hy4 : y.length = 4) :
    ∃ tv, newDate w (digitsToNat y) ((digitsToNat m : Int) - 1) (digitsToNat d) = some tv ∧
      creationInput w userStates chatId (some (dateText d m y)) =
        { states := userStates.set chatId
            { session with
              data := some { data with booking_date := some (w.toISOString tv) }
              step := .client_name }
          trace := [.sendMessage (toString chatId) "👤 *Введите имя клиента:*" true .none] } ∧
      creationInput w userStates chatId (some (dateText (zeroPad d) (zeroPad m) y)) =
        creationInput w userStates chatId (some (dateText d m y)) := by
  have hmatch : dateMatch (dateText d m y).data = some (d, m, y) :=
    dateMatch_of_shape hd hm hy hd1 hd2 hm1 hm2 hy4
  have hpd := zeroPad_shape hd hd1 hd2
  have hpm := zeroPad_shape hm hm1 hm2
  have hmatch2 : dateMatch (dateText (zeroPad d) (zeroPad m) y).data =
      some (zeroPad d, zeroPad m, y) :=
    dateMatch_of_shape hpd.1 hpm.1 hy (by omega) (by omega) (by omega) (by omega) hy4
  obtain ⟨tv, htv, hrun⟩ := creationInput_date_match w userStates chatId session data
    (dateText d m y) d m y hsession hstep hdata hmatch htz
  obtain ⟨tv2, htv2, hrun2⟩ := creationInput_date_match w userStates chatId session data
    (dateText (zeroPad d) (zeroPad m) y) (zeroPad d) (zeroPad m) y hsession hstep hdata
    hmatch2 htz
  rw [digitsToNat_zeroPad, digitsToNat_zeroPad, htv] at htv2
  cases htv2
  exact ⟨tv, htv, hrun, hrun2.trans hrun.symm⟩

/-- C13 at 5.3.2025 and 05.03.2025 in `exampleWorld`: both store local midnight of
5 March 2025. -/
theorem C13_one_digit_as_zero_padded_witness :
    (dateText "5".data "3".data "2025".data = "5.3.2025" ∧
     dateText (zeroPad "5".data) (zeroPad "3".data) "2025".data = "05.03.2025" ∧
     exampleWorld.toISOString 1741122000000 = "2025-03-04T21:00:00.000Z") ∧
    ∃ tv, newDate exampleWorld (digitsToNat "2025".data) ((digitsToNat "3".data : Int) - 1)
        (digitsToNat "5".data) = some tv ∧
      creationInput exampleWorld (oneSession 1001 { step := .date, data := some {} }) 1001
          (some (dateText "5".data "3".data "2025".data)) =
        { states := (oneSession 1001 { step := .date, data := some {} }).set 1001
            { step := .client_name
              data := some { booking_date := some (exampleWorld.toISOString tv) } }
          trace := [.sendMessage (toString (1001 : Int)) "👤 *Введите имя клиента:*" true
                      .none] } ∧
      creationInput exampleWorld (oneSession 1001 { step := .date, data := some {} }) 1001
          (some (dateText (zeroPad "5".data) (zeroPad "3".data) "2025".data)) =
        creationInput exampleWorld (oneSession 1001 { step := .date, data := some {} }) 1001
          (some (dateText "5".data "3".data "2025".data)) :=
  ⟨by decide,
   C13_one_digit_as_zero_padded exampleWorld
    (oneSession 1001 { step := .date, data := some {} }) 1001 { step := .date, data := some {} }
    {} "5".data "3".data "2025".data (by decide) rfl rfl
    (fun _ => ⟨show (-86400000 : Int) ≤ 10800000 by decide,
               show (10800000 : Int) ≤ 86400000 by decide⟩)
    (by decide) (by decide) (by decide) (by decide) (by decide) (by decide) (by decide)
    (by decide)⟩

/-- C14, the code at the failing input. The text 5.3.0050 denotes a real calendar date
and the date step accepts it; the Date constructor takes the year 50 as 1950, so the
date built is local 5 March 1950, not 5 March of the year 50. For 5.3.2025 the date
built is local 5 March 2025. -/
theorem C14_two_digit_year_becomes_1900s :
    isCalendarDate 5 3 50 = true ∧
    dateMatch "5.3.0050".data = some ("5".data, "3".data, "0050".data) ∧
    (newDate exampleWorld (digitsToNat "0050".data) ((digitsToNat "3".data : Int) - 1)
        (digitsToNat "5".data)).map (localDate exampleWorld.localTZA) = some (1950, 3, 5) ∧
    (creationInput exampleWorld (oneSession 1001 { step := .date, data := some {} }) 1001
        (some "5.3.0050")).states 1001 =
      some { step := .client_name
             data := some { booking_date := some "1950-03-04T21:00:00.000Z" } } ∧
    (newDate exampleWorld (digitsToNat "2025".data) ((digitsToNat "3".data : Int) - 1)
        (digitsToNat "5".data)).map (localDate exampleWorld.localTZA) = some (2025, 3, 5) := by
  refine ⟨?_, ?_, ?_, ?_, ?_⟩ <;> decide

/-- C15 as stated fails: at step `delete_ask_id` no integer can be parsed from the text
"❌ Нет", and the delete-id handler neither replies nor removes the session (the text
is one of the literals it returns on at once). -/
theorem C15_button_text_is_skipped :
    parseInt "❌ Нет".data = none ∧
    (deleteIdInput exampleWorld (oneSession 1001 { step := .delete_ask_id }) 1001
        (some "❌ Нет")).trace = [] ∧
    (deleteIdInput exampleWorld (oneSession 1001 { step := .delete_ask_id }) 1001
        (some "❌ Нет")).states 1001 = some { step := .delete_ask_id } := by
  refine ⟨?_, ?_, ?_⟩ <;> decide

/-- C15, amended. For every session at step `delete_ask_id` and every message from whose
text no integer can be parsed (a message without text included), the delete-id handler
makes no repository call and raises nothing; unless the text is one of the eleven
literals of its filter, it replies that a number is required, sends nothing else and
removes the session; on one of the eleven literals it does nothing. -/
theorem C15_no_number_ends_delete_flow (w : World) (userStates : Sessions) (chatId : Int)
    (session : Session) (text : Option String)
    (hsession : userStates chatId = some session) (hstep : session.step = .delete_ask_id)
    (hparse : parseInt (tplU text).data = none) :
    queriesOf (deleteIdInput w userStates chatId text).trace = [] ∧
    (deleteIdInput w userStates chatId text).raised = none ∧
    (isLiteral deleteLiterals text = false →
      (deleteIdInput w userStates chatId text).trace =
        [.sendMessage (toString chatId) "❌ Введите число (ID бронирования)" false .main] ∧
      (deleteIdInput w userStates chatId text).states chatId = none) ∧
    (isLiteral deleteLiterals text = true →
      (deleteIdInput w userStates chatId text).trace = [] ∧
      (deleteIdInput w userStates chatId text).states = userStates) := by
  unfold deleteIdInput
  cases hl : isLiteral deleteLiterals text with
  | true => simp [queriesOf]
  | false => simp [hsession, hstep, hparse, queriesOf, Sessions.del]

/-- C15 amended, at the text "abc" at step `delete_ask_id` in `exampleWorld`. -/
theorem C15_no_number_ends_delete_flow_witness :
    (parseInt (tplU (some "abc")).data = none ∧ isLiteral deleteLiterals (some "abc") = false) ∧
    (queriesOf (deleteIdInput exampleWorld (oneSession 1001 { step := .delete_ask_id }) 1001
        (some "abc")).trace = [] ∧
     (deleteIdInput exampleWorld (oneSession 1001 { step := .delete_ask_id }) 1001
        (some "abc")).raised = none ∧
     (isLiteral deleteLiterals (some "abc") = false →
      (deleteIdInput exampleWorld (oneSession 1001 { step := .delete_ask_id }) 1001
          (some "abc")).trace =
        [.sendMessage (toString (1001 : Int)) "❌ Введите число (ID бронирования)" false
          .main] ∧
      (deleteIdInput exampleWorld (oneSession 1001 { step := .delete_ask_id }) 1001
          (some "abc")).states 1001 = none) ∧
     (isLiteral deleteLiterals (some "abc") = true →
      (deleteIdInput exampleWorld (oneSession 1001 { step := .delete_ask_id }) 1001
          (some "abc")).trace = [] ∧
      (deleteIdInput exampleWorld (oneSession 1001 { step := .delete_ask_id }) 1001
          (some "abc")).states = oneSession 1001 { step := .delete_ask_id })) :=
  ⟨by decide,
   C15_no_number_ends_delete_flow exampleWorld (oneSession 1001 { step := .delete_ask_id }) 1001
    { step := .delete_ask_id } (some "abc") (by decide) rfl (by decide)⟩

/-- C16. For every session at step `delete_ask_id` and every message from whose text
`parseInt` reads a number (the double JavaScript computes, an infinity included) for
which the booking lookup returns no row, the delete-id handler makes that one lookup,
replies that the booking with this id, printed as JavaScript prints the number, is not
found, issues no delete, raises nothing, and the user has no session afterwards. -/
theorem C16_unknown_id_not_found (w : World) (userStates : Sessions) (chatId : Int)
    (session : Session) (text : Option String) (bookingId : JsNumber)
    (hsession : userStates chatId = some session) (hstep : session.step = .delete_ask_id)
    (hparse : parseInt (tplU text).data = some bookingId)
    (hrows : w.query (.selectBookingById bookingId) = .ok []) :
    (deleteIdInput w userStates chatId text).trace =
      [.query (.selectBookingById bookingId),
       .sendMessage (toString chatId)
         ("❌ Бронирование с ID *" ++ numberToString bookingId ++ "* не найдено") true .main] ∧
    (queriesOf (deleteIdInput w userStates chatId text).trace).filter Query.isDelete = [] ∧
    (deleteIdInput w userStates chatId text).raised = none ∧
    (deleteIdInput w userStates chatId text).states chatId = none := by
  unfold deleteIdInput
  simp [not_literal_of_parseInt hparse, hsession, hstep, hparse, hrows, queriesOf, Sessions.del,
    Query.isDelete]

/-- C16 in `exampleWorld`, whose repository holds no booking, at the text 42 and at the
text 9007199254740993, which is 2^53 + 1: `parseInt` gives the double 2^53, and that is
the id looked up and named in the reply. -/
theorem C16_unknown_id_not_found_witness :
    ((deleteIdInput exampleWorld (oneSession 1001 { step := .delete_ask_id }) 1001
        (some "42")).trace =
      [.query (.selectBookingById 42),
       .sendMessage "1001" "❌ Бронирование с ID *42* не найдено" true .main] ∧
     (queriesOf (deleteIdInput exampleWorld (oneSession 1001 { step := .delete_ask_id }) 1001
        (some "42")).trace).filter Query.isDelete = [] ∧
     (deleteIdInput exampleWorld (oneSession 1001 { step := .delete_ask_id }) 1001
        (some "42")).raised = none ∧
     (deleteIdInput exampleWorld (oneSession 1001 { step := .delete_ask_id }) 1001
        (some "42")).states 1001 = none) ∧
    (parseInt "9007199254740993".data = some 9007199254740992 ∧
     (deleteIdInput exampleWorld (oneSession 1001 { step := .delete_ask_id }) 1001
        (some "9007199254740993")).trace =
      [.query (.selectBookingById 9007199254740992),
       .sendMessage "1001" "❌ Бронирование с ID *9007199254740992* не найдено" true .main]) :=
  ⟨C16_unknown_id_not_found exampleWorld (oneSession 1001 { step := .delete_ask_id }) 1001
    { step := .delete_ask_id } (some "42") 42 (by decide) rfl (by decide) rfl,
   by decide,
   (C16_unknown_id_not_found exampleWorld (oneSession 1001 { step := .delete_ask_id }) 1001
    { step := .delete_ask_id } (some "9007199254740993") 9007199254740992 (by decide) rfl
    (by decide) rfl).1⟩

/-- C17. For every session at step `confirm_delete` with a stored delete candidate, the
"yes" handler issues exactly one repository call, the delete for the id of the
candidate, raises nothing, and leaves the user without a session whatever the
repository answers. When the delete returns no row the one reply is not-found; when it
returns a row the one reply is the success summary of the candidate, which holds its
service name, date, client name, phone, address and id; when the repository raises the
one reply is the failure message. -/
theorem C17_yes_deletes_the_candidate (w : World) (userStates : Sessions) (chatId : Int)
    (session : Session) (booking : Row)
    (hsession : userStates chatId = some session) (hstep : session.step = .confirm_delete)
    (hcandidate : session.deleteCandidate = some booking) :
    queriesOf (yesHandler w userStates chatId).trace = [.deleteBooking booking.id] ∧
    (yesHandler w userStates chatId).raised = none ∧
    (yesHandler w userStates chatId).states chatId = none ∧
    (w.query (.deleteBooking booking.id) = .ok [] →
      textsTo (toString chatId) (yesHandler w userStates chatId).trace =
        ["❌ Бронирование не найдено при удалении"]) ∧
    (∀ row rows, w.query (.deleteBooking booking.id) = .ok (row :: rows) →
      textsTo (toString chatId) (yesHandler w userStates chatId).trace =
        [deletedText w booking]) ∧
    (∀ e, w.query (.deleteBooking booking.id) = .error e →
      textsTo (toString chatId) (yesHandler w userStates chatId).trace =
        ["❌ Ошибка при удалении бронирования"]) ∧
    (includes (tplN booking.service_name).data (deletedText w booking).data = true ∧
     includes (w.toLocaleDateString booking.booking_date).data (deletedText w booking).data
       = true ∧
     includes (orStr booking.first_name "-").data (deletedText w booking).data = true ∧
     includes (orStr booking.phone_number "-").data (deletedText w booking).data = true ∧
     (truthy booking.address = true →
       includes (tplN booking.address).data (deletedText w booking).data = true) ∧
     includes (toString booking.id).data (deletedText w booking).data = true) := by
  refine ⟨?_, ?_, ?_, ?_, ?_, ?_, deletedText_echoes w booking⟩
  all_goals
    unfold yesHandler
    simp only [hsession, hstep, hcandidate, ne_eq, not_true_eq_false, ↓reduceIte]
  · cases w.query (Query.deleteBooking booking.id) with
    | error e => simp [queriesOf]
    | ok rows => cases rows <;> simp [queriesOf]
  · cases w.query (Query.deleteBooking booking.id) with
    | error e => simp
    | ok rows => cases rows <;> simp
  · cases w.query (Query.deleteBooking booking.id) with
    | error e => simp [Sessions.del]
    | ok rows => cases rows <;> simp [Sessions.del]
  · intro h
    simp [h, textsTo]
  · intro row rows h
    simp [h, textsTo, deletedText]
  · intro e h
    simp [h, textsTo]

/-- C17 in `storedBookingWorld`, with booking 12 as the stored candidate: the delete
returns its row and the reply is the success summary. -/
theorem C17_yes_deletes_the_candidate_witness :
    storedBookingWorld.query (.deleteBooking storedBooking.id) = .ok [{ id := 12 }] ∧
    queriesOf (yesHandler storedBookingWorld
        (oneSession 1001 { step := .confirm_delete, deleteCandidate := some storedBooking })
        1001).trace = [.deleteBooking 12] ∧
    textsTo (toString (1001 : Int)) (yesHandler storedBookingWorld
        (oneSession 1001 { step := .confirm_delete, deleteCandidate := some storedBooking })
        1001).trace = [deletedText storedBookingWorld storedBooking] ∧
    (yesHandler storedBookingWorld
        (oneSession 1001 { step := .confirm_delete, deleteCandidate := some storedBooking })
        1001).states 1001 = none :=
  have h := C17_yes_deletes_the_candidate storedBookingWorld
    (oneSession 1001 { step := .confirm_delete, deleteCandidate := some storedBooking }) 1001
    { step := .confirm_delete, deleteCandidate := some storedBooking } storedBooking
    (by decide) rfl rfl
  ⟨rfl, h.1, h.2.2.2.2.1 { id := 12 } [] rfl, h.2.2.1⟩

/-- C18. For every user, whatever the session map holds for them, each of the handlers
of back, /start and cancel leaves that user without a session, makes no repository
call and raises nothing. The same holds for the whole dispatch of a message with the
text of one of the three commands, the free-text handlers included: the user has no
session afterwards and no repository call is made. -/
theorem C18_back_start_cancel_end_session (w : World) (userStates : Sessions) (chatId : Int) :
    ((backHandler userStates chatId).states chatId = none ∧
     queriesOf (backHandler userStates chatId).trace = [] ∧
     (backHandler userStates chatId).raised = none) ∧
    ((startHandler w userStates chatId).states chatId = none ∧
     queriesOf (startHandler w userStates chatId).trace = [] ∧
     (startHandler w userStates chatId).raised = none) ∧
    ((cancelHandler userStates chatId).states chatId = none ∧
     queriesOf (cancelHandler userStates chatId).trace = [] ∧
     (cancelHandler userStates chatId).raised = none) ∧
    ((processUpdate w userStates chatId (some "↩️ Назад")).states chatId = none ∧
     queriesOf (processUpdate w userStates chatId (some "↩️ Назад")).trace = []) ∧
    ((processUpdate w userStates chatId (some "/start")).states chatId = none ∧
     queriesOf (processUpdate w userStates chatId (some "/start")).trace = []) ∧
    ((processUpdate w userStates chatId (some "❌ Отменить")).states chatId = none ∧
     queriesOf (processUpdate w userStates chatId (some "❌ Отменить")).trace = []) := by
  have hd := processUpdate_exit_commands w userStates chatId
  refine ⟨⟨?_, ?_, ?_⟩, ⟨?_, ?_, ?_⟩, ⟨?_, ?_, ?_⟩, hd.1, hd.2.1, hd.2.2⟩
  · simp [backHandler, Sessions.del]
  · simp [backHandler, queriesOf]
  · simp [backHandler]
  · simp [startHandler, Sessions.del]
  · unfold startHandler
    dsimp only
    split <;> simp [queriesOf]
  · simp [startHandler]
  · simp [cancelHandler, Sessions.del]
  · simp [cancelHandler, queriesOf]
  · simp [cancelHandler]

/-- C19, the code at the failing inputs. A text that is exactly one of the seven menu
literals is skipped by both free-text handlers. The text "📋 Все бронирования!"
triggers the list-all command (its pattern matches a text that contains the literal)
and is none of the literals: at step `client_name` the creation-flow handler stores it
as the client name and advances the step. The text "5 📊 Статистика" triggers the
statistics command: at step `delete_ask_id` the delete-flow handler parses the id 5
from it and looks the booking up. -/
theorem C19_command_text_taken_as_input :
    (∀ (w : World) (userStates : Sessions) (chatId : Int) (text : String),
      text ∈ creationLiterals →
        (creationInput w userStates chatId (some text)).states = userStates ∧
        (creationInput w userStates chatId (some text)).trace = [] ∧
        (deleteIdInput w userStates chatId (some text)).states = userStates ∧
        (deleteIdInput w userStates chatId (some text)).trace = []) ∧
    (literalPattern "📋 Все бронирования" "📋 Все бронирования!" = true ∧
     (creationInput exampleWorld (oneSession 1001 { step := .client_name, data := some {} })
        1001 (some "📋 Все бронирования!")).states 1001 =
      some { step := .client_phone
             data := some { client_name := some "📋 Все бронирования!" } }) ∧
    (literalPattern "📊 Статистика" "5 📊 Статистика" = true ∧
     queriesOf (deleteIdInput exampleWorld (oneSession 1001 { step := .delete_ask_id }) 1001
        (some "5 📊 Статистика")).trace = [.selectBookingById 5]) := by
  refine ⟨?_, by decide, by decide⟩
  intro w userStates chatId text hmem
  have h1 : isLiteral creationLiterals (some text) = true := by
    simpa [isLiteral] using hmem
  have h2 : isLiteral deleteLiterals (some text) = true := by
    simpa [isLiteral] using creationLiterals_sub text hmem
  simp [creationInput, deleteIdInput, h1, h2]

/-- C20, the code at the failing input. On the text `a\_b` (a backslash before the
underscore) `escapeMarkdown` gives `a\\_b`: read left to right the two backslashes are
an escaped backslash and the underscore after them is unescaped (it is preceded by an
even number of backslashes). On every text without a backslash, such as `a_b*c.d!`,
nothing is left unescaped. -/
theorem C20_backslash_breaks_escaping :
    (escapeMarkdown "a\\_b" = "a\\\\_b" ∧
     hasUnescapedSpecial (escapeMarkdown "a\\_b").data = true) ∧
    (escapeMarkdown "a_b*c.d!" = "a\\_b\\*c\\.d\\!" ∧
     hasUnescapedSpecial (escapeMarkdown "a_b*c.d!").data = false) ∧
    (∀ text : String, '\\' ∉ text.data →
      hasUnescapedSpecial (escapeMarkdown text).data = false) := by
  refine ⟨by decide, by decide, ?_⟩
  intro text h
  rw [escapeMarkdown_data]
  exact escapePass_no_unescaped _ h

/-- C21. For every text (the empty one included) `escapeMarkdown`, the chain of eighteen
replacements, gives the single left-to-right pass that puts a backslash before each of
the eighteen characters and leaves every other character, the backslash included, as it
is. No later replacement alters what an earlier one produced: after the replacement for
a character `c` of the chain, the replacements that follow leave the backslash and `c`
as they are, and the whole chain leaves a backslash as it is. -/
theorem C21_chain_equals_single_pass (text : String) :
    escapeMarkdown text = String.mk (escapePass text.data) ∧
    (∀ (c : Char) (earlier later : List Char), markdownSpecials = earlier ++ c :: later →
      replaceAll c [c] = ['\\', c] ∧ replaceChain later ['\\', c] = ['\\', c]) ∧
    replaceChain markdownSpecials ['\\'] = ['\\'] ∧
    markdownSpecials.length = 18 := by
  refine ⟨?_, ?_, ?_, by decide⟩
  · have h := escapeMarkdown_data text
    rw [← h]
  · intro c earlier later hsplit
    refine ⟨by simp [replaceAll], ?_⟩
    have hn : markdownSpecials.Nodup := by decide
    have hb : '\\' ∉ markdownSpecials := by decide
    rw [hsplit] at hn hb
    apply replaceChain_of_disjoint
    intro y hy hmem
    simp only [List.mem_cons, List.mem_singleton, List.not_mem_nil, or_false] at hmem
    rcases hmem with e | e
    · subst e
      exact hb (List.mem_append_right _ (List.mem_cons_of_mem _ hy))
    · subst e
      have h2 := (List.nodup_append.1 hn).2.1
      exact (List.nodup_cons.1 h2).1 hy
  · exact replaceChain_of_disjoint _ _ (by decide)

/-- C22, the code at the failing input. A message without text (a photo) from a user
whose session is at step `date`: the creation-flow handler evaluates `text.includes` on
`undefined` and raises a `TypeError` that nothing catches, also when the message goes
through the whole dispatcher after `exampleUpdates`, which leave the admin at step
`date`. Apart from that the two handlers do not raise: the
delete-flow handler never does, and the creation-flow handler, on a session that
carries a draft, raises only at step `date` on a message without text. -/
theorem C22_photo_at_date_step_raises :
    (creationInput exampleWorld (oneSession 1001 { step := .date, data := some {} }) 1001
        none).raised = some (typeErrorUndefined "includes") ∧
    ((runUpdates (fun _ => none) exampleUpdates 1001).map (fun s => s.step) = some .date ∧
     (processUpdate exampleWorld (runUpdates (fun _ => none) exampleUpdates) 1001
        none).raised = some (typeErrorUndefined "includes")) ∧
    (∀ (w : World) (userStates : Sessions) (chatId : Int) (text : Option String),
      (deleteIdInput w userStates chatId text).raised = none) ∧
    (∀ (w : World) (userStates : Sessions) (chatId : Int) (text : Option String),
      (∀ s, userStates chatId = some s → s.data ≠ none) →
      ((creationInput w userStates chatId text).raised ≠ none ↔
        text = none ∧ ∃ s, userStates chatId = some s ∧ s.step = .date)) := by
  refine ⟨by decide, by decide, ?_, ?_⟩
  · intro w userStates chatId text
    unfold deleteIdInput
    dsimp only
    repeat' split
    all_goals rfl
  · intro w userStates chatId text hdata
    unfold creationInput
    dsimp only
    repeat' split
    all_goals first
      | (simp_all; done)
      | (rename_i hlit
         refine ⟨fun h => absurd rfl h, fun h => ?_⟩
         rw [h.1] at hlit
         cases hlit)

/-- C23 as stated fails. In `exampleWorld` the admin 1001 is at step `client_address`
(no session at step `confirm`) and sends the text of the confirm button. The
creation-flow handler, whose filter does not list that text, stores it as the address
and sets step `confirm`; the confirm handler then runs on the same message: a client
insert, a booking insert and the lookup of the notifier are made, the session is
removed, and the session-expired reply is not sent. At step `client_name` the same
text makes no repository call and draws the session-expired reply, yet the session map
changes: the text is stored as the name and the step becomes `client_phone`. -/
theorem C23_confirm_text_taken_as_address :
    ((oneSession 1001 addressSession 1001).map (fun s => s.step) = some .client_address ∧
     (queriesOf (processUpdate exampleWorld (oneSession 1001 addressSession) 1001
        (some "✅ Подтвердить")).trace).map
          (fun q => (q.isClientInsert, q.isBookingInsert)) =
        [(true, false), (false, true), (false, false)] ∧
     (processUpdate exampleWorld (oneSession 1001 addressSession) 1001
        (some "✅ Подтвердить")).states 1001 = none ∧
     Effect.sendMessage "1001" "Сессия истекла" false .main ∉
       (processUpdate exampleWorld (oneSession 1001 addressSession) 1001
         (some "✅ Подтвердить")).trace) ∧
    (queriesOf (processUpdate exampleWorld
        (oneSession 1001 { step := .client_name, data := some {} }) 1001
        (some "✅ Подтвердить")).trace = [] ∧
     Effect.sendMessage "1001" "Сессия истекла" false .main ∈
       (processUpdate exampleWorld
         (oneSession 1001 { step := .client_name, data := some {} }) 1001
         (some "✅ Подтвердить")).trace ∧
     (processUpdate exampleWorld
        (oneSession 1001 { step := .client_name, data := some {} }) 1001
        (some "✅ Подтвердить")).states 1001 =
       some { step := .client_phone, data := some { client_name := some "✅ Подтвердить" } }) := by
  refine ⟨⟨?_, ?_, ?_, ?_⟩, ?_, ?_, ?_⟩ <;> decide

/-- C23, amended. A message with the text of the confirm button from a user who has no
session at step `confirm` and none at step `client_name`, `client_phone` or
`client_address`, through all handlers: no repository call is made, the session map is
returned as it was, nothing is raised, and the replies are that the session has
expired, after the date re-prompt when the user is at step `date`. The confirm handler
on its own replies only that, as it does for every user with no session at step
`confirm`. A user at step `confirm` has no session after the message, whatever the
hash and the inserts answer, so a second confirm right after is such a message, and the
two messages together insert at most one client and one booking. -/
theorem C23_confirm_is_idempotent (w : World) (userStates : Sessions) (chatId : Int)
    (h : ∀ s, userStates chatId = some s →
      s.step ≠ .confirm ∧ s.step ≠ .client_name ∧ s.step ≠ .client_phone ∧
      s.step ≠ .client_address) :
    (queriesOf (processUpdate w userStates chatId (some "✅ Подтвердить")).trace = [] ∧
     (processUpdate w userStates chatId (some "✅ Подтвердить")).states = userStates ∧
     (processUpdate w userStates chatId (some "✅ Подтвердить")).raised = none ∧
     (processUpdate w userStates chatId (some "✅ Подтвердить")).trace =
       (if stepOf userStates chatId = some .date then
          [.sendMessage (toString chatId) dateFormatText true .none]
        else []) ++
       [.sendMessage (toString chatId) "Сессия истекла" false .main]) ∧
    confirmHandler w userStates chatId =
      { states := userStates
        trace := [.sendMessage (toString chatId) "Сессия истекла" false .main] } ∧
    (∀ (w0 : World) (before : Sessions) (s : Session),
      before chatId = some s → s.step = .confirm →
      (processUpdate w0 before chatId (some "✅ Подтвердить")).states chatId = none ∧
      (userStates = (processUpdate w0 before chatId (some "✅ Подтвердить")).states →
        ((queriesOf ((processUpdate w0 before chatId (some "✅ Подтвердить")).trace ++
            (processUpdate w userStates chatId (some "✅ Подтвердить")).trace)).filter
              Query.isClientInsert).length ≤ 1 ∧
        ((queriesOf ((processUpdate w0 before chatId (some "✅ Подтвердить")).trace ++
            (processUpdate w userStates chatId (some "✅ Подтвердить")).trace)).filter
              Query.isBookingInsert).length ≤ 1)) := by
  have hrun : processUpdate w userStates chatId (some "✅ Подтвердить") =
      { states := userStates
        trace :=
          (if stepOf userStates chatId = some .date then
             [.sendMessage (toString chatId) dateFormatText true .none]
           else []) ++
          [.sendMessage (toString chatId) "Сессия истекла" false .main] } := by
    cases hs : userStates chatId with
    | none =>
      rw [processUpdate_confirm_no_session w userStates chatId hs]
      simp [stepOf, hs]
    | some s =>
      obtain ⟨h1, h2, h3, h4⟩ := h s hs
      have hstep : s.step = .service ∨ s.step = .date ∨ s.step = .delete_ask_id ∨
          s.step = .confirm_delete := by
        cases hst : s.step <;> simp_all
      rw [processUpdate_confirm_elsewhere w userStates chatId s hs hstep]
      simp [stepOf, hs]
  have hq : queriesOf (processUpdate w userStates chatId (some "✅ Подтвердить")).trace = [] := by
    rw [hrun]
    dsimp only
    split <;> rfl
  refine ⟨⟨hq, ?_, ?_, ?_⟩, ?_, ?_⟩
  · rw [hrun]
  · rw [hrun]
  · rw [hrun]
  · exact confirmHandler_expired w userStates chatId (fun s hs => (h s hs).1)
  · intro w0 before s hs hstep
    have hfirst := processUpdate_confirm_at_confirm w0 before chatId s hs hstep
    refine ⟨by rw [hfirst]; simp [Sessions.del], ?_⟩
    intro _
    have hins := confirmHandler_inserts w0 before chatId
    rw [queriesOf_append, hq, hfirst]
    simpa using hins

/-- C23 in `exampleWorld`, on the session map a first, successful confirm of the scenario
session leaves: the user has no session there, and the second confirm makes no
repository call, returns the map as it was and only replies that the session has
expired. -/
theorem C23_confirm_is_idempotent_witness :
    (processUpdate exampleWorld (oneSession 1001 scenarioSession) 1001
      (some "✅ Подтвердить")).states 1001 = none ∧
    queriesOf (processUpdate exampleWorld
      (processUpdate exampleWorld (oneSession 1001 scenarioSession) 1001
        (some "✅ Подтвердить")).states 1001 (some "✅ Подтвердить")).trace = [] ∧
    (processUpdate exampleWorld
      (processUpdate exampleWorld (oneSession 1001 scenarioSession) 1001
        (some "✅ Подтвердить")).states 1001 (some "✅ Подтвердить")).states =
      (processUpdate exampleWorld (oneSession 1001 scenarioSession) 1001
        (some "✅ Подтвердить")).states ∧
    (processUpdate exampleWorld
      (processUpdate exampleWorld (oneSession 1001 scenarioSession) 1001
        (some "✅ Подтвердить")).states 1001 (some "✅ Подтвердить")).trace =
      [.sendMessage "1001" "Сессия истекла" false .main] :=
  have hnone : (processUpdate exampleWorld (oneSession 1001 scenarioSession) 1001
      (some "✅ Подтвердить")).states 1001 = none := by decide
  have h := (C23_confirm_is_idempotent exampleWorld
    (processUpdate exampleWorld (oneSession 1001 scenarioSession) 1001
      (some "✅ Подтвердить")).states 1001
    (fun s hs => by rw [hnone] at hs; cases hs)).1
  ⟨hnone, h.1, h.2.1, by
    have ht := h.2.2.2
    simpa [stepOf, hnone] using ht⟩

/-- C24. Starting from the empty session map, after any sequence of messages from any
users, handled one after another in worlds that share the admin id, every session of the
map belongs to the chat whose id is the admin id. So a user who is not the admin has no
session, and the next message of such a user, whatever its text, goes through all
handlers (those without an access check included) without a repository call and leaves
the user without a session. -/
theorem C24_sessions_only_for_admin (admin : String) (updates : List Update)
    (hadmin : ∀ u ∈ updates, u.world.ADMIN_CHAT_ID = admin) :
    (∀ (chatId : Int) (s : Session),
      runUpdates (fun _ => none) updates chatId = some s → toString chatId = admin) ∧
    (∀ (w : World) (chatId : Int) (text : Option String),
      w.ADMIN_CHAT_ID = admin → toString chatId ≠ admin →
      runUpdates (fun _ => none) updates chatId = none ∧
      queriesOf (processUpdate w (runUpdates (fun _ => none) updates) chatId text).trace = [] ∧
      (processUpdate w (runUpdates (fun _ => none) updates) chatId text).states chatId =
        none) := by
  have hinv : AdminOnly admin (runUpdates (fun _ => none) updates) :=
    runUpdates_adminOnly admin updates _ hadmin (fun _ _ h => by cases h)
  refine ⟨hinv, ?_⟩
  intro w chatId text hw hna
  have hnone : runUpdates (fun _ => none) updates chatId = none := by
    cases hs : runUpdates (fun _ => none) updates chatId with
    | none => rfl
    | some s => exact absurd (hinv chatId s hs) hna
  subst hw
  exact ⟨hnone, processUpdate_outsider w _ chatId text hna hnone⟩

/-- C24 at `exampleUpdates`, where the admin 1001 and the user 2002 take turns: after
the four messages the one session is that of 1001, at step `date`. -/
theorem C24_sessions_only_for_admin_witness :
    (∀ u ∈ exampleUpdates, u.world.ADMIN_CHAT_ID = "1001") ∧
    (runUpdates (fun _ => none) exampleUpdates 1001).map (fun s => s.step) = some .date ∧
    runUpdates (fun _ => none) exampleUpdates 2002 = none ∧
    (∀ (chatId : Int) (s : Session),
      runUpdates (fun _ => none) exampleUpdates chatId = some s → toString chatId = "1001") :=
  ⟨by decide, by decide, by decide,
   (C24_sessions_only_for_admin "1001" exampleUpdates (by decide)).1⟩

/-- C25. After any sequence of messages from the empty session map, for every user whose
session is at step `date` and every text that matches the date pattern, in a zone whose
offset from UTC is at most a day: the session carries a draft, the Date built from the
three groups is valid, the reply of the invalid-date branch is not sent, nothing is
raised, and the step of the user is `client_name` afterwards. -/
theorem C25_matching_text_always_advances (updates : List Update) (w : World) (chatId : Int)
    (session : Session) (text : String) (d m y : List Char)
    (hsession : runUpdates (fun _ => none) updates chatId = some session)
    (hstep : session.step = .date)
    (hmatch : dateMatch text.data = some (d, m, y))
    (htz : ∀ t, -86400000 ≤ w.localTZA t ∧ w.localTZA t ≤ 86400000) :
    (newDate w (digitsToNat y) ((digitsToNat m : Int) - 1) (digitsToNat d)).isSome = true ∧
    (∀ (chat : String) (markdown : Bool) (keyboard : Keyboard),
      Effect.sendMessage chat "❌ Неверная дата!" markdown keyboard ∉
        (creationInput w (runUpdates (fun _ => none) updates) chatId (some text)).trace) ∧
    (creationInput w (runUpdates (fun _ => none) updates) chatId (some text)).raised = none ∧
    stepOf (creationInput w (runUpdates (fun _ => none) updates) chatId (some text)).states
      chatId = some .client_name := by
  have hdraft := runUpdates_draftAtDate updates (fun _ => none) (fun _ _ h => by cases h)
    chatId session hsession hstep
  obtain ⟨data, hdata⟩ := Option.ne_none_iff_exists'.1 hdraft
  obtain ⟨tv, htv, hrun⟩ := creationInput_date_match w _ chatId session data text
    d m y hsession hstep hdata hmatch htz
  rw [hrun, htv]
  refine ⟨rfl, ?_, rfl, stepOf_set _ _ _⟩
  intro chat markdown keyboard hmem
  simp only [List.mem_singleton, Effect.sendMessage.injEq] at hmem
  exact absurd hmem.2.1 (by decide)

/-- C25 after `exampleUpdates`, which leave the admin 1001 at step `date`, at the text
31.4.2025, which matches the pattern and is no calendar date, in `exampleWorld` (UTC+3):
the Date is valid and the step becomes `client_name`. -/
theorem C25_matching_text_always_advances_witness :
    dateMatch "31.4.2025".data = some ("31".data, "4".data, "2025".data) ∧
    (newDate exampleWorld (digitsToNat "2025".data) ((digitsToNat "4".data : Int) - 1)
      (digitsToNat "31".data)).isSome = true ∧
    stepOf (creationInput exampleWorld (runUpdates (fun _ => none) exampleUpdates)
      1001 (some "31.4.2025")).states 1001 = some .client_name :=
  have h := C25_matching_text_always_advances exampleUpdates exampleWorld 1001
    { step := .date, data := some { service_name := some "Аренда пылесоса Karcher Puzzi 8/1 C" } }
    "31.4.2025" "31".data "4".data "2025".data (by decide) rfl (by decide)
    (fun _ => ⟨show (-86400000 : Int) ≤ 10800000 by decide,
               show (10800000 : Int) ≤ 86400000 by decide⟩)
  ⟨by decide, h.1, h.2.2.2⟩

end Karcher
